import Mathlib

/-! # Post-classification judgment engine (work2_thread.cpp)

A shallow embedding of the judgment code of `src/work2_thread.cpp` and
`src/work2_thresh.hpp`: the false-start resolver `evaluateMissedPrediction`,
the six judgment rules, the rule chain `handleInferenceAndReturnResult`, the
counter switch of `handleInferenceResult`, the multi-dish reduction of
`runInferenceForMulti`, the ranking `getTopKPredictions` and the order ingestion
`getOrderData`.

Conventions of the embedding:

* `float` scores and thresholds are rational numbers (`ℚ`); the code only
  compares them and subtracts two of them, and the subtraction rounds its result
  to single precision (`float_sub`).
* `int` values are `Int`; no arithmetic of the judgment code can overflow apart
  from a counter `++`, which is modelled on unbounded integers.
* `std::map<std::string, T>` is a partial function `String → Option T`;
  `.at(key)` is `map_at`, which fails with `Fault.out_of_range` on a missing key.
* A function that can throw, or index a vector past its end, returns
  `Except Fault _`.
* The member variables a method reads or writes are the fields of `App`, passed
  as the explicit argument `self`.
* The source file holds methods of two classes, `APCTestAppTop2Threshold` and
  `APCTestApp`, which share their state and their helper methods; each method is
  placed in the namespace of the class it is defined for.
-/

set_option autoImplicit false

/-! ## Data model -/

/-- Ways in which a C++ function of the engine ends without returning a value. -/
inductive Fault where
  /-- Thrown by `std::map::at` on a missing key. -/
  | out_of_range
  /-- A `std::vector::operator[]` read at an index that is not below `size()`. -/
  | past_the_end
  /-- Thrown by `std::stof` when no conversion can be performed. -/
  | invalid_argument
  /-- A read through a reference to an object whose lifetime has ended. -/
  | dangling_reference
  deriving DecidableEq, Repr

deriving instance DecidableEq for Except

/-- The outcome enumeration `PostProcessResult`: the eleven enumerators of
`work2_thresh.hpp` together with `TOP1_THRESH_CORRECT`, which `work2_thread.cpp` uses. -/
inductive PostProcessResult where
  | NO_HIT
  | TOP1_CORRECT
  | TOP2_CORRECT
  | TOP1_THRESH_CORRECT
  | TOP2_THRESH_CORRECT
  | DIFF_THRESH_CORRECT
  | FALSE_TRIGGER
  | MANUAL
  | TOP1_FALSE_START
  | TOP1_MANUAL
  | TOP2_FALSE_START
  | TOP2_MANUAL
  deriving DecidableEq, Repr

/-- A recognisable class; only its `class_code` is read by the engine. -/
structure E_Class where
  class_code : Int
  deriving DecidableEq, Repr

/-- One row of the order feed, as filled in by `getOrderData`. -/
structure ORDER_DATA where
  order_no : Int
  lane_no : Int
  seat_no : Int
  type : Int
  amount : Int
  tcommodity_cd : Int
  o_c : String
  /-- Read by `getOrderData` when it fills the monitor; no source file assigns it. -/
  amount_no : Int := 0
  deriving DecidableEq, Repr

/-- The structure `Config` of `work2_thresh.hpp`, with its default member values. -/
structure Config where
  threshold_top1 : ℚ := 1 / 2
  threshold_top2 : ℚ := 2 / 5
  diff_threshold : ℚ := 1 / 5
  topK_threshold : ℚ := 1 / 10
  post_process_flags : Int := 15
  deriving DecidableEq

/-- The enumeration `ConfigType`. -/
inductive ConfigType where
  | top1_thresh
  | top2_thresh
  | diff_thresh
  | topk_thresh
  | PostProcessing
  deriving DecidableEq, Repr

/-- The ranked candidates `std::vector<std::pair<float, E_Class>>`. -/
abbrev TopK := List (ℚ × E_Class)

/-- The map `monitor_info`: lane, then menu category, then attribute name
(`"ORDER_NO"`, `"SEAT_NO"`, `"TCOMMODITY_CD"`, `"AMOUNT"`), to a vector of integers. -/
abbrev MonitorInfo := String → Option (String → Option (String → Option (List Int)))

/-- The map `countor`: lane, menu category and bucket name to a count. Every access of
the code goes through `operator[]`, under which an absent entry reads as `0`. -/
abbrev Countor := String → String → String → Int

/-- The member variables of the application object that the judgment code touches. -/
structure App where
  lane : String
  menu_catecogy : String
  m_config : Config
  monitor_info : MonitorInfo
  countor : Countor

/-- The element `Rect` of a recognition result: `p_confidence_l` is a nullable pointer to
the confidence vector. -/
structure Rect where
  p_confidence_l : Option (List ℚ)

/-- The constant `NETA_CLASS_NUM`. -/
def NETA_CLASS_NUM : Nat := 191

/-- The read `m.at(key)` of a `std::map`. -/
def map_at {α : Type} (m : String → Option α) (key : String) : Except Fault α :=
  match m key with
  | some v => .ok v
  | none => .error .out_of_range

/-- The pair `std::find` / `std::distance` over a `std::vector<int>`: the position of the
first element equal to `v`, or `none` when `std::find` returns `end()`. -/
def std_find : List Int → Int → Option Nat
  | [], _ => none
  | x :: rest, v => if x = v then some 0 else (std_find rest v).map (· + 1)

/-- Modelled from the spec: the helper `isTopPredictionAcceptable(predicted_seat,
valid_seat_list)` is called by `evaluateMissedPrediction` but defined in no source
file; section 4.3 of the spec compares the matched seat against `validSeats` by membership. -/
def isTopPredictionAcceptable (predicted_seat : Int) (valid_seat_list : List Int) : Bool :=
  decide (predicted_seat ∈ valid_seat_list)

/-- The method `getLaneMenuCate`: it assigns the members `lane` and `menu_catecogy` from the
order and returns them; a lane number outside 1..3, or a type outside 0..4 and 7, leaves the
member at the value it had. -/
def getLaneMenuCate (self : App) (order_data_row : ORDER_DATA) : String × String :=
  let lane :=
    if order_data_row.lane_no = 1 then "A"
    else if order_data_row.lane_no = 2 then "B"
    else if order_data_row.lane_no = 3 then "C"
    else self.lane
  let menu_catecogy :=
    if order_data_row.type = 0 ∨ order_data_row.type = 4 then "side"
    else if order_data_row.type = 3 ∨ order_data_row.type = 7 then "dessert"
    else if order_data_row.type = 1 then "nigiri"
    else if order_data_row.type = 2 then "gunkan"
    else self.menu_catecogy
  (lane, menu_catecogy)

/-- The state after a call of `getLaneMenuCate`: the two members hold the returned pair. -/
def App.afterGetLaneMenuCate (self : App) (order_data_row : ORDER_DATA) : App :=
  { self with
    lane := (getLaneMenuCate self order_data_row).1
    menu_catecogy := (getLaneMenuCate self order_data_row).2 }

/-- The category loop of `evaluateMissedPrediction`, over the categories still to visit. -/
def evaluateMissedPrediction.scan (lane : String) (predicted_class : Int)
    (valid_seat_list : List Int) (monitor_info : MonitorInfo) (isTop1 : Bool) :
    List String → Except Fault PostProcessResult
  | [] => .ok (if isTop1 then .TOP1_MANUAL else .TOP2_MANUAL)
  | item :: rest => do
    let class_list ← map_at (← map_at (← map_at monitor_info lane) item) "TCOMMODITY_CD"
    match std_find class_list predicted_class with
    | some idx => do
      let seat_list ← map_at (← map_at (← map_at monitor_info lane) item) "SEAT_NO"
      match seat_list[idx]? with
      | none => .error .past_the_end
      | some predicted_seat =>
        if isTopPredictionAcceptable predicted_seat valid_seat_list then
          .ok (if isTop1 then .TOP1_FALSE_START else .TOP2_FALSE_START)
        else
          .ok (if isTop1 then .TOP1_MANUAL else .TOP2_MANUAL)
    | none => evaluateMissedPrediction.scan lane predicted_class valid_seat_list monitor_info isTop1 rest

/-- The method `evaluateMissedPrediction` (the argument `menu_category` is not read). -/
def evaluateMissedPrediction (lane : String) (_menu_category : String) (predicted_class : Int)
    (valid_seat_list : List Int) (monitor_info : MonitorInfo) (isTop1 : Bool) :
    Except Fault PostProcessResult :=
  evaluateMissedPrediction.scan lane predicted_class valid_seat_list monitor_info isTop1
    ["nigiri", "gunkan", "side", "dessert"]

/-! ## Arithmetic of type `float`

A value of type `float` is a rational number of the form `m * 2 ^ e` with `|m| < 2 ^ 24` and
`e ≥ -149` (IEEE 754 single precision). Two such values compare as the rationals they are;
an arithmetic operation returns the value of this form nearest to the exact result, a tie
going to the even `m`. Results of magnitude `2 ^ 128` and above, which the format replaces
by an infinity, do not arise from scores. -/

/-- The integer nearest to `q`; a `q` half-way between two integers goes to the even one. -/
def float_nearest_even (q : ℚ) : Int :=
  if q - ⌊q⌋ < 1 / 2 then ⌊q⌋
  else if 1 / 2 < q - ⌊q⌋ then ⌊q⌋ + 1
  else if ⌊q⌋ % 2 = 0 then ⌊q⌋
  else ⌊q⌋ + 1

/-- The search for the spacing of the `float` values around `x ≥ 0`: the candidate `u` is
halved until `x` is at least `2 ^ 23 * u` or the halvings are used up. -/
def float_ulp.search (x : ℚ) : Nat → ℚ → ℚ
  | 0, u => u
  | n + 1, u => if 2 ^ 23 * u ≤ x then u else float_ulp.search x n (u / 2)

/-- The spacing of the `float` values around `x`: the power of two `u` with
`2 ^ 23 * u ≤ |x| < 2 ^ 24 * u`, from `2 ^ 104` for the largest magnitudes down to
`2 ^ (-149)` for the smallest. -/
def float_ulp (x : ℚ) : ℚ :=
  float_ulp.search |x| 253 (2 ^ 104)

/-- The `float` nearest to `x`. -/
def float_round (x : ℚ) : ℚ :=
  float_nearest_even (x / float_ulp x) * float_ulp x

/-- The subtraction `a - b` of two `float` values. -/
def float_sub (a b : ℚ) : ℚ :=
  float_round (a - b)

/-! ## The judgment rules -/

/-- The read `v[i]` of a `std::vector`, which is undefined past the end. -/
def vec_at {α : Type} (v : List α) (i : Nat) : Except Fault α :=
  match v[i]? with
  | some x => .ok x
  | none => .error .past_the_end

namespace APCTestAppTop2Threshold

/-- The rule `processTop1Judge`. -/
def processTop1Judge (self : App) (order : ORDER_DATA) (topK : TopK)
    (valid_seat_list : List Int) (monitor_info : MonitorInfo) : Except Fault PostProcessResult :=
  if topK.isEmpty then .ok .NO_HIT
  else
    let (lane, menu_category) := getLaneMenuCate self order
    do
      let top1 ← vec_at topK 0
      if top1.2.class_code = order.tcommodity_cd then .ok .TOP1_CORRECT
      else
        evaluateMissedPrediction lane menu_category top1.2.class_code valid_seat_list
          monitor_info true

/-- The rule `processTop2Judge`. Step 4 reads `topK[1]` whether or not it exists. -/
def processTop2Judge (self : App) (order : ORDER_DATA) (topK : TopK)
    (valid_seat_list : List Int) (monitor_info : MonitorInfo) : Except Fault PostProcessResult :=
  if topK.isEmpty then .ok .NO_HIT
  else
    let (lane, menu_category) := getLaneMenuCate self order
    do
      let top1 ← vec_at topK 0
      if top1.2.class_code = order.tcommodity_cd then .ok .TOP1_CORRECT
      else do
        let top1_result ← evaluateMissedPrediction lane menu_category top1.2.class_code
          valid_seat_list monitor_info true
        if top1_result = .TOP1_FALSE_START then .ok top1_result
        else if topK.length > 1 ∧
            (topK[1]?.map fun top2 => top2.2.class_code) = some order.tcommodity_cd then
          .ok .TOP2_CORRECT
        else do
          let top2 ← vec_at topK 1
          evaluateMissedPrediction lane menu_category top2.2.class_code valid_seat_list
            monitor_info false

/-- The rule `processTop2ThreshJudge`. -/
def processTop2ThreshJudge (self : App) (order : ORDER_DATA) (topK : TopK)
    (valid_seat_list : List Int) (monitor_info : MonitorInfo) : Except Fault PostProcessResult :=
  if topK.isEmpty then .ok .NO_HIT
  else
    let (lane, menu_category) := getLaneMenuCate self order
    do
      let top1 ← vec_at topK 0
      if top1.2.class_code = order.tcommodity_cd then .ok .TOP1_CORRECT
      else do
        let top1_result ← evaluateMissedPrediction lane menu_category top1.2.class_code
          valid_seat_list monitor_info true
        if top1_result = .TOP1_FALSE_START then .ok top1_result
        else if topK.length ≤ 1 then .ok .TOP2_MANUAL
        else do
          let top2 ← vec_at topK 1
          if top2.1 < self.m_config.threshold_top2 then .ok .TOP2_MANUAL
          else if top2.2.class_code = order.tcommodity_cd then .ok .TOP2_THRESH_CORRECT
          else
            evaluateMissedPrediction lane menu_category top2.2.class_code valid_seat_list
              monitor_info false

/-- The rule `APCTestAppTop2Threshold::processTopKAboveThreshJudge`: the first candidate at or
above the threshold whose class is the ordered one gives `TOP1_CORRECT`; it reads neither the
seats nor the monitor. -/
def processTopKAboveThreshJudge (self : App) (order : ORDER_DATA) (topK : TopK)
    (_valid_seat_list : List Int) (_monitor_info : MonitorInfo) :
    Except Fault PostProcessResult :=
  match topK with
  | [] => .ok .NO_HIT
  | (score, e_class) :: rest =>
    if score ≥ self.m_config.topK_threshold ∧ e_class.class_code = order.tcommodity_cd then
      .ok .TOP1_CORRECT
    else processTopKAboveThreshJudge self order rest _valid_seat_list _monitor_info

end APCTestAppTop2Threshold

namespace APCTestApp

/-- The rule `processScoreGapJudge` (the source file holds two identical copies of it). -/
def processScoreGapJudge (self : App) (order : ORDER_DATA) (topK : TopK)
    (valid_seat_list : List Int) (monitor_info : MonitorInfo) : Except Fault PostProcessResult :=
  if topK.length < 2 then .ok .NO_HIT
  else
    let (lane, menu_category) := getLaneMenuCate self order
    do
      let top1 ← vec_at topK 0
      let top2 ← vec_at topK 1
      let top1_class := top1.2.class_code
      let top2_class := top2.2.class_code
      let score_diff := float_sub top1.1 top2.1
      if top1_class = order.tcommodity_cd then .ok .TOP1_CORRECT
      else do
        let top1_result ← evaluateMissedPrediction lane menu_category top1_class
          valid_seat_list monitor_info true
        if top1_result = .TOP1_FALSE_START then .ok top1_result
        else if score_diff > self.m_config.diff_threshold then .ok .TOP1_MANUAL
        else if top2_class = order.tcommodity_cd then .ok .DIFF_THRESH_CORRECT
        else
          evaluateMissedPrediction lane menu_category top2_class valid_seat_list
            monitor_info false

/-- The candidate loop of the rank-based `processTopKAboveThreshJudge`, entered with the
current value of `rank` and the candidates still to visit. -/
def processTopKAboveThreshJudge.loop (self : App) (order : ORDER_DATA) (lane menu_category : String)
    (valid_seat_list : List Int) (monitor_info : MonitorInfo) :
    Int → TopK → Except Fault PostProcessResult
  | _, [] => .ok .TOP2_MANUAL
  | rank, (score, e_class) :: rest =>
    if score < self.m_config.topK_threshold then
      .ok (if rank = 1 then .TOP1_MANUAL else .TOP2_MANUAL)
    else
      let candidate_class := e_class.class_code
      if candidate_class = order.tcommodity_cd then
        .ok (if rank = 1 then .TOP1_THRESH_CORRECT else .TOP2_THRESH_CORRECT)
      else do
        let result ← evaluateMissedPrediction lane menu_category candidate_class
          valid_seat_list monitor_info (decide (rank = 1))
        if (rank = 1 ∧ result = .TOP1_FALSE_START) ∨ (rank ≥ 2 ∧ result = .TOP2_FALSE_START) then
          .ok result
        else
          processTopKAboveThreshJudge.loop self order lane menu_category valid_seat_list
            monitor_info (rank + 1) rest

/-- The rank-based rule `APCTestApp::processTopKAboveThreshJudge`. -/
def processTopKAboveThreshJudge (self : App) (order : ORDER_DATA) (topK : TopK)
    (valid_seat_list : List Int) (monitor_info : MonitorInfo) : Except Fault PostProcessResult :=
  if topK.isEmpty then .ok .NO_HIT
  else
    let (lane, menu_category) := getLaneMenuCate self order
    processTopKAboveThreshJudge.loop self order lane menu_category valid_seat_list monitor_info
      1 topK

/-- The rule `processTop1ThreshJudge`. -/
def processTop1ThreshJudge (self : App) (order : ORDER_DATA) (topK : TopK)
    (valid_seat_list : List Int) (monitor_info : MonitorInfo) : Except Fault PostProcessResult :=
  if topK.isEmpty then .ok .NO_HIT
  else
    let (lane, menu_category) := getLaneMenuCate self order
    do
      let top1 ← vec_at topK 0
      let top1_class := top1.2.class_code
      let top1_score := top1.1
      if top1_class = order.tcommodity_cd ∧ top1_score ≥ self.m_config.threshold_top1 then
        .ok .TOP1_CORRECT
      else
        evaluateMissedPrediction lane menu_category top1_class valid_seat_list monitor_info true

end APCTestApp

/-! ## Collaborators outside the source files -/

/-- What the engine takes from outside the source files: the lines of the file at
`configPath` (none when the file cannot be opened), the conversion `std::stof`, the library
routine `std::sort` as applied to the (score, index) pairs with the comparator
`a.first > b.first`, the table `class_info_recognize` and the seat window
`set_lane_seat_no`, declared in headers that are not part of the source files. -/
structure Env where
  configFile : List String
  stof : String → Except Fault ℚ
  sort : List (ℚ × Nat) → List (ℚ × Nat)
  class_info_recognize : Nat → Option E_Class
  set_lane_seat_no : String → Int → List Int

/-! ## Configuration -/

/-- The test `line.find(key) == 0`: the line starts with the key. -/
def starts_with (line key : String) : Bool :=
  key.data.isPrefixOf line.data

/-- The call `line.substr(n)` for `n` not above the length of the line. -/
def substr_from (line : String) (n : Nat) : String :=
  String.mk (line.data.drop n)

/-- The call `std::stoi(flagStr, nullptr, 2)` on a string of binary digits. -/
def stoi_base2 (flagStr : String) : Int :=
  flagStr.data.foldl (fun acc ch => 2 * acc + (if ch = '1' then 1 else 0)) 0

/-- The body of the `while (std::getline(infile, line))` loop of `loadConfig`: the effect of
one line on `m_config`. -/
def loadConfig.line (env : Env) (type : ConfigType) (m_config : Config) (line : String) :
    Except Fault Config :=
  match type with
  | .top1_thresh =>
    if starts_with line "THRESHOLD_TOP1=" then do
      let v ← env.stof (substr_from line "THRESHOLD_TOP1=".length)
      pure { m_config with threshold_top1 := v }
    else pure m_config
  | .top2_thresh =>
    if starts_with line "THRESHOLD_TOP2=" then do
      let v ← env.stof (substr_from line "THRESHOLD_TOP2=".length)
      pure { m_config with threshold_top2 := v }
    else pure m_config
  | .diff_thresh =>
    if starts_with line "THRESHOLD_DIFF=" then do
      let v ← env.stof (substr_from line "THRESHOLD_DIFF=".length)
      pure { m_config with diff_threshold := v }
    else pure m_config
  | .topk_thresh =>
    if starts_with line "THRESHOLD_TOPK=" then do
      let v ← env.stof (substr_from line "THRESHOLD_TOPK=".length)
      pure { m_config with topK_threshold := v }
    else pure m_config
  | .PostProcessing =>
    if starts_with line "POST_PROCESS_ENABLE=" then
      let flagStr := substr_from line "POST_PROCESS_ENABLE=".length
      if flagStr.length = 8 ∧ flagStr.data.all (fun ch => ch = '0' ∨ ch = '1') then
        pure { m_config with post_process_flags := stoi_base2 flagStr }
      else pure m_config
    else pure m_config

/-- The method `loadConfig`: every line of the file updates the member `m_config`, which is
returned. -/
def loadConfig (env : Env) (self : App) (type : ConfigType) : Except Fault (Config × App) := do
  let m_config ← env.configFile.foldlM (loadConfig.line env type) self.m_config
  pure (m_config, { self with m_config := m_config })

/-! ## Ranking -/

/-- The method `getTopKPredictions`. -/
def getTopKPredictions (sort : List (ℚ × Nat) → List (ℚ × Nat)) (scores : List ℚ) (k : Int)
    (threshold : ℚ) (class_info_recognize : Nat → Option E_Class) : TopK :=
  let temp := scores.enum.map fun p => (p.2, p.1)
  let temp := sort temp
  let temp :=
    if k > 0 then
      if (temp.length : Int) > k then temp.take k.toNat else temp
    else temp.filter fun p => ¬ p.1 < threshold
  temp.filterMap fun p => (class_info_recognize p.2).map fun c => (p.1, c)

/-! ## The library routine `std::sort`

The source calls `std::sort` at line 270. What follows is the routine as the GNU C++ library
implements it (`bits/stl_algo.h` and `bits/stl_heap.h`): an introsort that partitions ranges
of more than 16 elements around a median of three, falls back to a heap sort when its depth
limit is used up, and finishes with an insertion sort. The vector is a list, an iterator is
a position in it, and a loop of the library is a recursion on a count that bounds its
iterations. The unguarded loops of the library stay inside the vector for a comparator that
is a strict weak ordering, which `a.first > b.first` is; a read outside the vector ends the
loop here. -/

namespace std

/-- The call `std::iter_swap(a, b)`. -/
def iter_swap {α : Type} (v : List α) (a b : Nat) : List α :=
  match v[a]?, v[b]? with
  | some x, some y => (v.set a y).set b x
  | _, _ => v

/-- The call `__comp(a, b)` of the comparator on the elements at two positions. -/
def comp_iter {α : Type} (comp : α → α → Bool) (v : List α) (a b : Nat) : Bool :=
  match v[a]?, v[b]? with
  | some x, some y => comp x y
  | _, _ => false

/-- The routine `__move_median_to_first`. -/
def __move_median_to_first {α : Type} (comp : α → α → Bool) (v : List α)
    (result a b c : Nat) : List α :=
  if comp_iter comp v a b then
    if comp_iter comp v b c then iter_swap v result b
    else if comp_iter comp v a c then iter_swap v result c
    else iter_swap v result a
  else if comp_iter comp v a c then iter_swap v result a
  else if comp_iter comp v b c then iter_swap v result c
  else iter_swap v result b

/-- The loop of `__unguarded_linear_insert` with `__last` at the given position and `__next`
one before it. -/
def __unguarded_linear_insert.loop {α : Type} (comp : α → α → Bool) (val : α) :
    List α → Nat → List α
  | v, 0 => v.set 0 val
  | v, next + 1 =>
    match v[next]? with
    | some x =>
      if comp val x then __unguarded_linear_insert.loop comp val (v.set (next + 1) x) next
      else v.set (next + 1) val
    | none => v.set (next + 1) val

/-- The routine `__unguarded_linear_insert`. -/
def __unguarded_linear_insert {α : Type} (comp : α → α → Bool) (v : List α) (last : Nat) :
    List α :=
  match v[last]? with
  | some val => __unguarded_linear_insert.loop comp val v last
  | none => v

/-- The loop of `__insertion_sort` at position `i`, with the number of positions still to
visit. -/
def __insertion_sort.loop {α : Type} (comp : α → α → Bool) (first : Nat) :
    Nat → Nat → List α → List α
  | 0, _, v => v
  | n + 1, i, v =>
    if comp_iter comp v i first then
      match v[i]? with
      | some val =>
        __insertion_sort.loop comp first n (i + 1)
          (v.take first ++ val :: (v.drop first).take (i - first) ++ v.drop (i + 1))
      | none => v
    else __insertion_sort.loop comp first n (i + 1) (__unguarded_linear_insert comp v i)

/-- The routine `__insertion_sort`. -/
def __insertion_sort {α : Type} (comp : α → α → Bool) (v : List α) (first last : Nat) :
    List α :=
  if first = last then v
  else __insertion_sort.loop comp first (last - (first + 1)) (first + 1) v

/-- The loop of `__unguarded_insertion_sort` at position `i`. -/
def __unguarded_insertion_sort.loop {α : Type} (comp : α → α → Bool) :
    Nat → Nat → List α → List α
  | 0, _, v => v
  | n + 1, i, v =>
    __unguarded_insertion_sort.loop comp n (i + 1) (__unguarded_linear_insert comp v i)

/-- The routine `__unguarded_insertion_sort`. -/
def __unguarded_insertion_sort {α : Type} (comp : α → α → Bool) (v : List α)
    (first last : Nat) : List α :=
  __unguarded_insertion_sort.loop comp (last - first) first v

/-- The enumerator `_S_threshold`. -/
def _S_threshold : Nat := 16

/-- The routine `__final_insertion_sort`. -/
def __final_insertion_sort {α : Type} (comp : α → α → Bool) (v : List α) (first last : Nat) :
    List α :=
  if last - first > _S_threshold then
    __unguarded_insertion_sort comp (__insertion_sort comp v first (first + _S_threshold))
      (first + _S_threshold) last
  else __insertion_sort comp v first last

/-- The loop `while (__comp(__first, __pivot)) ++__first;` of `__unguarded_partition`. -/
def __unguarded_partition.up {α : Type} (comp : α → α → Bool) (v : List α) (pivot : Nat) :
    Nat → Nat → Nat
  | 0, first => first
  | n + 1, first =>
    if comp_iter comp v first pivot then __unguarded_partition.up comp v pivot n (first + 1)
    else first

/-- The loop `while (__comp(__pivot, __last)) --__last;` of `__unguarded_partition`. -/
def __unguarded_partition.down {α : Type} (comp : α → α → Bool) (v : List α) (pivot : Nat) :
    Nat → Nat
  | 0 => 0
  | last + 1 =>
    if comp_iter comp v pivot (last + 1) then __unguarded_partition.down comp v pivot last
    else last + 1

/-- The outer loop `while (true)` of `__unguarded_partition`. -/
def __unguarded_partition.loop {α : Type} (comp : α → α → Bool) (pivot : Nat) :
    Nat → List α → Nat → Nat → Nat × List α
  | 0, v, first, _ => (first, v)
  | n + 1, v, first, last =>
    let first := __unguarded_partition.up comp v pivot (v.length - first) first
    let last := __unguarded_partition.down comp v pivot (last - 1)
    if ¬ first < last then (first, v)
    else __unguarded_partition.loop comp pivot n (iter_swap v first last) (first + 1) last

/-- The routine `__unguarded_partition`: the cut and the vector after the swaps. -/
def __unguarded_partition {α : Type} (comp : α → α → Bool) (v : List α)
    (first last pivot : Nat) : Nat × List α :=
  __unguarded_partition.loop comp pivot v.length v first last

/-- The routine `__unguarded_partition_pivot`. -/
def __unguarded_partition_pivot {α : Type} (comp : α → α → Bool) (v : List α)
    (first last : Nat) : Nat × List α :=
  let mid := first + (last - first) / 2
  __unguarded_partition comp (__move_median_to_first comp v first (first + 1) mid (last - 1))
    (first + 1) last first

/-- The loop of `__push_heap`. -/
def __push_heap.loop {α : Type} (comp : α → α → Bool) (first topIndex : Nat) (value : α) :
    Nat → List α → Nat → List α
  | 0, v, holeIndex => v.set (first + holeIndex) value
  | n + 1, v, holeIndex =>
    let parent := (holeIndex - 1) / 2
    match v[first + parent]? with
    | some p =>
      if holeIndex > topIndex ∧ comp p value then
        __push_heap.loop comp first topIndex value n (v.set (first + holeIndex) p) parent
      else v.set (first + holeIndex) value
    | none => v.set (first + holeIndex) value

/-- The routine `__push_heap`. -/
def __push_heap {α : Type} (comp : α → α → Bool) (v : List α)
    (first holeIndex topIndex : Nat) (value : α) : List α :=
  __push_heap.loop comp first topIndex value (holeIndex + 1) v holeIndex

/-- The loop of `__adjust_heap`; `__holeIndex` and `__secondChild` are equal whenever its
condition is tested. -/
def __adjust_heap.loop {α : Type} (comp : α → α → Bool) (first len : Nat) :
    Nat → List α → Nat → Nat × List α
  | 0, v, holeIndex => (holeIndex, v)
  | n + 1, v, holeIndex =>
    if holeIndex < (len - 1) / 2 then
      let secondChild := 2 * (holeIndex + 1)
      let secondChild :=
        if comp_iter comp v (first + secondChild) (first + (secondChild - 1)) then
          secondChild - 1
        else secondChild
      match v[first + secondChild]? with
      | some x => __adjust_heap.loop comp first len n (v.set (first + holeIndex) x) secondChild
      | none => (holeIndex, v)
    else (holeIndex, v)

/-- The routine `__adjust_heap`, for a heap of at least one element. -/
def __adjust_heap {α : Type} (comp : α → α → Bool) (v : List α)
    (first holeIndex len : Nat) (value : α) : List α :=
  let (secondChild, v1) := __adjust_heap.loop comp first len len v holeIndex
  if len % 2 = 0 ∧ secondChild = (len - 2) / 2 then
    match v1[first + (2 * (secondChild + 1) - 1)]? with
    | some x =>
      __push_heap comp (v1.set (first + secondChild) x) first (2 * (secondChild + 1) - 1)
        holeIndex value
    | none => __push_heap comp v1 first secondChild holeIndex value
  else __push_heap comp v1 first secondChild holeIndex value

/-- The routine `__pop_heap`. -/
def __pop_heap {α : Type} (comp : α → α → Bool) (v : List α) (first last result : Nat) :
    List α :=
  match v[result]?, v[first]? with
  | some value, some top => __adjust_heap comp (v.set result top) first 0 (last - first) value
  | _, _ => v

/-- The loop of `__make_heap` at the given `__parent`. -/
def __make_heap.loop {α : Type} (comp : α → α → Bool) (first len : Nat) :
    List α → Nat → List α
  | v, 0 =>
    match v[first]? with
    | some value => __adjust_heap comp v first 0 len value
    | none => v
  | v, parent + 1 =>
    match v[first + (parent + 1)]? with
    | some value =>
      __make_heap.loop comp first len (__adjust_heap comp v first (parent + 1) len value)
        parent
    | none => v

/-- The routine `__make_heap`. -/
def __make_heap {α : Type} (comp : α → α → Bool) (v : List α) (first last : Nat) : List α :=
  if last - first < 2 then v
  else __make_heap.loop comp first (last - first) v ((last - first - 2) / 2)

/-- The loop of `__sort_heap`. -/
def __sort_heap.loop {α : Type} (comp : α → α → Bool) (first : Nat) :
    Nat → List α → Nat → List α
  | 0, v, _ => v
  | n + 1, v, last =>
    if last - first > 1 then
      __sort_heap.loop comp first n (__pop_heap comp v first (last - 1) (last - 1)) (last - 1)
    else v

/-- The routine `__sort_heap`. -/
def __sort_heap {α : Type} (comp : α → α → Bool) (v : List α) (first last : Nat) : List α :=
  __sort_heap.loop comp first (last - first) v last

/-- The loop of `__heap_select` at position `i`. -/
def __heap_select.loop {α : Type} (comp : α → α → Bool) (first middle : Nat) :
    Nat → Nat → List α → List α
  | 0, _, v => v
  | n + 1, i, v =>
    __heap_select.loop comp first middle n (i + 1)
      (if comp_iter comp v i first then __pop_heap comp v first middle i else v)

/-- The routine `__heap_select`. -/
def __heap_select {α : Type} (comp : α → α → Bool) (v : List α) (first middle last : Nat) :
    List α :=
  __heap_select.loop comp first middle (last - middle) middle (__make_heap comp v first middle)

/-- The routine `__partial_sort`. -/
def __partial_sort {α : Type} (comp : α → α → Bool) (v : List α) (first middle last : Nat) :
    List α :=
  __sort_heap comp (__heap_select comp v first middle last) first middle

/-- The routine `__introsort_loop`; every iteration of its loop lowers `__depth_limit`
by one. -/
def __introsort_loop {α : Type} (comp : α → α → Bool) : Nat → List α → Nat → Nat → List α
  | 0, v, first, last =>
    if last - first > _S_threshold then __partial_sort comp v first last last else v
  | depth_limit + 1, v, first, last =>
    if last - first > _S_threshold then
      let (cut, v1) := __unguarded_partition_pivot comp v first last
      __introsort_loop comp depth_limit (__introsort_loop comp depth_limit v1 cut last) first
        cut
    else v

/-- The function `__lg`: the position of the highest set bit. -/
def __lg (n : Nat) : Nat := Nat.log2 n

/-- The routine `std::sort(v.begin(), v.end(), comp)`. -/
def sort {α : Type} (comp : α → α → Bool) (v : List α) : List α :=
  if v.length = 0 then v
  else
    __final_insertion_sort comp (__introsort_loop comp (__lg v.length * 2) v 0 v.length) 0
      v.length

end std

/-- The call of line 270: `std::sort` with the comparator `a.first > b.first`. -/
def sort_by_score : List (ℚ × Nat) → List (ℚ × Nat) :=
  std.sort fun a b => decide (a.1 > b.1)

/-! ## The rule chain -/

/-- The type `PostProcessFunc` of a rule bound to the application object. -/
abbrev PostProcessFunc :=
  App → ORDER_DATA → TopK → List Int → MonitorInfo → Except Fault PostProcessResult

/-- The global `postProcessChain` as `APCTestAppTop2Threshold::initPostProcessChain` fills it.
Each entry is the method of that name; `processScoreGapJudge` and `processTop1ThreshJudge`
are defined in the source file for `APCTestApp` only. -/
def APCTestAppTop2Threshold.initPostProcessChain : List PostProcessFunc :=
  [APCTestAppTop2Threshold.processTop1Judge,
   APCTestAppTop2Threshold.processTop2Judge,
   APCTestAppTop2Threshold.processTop2ThreshJudge,
   APCTestApp.processScoreGapJudge,
   APCTestAppTop2Threshold.processTopKAboveThreshJudge,
   APCTestApp.processTop1ThreshJudge]

/-- The test `(flags >> i) & 1` of the chain loops. -/
def flagBit (post_process_flags : Int) (i : Nat) : Bool :=
  decide (Int.land (post_process_flags >>> i) 1 ≠ 0)

namespace APCTestApp

/-- The loop of `handleInferenceAndReturnResult` over the chain, entered at index `i` with
the rules from that index on. -/
def handleInferenceAndReturnResult.loop (self : App) (order : ORDER_DATA) (topK : TopK)
    (valid_seats : List Int) (post_process_flags : Int) :
    Nat → List PostProcessFunc → Except Fault PostProcessResult
  | _, [] => .ok .TOP1_MANUAL
  | i, rule :: rest =>
    if flagBit post_process_flags i then do
      let result ← rule self order topK valid_seats self.monitor_info
      if result ≠ .NO_HIT then .ok result
      else
        handleInferenceAndReturnResult.loop self order topK valid_seats post_process_flags
          (i + 1) rest
    else
      handleInferenceAndReturnResult.loop self order topK valid_seats post_process_flags
        (i + 1) rest

/-- The method `handleInferenceAndReturnResult`, returning the outcome together with the
state it leaves (the members written by `getLaneMenuCate` and `loadConfig`). Of a confidence
buffer the first `NETA_CLASS_NUM` scores are read. -/
def handleInferenceAndReturnResult (env : Env) (postProcessChain : List PostProcessFunc)
    (self : App) (rect_vec : List Rect) (order : ORDER_DATA) :
    Except Fault (PostProcessResult × App) :=
  match rect_vec with
  | [] => .ok (.NO_HIT, self)
  | rect :: _ =>
    match rect.p_confidence_l with
    | none => .ok (.NO_HIT, self)
    | some p =>
      let conf := p.take NETA_CLASS_NUM
      let topK := getTopKPredictions env.sort conf 5 0 env.class_info_recognize
      if topK.isEmpty then .ok (.NO_HIT, self)
      else
        let self1 := self.afterGetLaneMenuCate order
        let valid_seats := env.set_lane_seat_no self1.lane order.seat_no
        do
          let (cfg, self2) ← loadConfig env self1 .PostProcessing
          let result ← handleInferenceAndReturnResult.loop self2 order topK valid_seats
            cfg.post_process_flags 0 postProcessChain
          pure (result, self2)

/-- The statement `countor[lane][menu_category][bucket]++`. -/
def increment (countor : Countor) (lane menu_category bucket : String) : Countor :=
  fun l c b =>
    if l = lane ∧ c = menu_category ∧ b = bucket then countor l c b + 1 else countor l c b

/-- The `switch (result)` of the short-circuit `handleInferenceResult`. -/
def handleInferenceResult.count (countor : Countor) (lane menu_category : String)
    (result : PostProcessResult) : Countor :=
  match result with
  | .TOP1_THRESH_CORRECT => increment countor lane menu_category "TOP1正解数"
  | .TOP1_FALSE_START => increment countor lane menu_category "TOP1誤出発数"
  | .TOP1_MANUAL => increment countor lane menu_category "TOP1手動数"
  | .TOP2_THRESH_CORRECT => increment countor lane menu_category "TOP2正解数"
  | .TOP2_FALSE_START => increment countor lane menu_category "TOP2誤出発数"
  | .TOP2_MANUAL => increment countor lane menu_category "TOP2手動数"
  | _ => countor

/-- The short-circuit method `APCTestApp::handleInferenceResult`: one outcome from the chain,
then the counter switch. -/
def handleInferenceResult (env : Env) (postProcessChain : List PostProcessFunc) (self : App)
    (rect_vec : List Rect) (order : ORDER_DATA) : Except Fault App := do
  let (result, self1) ← handleInferenceAndReturnResult env postProcessChain self rect_vec order
  let self2 := self1.afterGetLaneMenuCate order
  pure { self2 with
    countor := handleInferenceResult.count self2.countor self2.lane self2.menu_catecogy result }

/-- The reduction loop of `runInferenceForMulti` over `dish_results`, entered with the
current `final_result`; a `TOP1_FALSE_START` dish leaves the loop (`break`). -/
def runInferenceForMulti.reduce : PostProcessResult → List PostProcessResult → PostProcessResult
  | final_result, [] => final_result
  | final_result, r :: rest =>
    if r = .TOP1_FALSE_START then .TOP1_FALSE_START
    else if r = .TOP1_THRESH_CORRECT then runInferenceForMulti.reduce .TOP1_THRESH_CORRECT rest
    else if r = .TOP2_FALSE_START ∧ final_result ≠ .TOP1_THRESH_CORRECT then
      runInferenceForMulti.reduce .TOP2_FALSE_START rest
    else if r = .TOP2_MANUAL ∧ final_result ≠ .TOP1_THRESH_CORRECT ∧
        final_result ≠ .TOP2_FALSE_START then
      runInferenceForMulti.reduce .TOP2_MANUAL rest
    else runInferenceForMulti.reduce final_result rest

/-- The `switch (final_result)` of `runInferenceForMulti`. -/
def runInferenceForMulti.count (countor : Countor) (lane menu_category : String)
    (final_result : PostProcessResult) : Countor :=
  match final_result with
  | .TOP1_FALSE_START => increment countor lane menu_category "TOP1誤出発数"
  | .TOP1_THRESH_CORRECT => increment countor lane menu_category "TOP1正解数"
  | .TOP2_FALSE_START => increment countor lane menu_category "TOP2誤出発数"
  | .TOP2_MANUAL => increment countor lane menu_category "TOP2手動数"
  | .TOP2_THRESH_CORRECT => increment countor lane menu_category "TOP2正解数"
  | _ => countor

/-- The dish loop of `runInferenceForMulti`. Each element of `dishes` is one iteration: `none`
when `selectTestImage` fails (the dish is skipped), else the recognition result of the dish. -/
def runInferenceForMulti.collect (env : Env) (postProcessChain : List PostProcessFunc)
    (order : ORDER_DATA) :
    App → List (Option (List Rect)) → Except Fault (List PostProcessResult × App)
  | self, [] => .ok ([], self)
  | self, none :: rest => runInferenceForMulti.collect env postProcessChain order self rest
  | self, some rect_vec :: rest => do
    let (result, self1) ← handleInferenceAndReturnResult env postProcessChain self rect_vec order
    let (dish_results, self2) ← runInferenceForMulti.collect env postProcessChain order self1 rest
    pure (result :: dish_results, self2)

/-- The method `APCTestApp::runInferenceForMulti`, over the `order.amount` iterations given
by `dishes`. -/
def runInferenceForMulti (env : Env) (postProcessChain : List PostProcessFunc) (self : App)
    (dishes : List (Option (List Rect))) (order : ORDER_DATA) : Except Fault App := do
  let (dish_results, self1) ← runInferenceForMulti.collect env postProcessChain order self dishes
  let self2 := self1.afterGetLaneMenuCate order
  let final_result := runInferenceForMulti.reduce .TOP2_THRESH_CORRECT dish_results
  pure { self2 with
    countor := runInferenceForMulti.count self2.countor self2.lane self2.menu_catecogy
      final_result }

end APCTestApp

/-! ## Order ingestion -/

/-- The items that the loop `while (getline(ss, item, ','))` reads from a line, the first
argument holding the characters of the current item in reverse: a comma ends an item, and at
the end of the line a last item is produced only if it has a character. -/
def getline_items.go : List Char → List Char → List String
  | item, [] => if item.isEmpty then [] else [String.mk item.reverse]
  | item, ch :: rest =>
    if ch = ',' then String.mk item.reverse :: getline_items.go [] rest
    else getline_items.go (ch :: item) rest

/-- The items of a line of the order feed. -/
def getline_items (line : String) : List String :=
  getline_items.go [] line.data

/-- The `switch (i)` of `getOrderData` for item number `i`, with `std::stoi` as the
collaborator `stoi`. In case 10 the call `o_c.pop_back()` on an empty item is undefined and
is reported as `past_the_end`. -/
def getOrderData.field (stoi : String → Except Fault Int) (order_data_row : ORDER_DATA)
    (i : Nat) (item : String) : Except Fault ORDER_DATA :=
  match i with
  | 1 => do let v ← stoi item; pure { order_data_row with order_no := v }
  | 2 => do let v ← stoi item; pure { order_data_row with lane_no := v }
  | 3 => do let v ← stoi item; pure { order_data_row with seat_no := v }
  | 4 => do let v ← stoi item; pure { order_data_row with type := v }
  | 6 => do let v ← stoi item; pure { order_data_row with amount := v }
  | 8 => do let v ← stoi item; pure { order_data_row with tcommodity_cd := v }
  | 10 =>
    if item.data.isEmpty then .error .past_the_end
    else pure { order_data_row with o_c := String.mk item.data.dropLast }
  | _ => pure order_data_row

/-- The item loop of `getOrderData`, entered with the counter `i`. -/
def getOrderData.fields (stoi : String → Except Fault Int) :
    ORDER_DATA → Nat → List String → Except Fault ORDER_DATA
  | order_data_row, _, [] => pure order_data_row
  | order_data_row, i, item :: rest => do
    let row ← getOrderData.field stoi order_data_row i item
    getOrderData.fields stoi row (i + 1) rest

/-- The vector `monitor_info[lane][menu_catecogy][attr]` as read through `operator[]`: an
absent lane, category or attribute reads as the empty vector. -/
def monitorList (monitor_info : MonitorInfo) (lane menu_catecogy attr : String) : List Int :=
  match monitor_info lane with
  | none => []
  | some cats =>
    match cats menu_catecogy with
    | none => []
    | some attrs => (attrs attr).getD []

/-- The statement `monitor_info[lane][menu_catecogy][attr].push_back(v)`; `operator[]`
creates the lane, the category and the attribute when they are absent. -/
def push_back (monitor_info : MonitorInfo) (lane menu_catecogy attr : String) (v : Int) :
    MonitorInfo := fun l =>
  if l = lane then
    some fun c =>
      if c = menu_catecogy then
        some fun a =>
          if a = attr then some (monitorList monitor_info lane menu_catecogy attr ++ [v])
          else
            match monitor_info lane with
            | none => none
            | some cats =>
              match cats menu_catecogy with
              | none => none
              | some attrs => attrs a
      else
        match monitor_info lane with
        | none => none
        | some cats => cats c
  else monitor_info l

/-- The local `lane` of `getOrderData` after its lane test; it starts as the empty string. -/
def getOrderData.lane (order_data_row : ORDER_DATA) : String :=
  if order_data_row.lane_no = 1 then "A"
  else if order_data_row.lane_no = 2 then "B"
  else if order_data_row.lane_no = 3 then "C"
  else ""

/-- The local `menu_catecogy` of `getOrderData` after its type test, or `none` when the test
ends in the early `return` of a drink order (type 5 or 6). -/
def getOrderData.menu_catecogy (order_data_row : ORDER_DATA) : Option String :=
  if order_data_row.type = 0 ∨ order_data_row.type = 4 then some "side"
  else if order_data_row.type = 3 ∨ order_data_row.type = 7 then some "dessert"
  else if order_data_row.type = 1 then some "nigiri"
  else if order_data_row.type = 2 then some "gunkan"
  else if order_data_row.type = 5 ∨ order_data_row.type = 6 then none
  else some ""

/-- The part of `getOrderData` after the item loop: the lane and type tests, then the
counter and monitor updates. The vector `"TCOMMODITY_CD"` receives `order_data_row.type` and
the vector `"AMOUNT"` receives `order_data_row.amount_no`, as the source has it. -/
def getOrderData.ingest (self : App) (order_data_row : ORDER_DATA) : App :=
  let lane := getOrderData.lane order_data_row
  match getOrderData.menu_catecogy order_data_row with
  | none => self
  | some menu_catecogy =>
    if order_data_row.o_c = "c" then
      { self with
        countor := fun l c b =>
          if l = lane ∧ c = menu_catecogy ∧ b = "deletecount" then self.countor l c b + 1
          else self.countor l c b }
    else
      { self with
        countor := fun l c b =>
          if l = lane ∧ c = menu_catecogy ∧ b = "ordercount" then self.countor l c b + 1
          else self.countor l c b
        monitor_info :=
          push_back
            (push_back
              (push_back
                (push_back self.monitor_info lane menu_catecogy "ORDER_NO"
                  order_data_row.order_no)
                lane menu_catecogy "SEAT_NO" order_data_row.seat_no)
              lane menu_catecogy "TCOMMODITY_CD" order_data_row.type)
            lane menu_catecogy "AMOUNT" order_data_row.amount_no }

/-- The method `getOrderData`: the row parsed from the line, and the state after the
updates. The local `order_data_row` starts from `fresh`, the indeterminate contents of an
object without initialisers, with the string `o_c` empty; `stoi` is `std::stoi`. The source
returns a reference to the local row; the embedding returns the value of the row. -/
def getOrderData (stoi : String → Except Fault Int) (fresh : ORDER_DATA) (self : App)
    (line : String) : Except Fault (ORDER_DATA × App) := do
  let order_data_row ←
    getOrderData.fields stoi { fresh with o_c := "" } 0 (getline_items line)
  pure (order_data_row, getOrderData.ingest self order_data_row)

/-- The states reached from `init` by calls of `getOrderData` that return. -/
inductive IngestReachable (stoi : String → Except Fault Int) (init : App) : App → Prop
  | start : IngestReachable stoi init init
  | call (self next : App) (fresh order_data_row : ORDER_DATA) (line : String) :
      IngestReachable stoi init self →
      getOrderData stoi fresh self line = .ok (order_data_row, next) →
      IngestReachable stoi init next

/-- The alignment of the monitor: for every lane and category the four parallel vectors
have the same length. -/
def MonitorAligned (monitor_info : MonitorInfo) : Prop :=
  ∀ lane menu_catecogy : String,
    (monitorList monitor_info lane menu_catecogy "ORDER_NO").length =
      (monitorList monitor_info lane menu_catecogy "SEAT_NO").length ∧
    (monitorList monitor_info lane menu_catecogy "SEAT_NO").length =
      (monitorList monitor_info lane menu_catecogy "TCOMMODITY_CD").length ∧
    (monitorList monitor_info lane menu_catecogy "TCOMMODITY_CD").length =
      (monitorList monitor_info lane menu_catecogy "AMOUNT").length

/-- Modelled from the spec: `InitDefaultMonitorInfo()` is called by the constructor and
defined in no source file. Section 3 of the spec creates monitor records on order ingestion
only, so the initial monitor holds, for each lane `A`, `B`, `C` and each of the four
categories, the four attributes with no element. -/
def InitDefaultMonitorInfo : MonitorInfo := fun lane =>
  if lane = "A" ∨ lane = "B" ∨ lane = "C" then
    some fun item =>
      if item = "nigiri" ∨ item = "gunkan" ∨ item = "side" ∨ item = "dessert" then
        some fun attr =>
          if attr = "ORDER_NO" ∨ attr = "SEAT_NO" ∨ attr = "TCOMMODITY_CD" ∨ attr = "AMOUNT" then
            some []
          else none
      else none
  else none

/-! ## The per-rule handler and the run loop of APCTestAppTop2Threshold -/

namespace APCTestAppTop2Threshold

/-- The member `skip_detection_plate`, initialised to `true` and assigned nowhere. -/
def skip_detection_plate : Bool := true

/-- The `switch (result)` inside the chain loop of the per-rule `handleInferenceResult`. -/
def handleInferenceResult.count (countor : Countor) (lane menu_category : String)
    (result : PostProcessResult) : Countor :=
  match result with
  | .TOP1_CORRECT => APCTestApp.increment countor lane menu_category "TOP1正解数"
  | .TOP2_CORRECT => APCTestApp.increment countor lane menu_category "TOP2正解数"
  | .TOP2_THRESH_CORRECT => APCTestApp.increment countor lane menu_category "TOP2正解数"
  | .TOP1_FALSE_START => APCTestApp.increment countor lane menu_category "TOP1誤出発数"
  | .TOP1_MANUAL => APCTestApp.increment countor lane menu_category "TOP1手動数"
  | .TOP2_FALSE_START => APCTestApp.increment countor lane menu_category "TOP2誤出発数"
  | .TOP2_MANUAL => APCTestApp.increment countor lane menu_category "TOP2手動数"
  | _ => APCTestApp.increment countor lane menu_category "TOP1手動数"

/-- The chain loop of the per-rule `handleInferenceResult`, entered at index `i` with the
counters so far: every enabled rule is evaluated and its result is counted. -/
def handleInferenceResult.loop (self : App) (order : ORDER_DATA) (topK : TopK)
    (valid_seats : List Int) (post_process_flags : Int) (lane menu_category : String) :
    Nat → List PostProcessFunc → Countor → Except Fault Countor
  | _, [], countor => .ok countor
  | i, rule :: rest, countor =>
    if flagBit post_process_flags i then do
      let result ← rule self order topK valid_seats self.monitor_info
      handleInferenceResult.loop self order topK valid_seats post_process_flags lane
        menu_category (i + 1) rest (handleInferenceResult.count countor lane menu_category result)
    else
      handleInferenceResult.loop self order topK valid_seats post_process_flags lane
        menu_category (i + 1) rest countor

/-- The method `APCTestAppTop2Threshold::handleInferenceResult`: after the chain loop the
statement `countor[lane][menu_category]["TOP2手動数"]++` is executed in every case. -/
def handleInferenceResult (env : Env) (postProcessChain : List PostProcessFunc) (self : App)
    (rect_vec : List Rect) (order : ORDER_DATA) : Except Fault App :=
  match rect_vec with
  | [] => .ok self
  | rect :: _ =>
    match rect.p_confidence_l with
    | none => .ok self
    | some p =>
      let confidence_vec := p.take NETA_CLASS_NUM
      let topK := getTopKPredictions env.sort confidence_vec 5 0 env.class_info_recognize
      if topK.isEmpty then .ok self
      else
        let self1 := self.afterGetLaneMenuCate order
        let lane := self1.lane
        let menu_category := self1.menu_catecogy
        let valid_seats := env.set_lane_seat_no lane order.seat_no
        do
          let (cfg, self2) ← loadConfig env self1 .PostProcessing
          let countor ← handleInferenceResult.loop self2 order topK valid_seats
            cfg.post_process_flags lane menu_category 0 postProcessChain self2.countor
          pure { self2 with
            countor := APCTestApp.increment countor lane menu_category "TOP2手動数" }

/-- The part of `runInference` and of the loop body of `runInferenceForMulti` after the
recognition: `printSubString` reads the confidence buffer of `rect_vec_neta[0]`, which is a
read past the end when the result is empty or the buffer is null, and then the dish is
handled. -/
def handleRecognised (env : Env) (postProcessChain : List PostProcessFunc) (self : App)
    (rect_vec_neta : List Rect) (order : ORDER_DATA) : Except Fault App :=
  match rect_vec_neta with
  | [] => .error .past_the_end
  | rect :: _ =>
    match rect.p_confidence_l with
    | none => .error .past_the_end
    | some _ => handleInferenceResult env postProcessChain self rect_vec_neta order

/-- The method `APCTestAppTop2Threshold::runInference`. The argument `dish` is `none` when
`selectTestImage` fails, else the recognition result of the dish. -/
def runInference (env : Env) (postProcessChain : List PostProcessFunc) (self : App)
    (dish : Option (List Rect)) (order : ORDER_DATA) : Except Fault App :=
  if !skip_detection_plate then .ok self
  else
    match dish with
    | none => .ok self
    | some rect_vec_neta =>
      if !skip_detection_plate then .ok self
      else handleRecognised env postProcessChain self rect_vec_neta order

/-- The dish loop of `APCTestAppTop2Threshold::runInferenceForMulti`, one element of `dishes`
per iteration. -/
def runInferenceForMulti.loop (env : Env) (postProcessChain : List PostProcessFunc)
    (order : ORDER_DATA) : App → List (Option (List Rect)) → Except Fault App
  | self, [] => .ok self
  | self, none :: rest => runInferenceForMulti.loop env postProcessChain order self rest
  | self, some rect_vec_neta :: rest => do
    let self1 ← handleRecognised env postProcessChain self rect_vec_neta order
    runInferenceForMulti.loop env postProcessChain order self1 rest

/-- The method `APCTestAppTop2Threshold::runInferenceForMulti`, over the `order.amount`
iterations given by `dishes`. -/
def runInferenceForMulti (env : Env) (postProcessChain : List PostProcessFunc) (self : App)
    (dishes : List (Option (List Rect))) (order : ORDER_DATA) : Except Fault App :=
  if !skip_detection_plate then .ok self
  else runInferenceForMulti.loop env postProcessChain order self dishes

/-- The method `isTrainedOrder`, with the member vector `learned_sushi` as an argument. -/
def isTrainedOrder (learned_sushi : List Int) (self : App) (lane menu_catecogy : String)
    (p_code : Int) : Bool × App :=
  if p_code ∈ learned_sushi then
    (true, { self with
      countor := APCTestApp.increment self.countor lane menu_catecogy "netaRecongnitionCount" })
  else
    (false, { self with
      countor := APCTestApp.increment self.countor lane menu_catecogy "notLearnedCount" })

/-- The condition of the filter of the run loop, as a function of the values of `o_c` and
`type` that it reads: when it holds the row is skipped with `continue`. -/
def run.skips (order_data_row : ORDER_DATA) : Bool :=
  decide (((order_data_row.o_c ≠ "c") ∧ (order_data_row.o_c ≠ "o")) ∨
    (order_data_row.type = 5 ∨ order_data_row.type = 6))

/-- A read of a member of the row through the reference `order_data_row` of `run`. The
reference is bound to what `getOrderData` returns, and `getOrderData` returns a reference to
its own local variable `order_data_row`, whose lifetime ends with the call; a read through
the reference is therefore undefined, whatever value the local had when the call returned
(the argument). -/
def run.order_data_row (_value_at_return : ORDER_DATA) : Except Fault ORDER_DATA :=
  .error .dangling_reference

/-- One iteration of the `while (std::getline(file, line))` loop of `run` past the header
line. The argument `dishes` gives, for each dish of the order, the outcome of
`selectTestImage` and of the recognition. Each use of `order_data_row` in the loop body is
a read through the reference that `getOrderData` returned; the first one is in the filter. -/
def run.step (env : Env) (stoi : String → Except Fault Int) (fresh : ORDER_DATA)
    (learned_sushi : List Int) (postProcessChain : List PostProcessFunc) (self : App)
    (line : String) (dishes : List (Option (List Rect))) : Except Fault App := do
  let (value_at_return, self1) ← getOrderData stoi fresh self line
  let order_data_row ← run.order_data_row value_at_return
  if run.skips order_data_row then pure self1
  else
    let self2 := self1.afterGetLaneMenuCate order_data_row
    let (trained, self3) :=
      isTrainedOrder learned_sushi self2 self2.lane self2.menu_catecogy
        order_data_row.tcommodity_cd
    if !trained then pure self3
    else if order_data_row.amount > 1 then
      runInferenceForMulti env postProcessChain self3 dishes order_data_row
    else if order_data_row.amount = 1 then
      runInference env postProcessChain self3 (dishes.headD none) order_data_row
    else pure self3

end APCTestAppTop2Threshold

/-- The sum of the six outcome buckets of a (lane, category). -/
def outcomeSum (countor : Countor) (lane menu_category : String) : Int :=
  countor lane menu_category "TOP1正解数" + countor lane menu_category "TOP2正解数" +
    countor lane menu_category "TOP1誤出発数" + countor lane menu_category "TOP1手動数" +
    countor lane menu_category "TOP2誤出発数" + countor lane menu_category "TOP2手動数"

/-- The number of set bits of the rule mask at the positions `i`, `i + 1`, ..., `i + n - 1`:
the number of rules that a chain of `n` rules entered at index `i` evaluates. -/
def enabledRules (post_process_flags : Int) : Nat → Nat → Nat
  | _, 0 => 0
  | i, n + 1 =>
    (if flagBit post_process_flags i then 1 else 0) + enabledRules post_process_flags (i + 1) n

/-! ## The order monitor as the specification describes it -/

/-- The records of one monitor entry as (commodity code, seat number) pairs: position `i`
pairs element `i` of `"TCOMMODITY_CD"` with element `i` of `"SEAT_NO"`. An absent lane,
category or attribute has no records. -/
def OrderMonitor.records (monitor_info : MonitorInfo) (lane item : String) : List (Int × Int) :=
  match monitor_info lane with
  | none => []
  | some cats =>
    match cats item with
    | none => []
    | some attrs =>
      match attrs "TCOMMODITY_CD", attrs "SEAT_NO" with
      | some codes, some seats => List.zip codes seats
      | _, _ => []

/-- The operation `lookup(lane, candidateClass)` in the words of section 4.2 of the spec:
scan the categories of the lane in the order nigiri, gunkan, side, dessert and return the
first record whose commodity code is the candidate class, as (category, seat number). -/
def OrderMonitor.lookup (monitor_info : MonitorInfo) (lane : String) (candidateClass : Int) :
    Option (String × Int) :=
  ["nigiri", "gunkan", "side", "dessert"].findSome? fun item =>
    ((OrderMonitor.records monitor_info lane item).find? fun r => r.1 = candidateClass).map
      fun r => (item, r.2)

/-- A monitor state in which `lane` has all four categories, each with its commodity-code
and seat attributes index-aligned (one seat per recorded commodity code). -/
def MonitorReady (monitor_info : MonitorInfo) (lane : String) : Prop :=
  ∃ cats, monitor_info lane = some cats ∧
    ∀ item ∈ ["nigiri", "gunkan", "side", "dessert"],
      ∃ attrs codes seats, cats item = some attrs ∧ attrs "TCOMMODITY_CD" = some codes ∧
        attrs "SEAT_NO" = some seats ∧ codes.length = seats.length

/-- The outcome of the resolver for a rank: the false start of the rank when `hit`, else
its manual outcome. -/
def rankOutcome (isTop1 hit : Bool) : PostProcessResult :=
  if hit then (if isTop1 then .TOP1_FALSE_START else .TOP2_FALSE_START)
  else (if isTop1 then .TOP1_MANUAL else .TOP2_MANUAL)

/-- The scan of the rule TopKAboveThreshJudge in the words of section 4.4 of the spec, over
the candidates from rank `rank` on: the first candidate with a score below `topKThreshold`
stops the scan with the manual outcome of its rank; a candidate of the ordered class returns
the thresh-correct outcome of its rank; any other candidate is passed to `resolve` (with
`isTop1` exactly at rank 1), a false start returns at once and a manual outcome continues
with the next rank; when the candidates are exhausted the outcome is `TOP2_MANUAL`. -/
def Spec.topKAboveThreshScan (topKThreshold : ℚ) (commodityCode : Int)
    (resolve : Int → Bool → Except Fault PostProcessResult) :
    Nat → TopK → Except Fault PostProcessResult
  | _, [] => .ok .TOP2_MANUAL
  | rank, candidate :: rest =>
    if candidate.1 < topKThreshold then
      .ok (if rank = 1 then .TOP1_MANUAL else .TOP2_MANUAL)
    else if candidate.2.class_code = commodityCode then
      .ok (if rank = 1 then .TOP1_THRESH_CORRECT else .TOP2_THRESH_CORRECT)
    else
      match resolve candidate.2.class_code (decide (rank = 1)) with
      | .error e => .error e
      | .ok outcome =>
        if outcome = .TOP1_FALSE_START ∨ outcome = .TOP2_FALSE_START then .ok outcome
        else Spec.topKAboveThreshScan topKThreshold commodityCode resolve (rank + 1) rest

/-- The vector `temp` of `getTopKPredictions` when its last loop starts: the sorted (score,
index) pairs after the truncation to `k` or the threshold filter. -/
def getTopKPredictions.temp (sort : List (ℚ × Nat) → List (ℚ × Nat)) (scores : List ℚ)
    (k : Int) (threshold : ℚ) : List (ℚ × Nat) :=
  let temp := scores.enum.map fun p => (p.2, p.1)
  let temp := sort temp
  if k > 0 then
    if (temp.length : Int) > k then temp.take k.toNat else temp
  else temp.filter fun p => ¬ p.1 < threshold

/-- What the C++ standard guarantees of `std::sort(first, last, comp)` for the comparator
`a.first > b.first`: the result is a permutation of the input in which no element is
followed, at any distance, by one that the comparator puts before it. The relative order of
elements with equal scores is not specified. -/
def SortsByScoreDescending (sort : List (ℚ × Nat) → List (ℚ × Nat)) : Prop :=
  ∀ l, (sort l).Perm l ∧ (sort l).Pairwise fun a b => ¬ b.1 > a.1

/-- The base-2 value of a string of binary digits in the words of the claim on the rule mask:
the leftmost character is the most significant digit. -/
def Spec.binaryValue : List Char → Int
  | [] => 0
  | ch :: rest => (if ch = '1' then 1 else 0) * 2 ^ rest.length + Spec.binaryValue rest

/-- The fields of two configurations that a call of `loadConfig` with the given type does not
select are equal. -/
def Config.agreesOutside (type : ConfigType) (a b : Config) : Prop :=
  match type with
  | .top1_thresh =>
    a.threshold_top2 = b.threshold_top2 ∧ a.diff_threshold = b.diff_threshold ∧
      a.topK_threshold = b.topK_threshold ∧ a.post_process_flags = b.post_process_flags
  | .top2_thresh =>
    a.threshold_top1 = b.threshold_top1 ∧ a.diff_threshold = b.diff_threshold ∧
      a.topK_threshold = b.topK_threshold ∧ a.post_process_flags = b.post_process_flags
  | .diff_thresh =>
    a.threshold_top1 = b.threshold_top1 ∧ a.threshold_top2 = b.threshold_top2 ∧
      a.topK_threshold = b.topK_threshold ∧ a.post_process_flags = b.post_process_flags
  | .topk_thresh =>
    a.threshold_top1 = b.threshold_top1 ∧ a.threshold_top2 = b.threshold_top2 ∧
      a.diff_threshold = b.diff_threshold ∧ a.post_process_flags = b.post_process_flags
  | .PostProcessing =>
    a.threshold_top1 = b.threshold_top1 ∧ a.threshold_top2 = b.threshold_top2 ∧
      a.diff_threshold = b.diff_threshold ∧ a.topK_threshold = b.topK_threshold

/-! ## Example data -/

/-- A monitor entry with the given commodity codes and seats (order numbers and amounts
left empty): the attribute map of one (lane, category). -/
def exampleEntry (codes seats : List Int) : String → Option (List Int) := fun attr =>
  if attr = "TCOMMODITY_CD" then some codes
  else if attr = "SEAT_NO" then some seats
  else if attr = "ORDER_NO" then some []
  else if attr = "AMOUNT" then some []
  else none

/-- An example monitor with the single lane `"A"`: nigiri holds class 23 at seat 3 and class
31 at seat 9, gunkan holds class 31 at seat 4, side is empty, dessert holds class 55 at
seat 7. Class 17 is recorded nowhere. -/
def exampleMonitor : MonitorInfo := fun lane =>
  if lane = "A" then
    some fun item =>
      if item = "nigiri" then some (exampleEntry [23, 31] [3, 9])
      else if item = "gunkan" then some (exampleEntry [31] [4])
      else if item = "side" then some (exampleEntry [] [])
      else if item = "dessert" then some (exampleEntry [55] [7])
      else none
  else none

/-- An order of lane 1 (`"A"`), seat 3, type 1 (nigiri), one dish of commodity 42. -/
def exampleOrder : ORDER_DATA :=
  { order_no := 1, lane_no := 1, seat_no := 3, type := 1, amount := 1, tcommodity_cd := 42,
    o_c := "o" }

/-- An application state with default configuration, the example monitor and counters at 0. -/
def exampleApp : App :=
  { lane := "", menu_catecogy := "", m_config := {}, monitor_info := exampleMonitor,
    countor := fun _ _ _ => 0 }

/-- Example collaborators: no configuration file, an insertion sort by descending score for
`std::sort`, three known class indices (0, 1, 2 for the classes 42, 17, 31) and a seat window
of the seat itself and its two neighbours. No example converts a number, so `stof` converts
none. -/
def exampleEnv : Env :=
  { configFile := []
    stof := fun _ => .error .invalid_argument
    sort := List.insertionSort fun a b => a.1 ≥ b.1
    class_info_recognize := fun idx =>
      if idx = 0 then some ⟨42⟩ else if idx = 1 then some ⟨17⟩
      else if idx = 2 then some ⟨31⟩ else none
    set_lane_seat_no := fun _ seat_no => [seat_no - 1, seat_no, seat_no + 1] }

/-- A conversion of decimal digits for the examples (the part of `std::stoi` they need). -/
def exampleStoi (s : String) : Except Fault Int :=
  if s.data.isEmpty ∨ ¬ s.data.all Char.isDigit then .error .invalid_argument
  else .ok (s.data.foldl (fun acc ch => 10 * acc + ((ch.toNat : Int) - 48)) 0)

/-- The application state at start: default configuration, the initial monitor, counters
at 0. -/
def initialApp : App :=
  { lane := "", menu_catecogy := "", m_config := {}, monitor_info := InitDefaultMonitorInfo,
    countor := fun _ _ _ => 0 }

/-- The value of a string of decimal digits. -/
def digitsValue (cs : List Char) : Nat :=
  cs.foldl (fun acc ch => 10 * acc + (ch.toNat - 48)) 0

/-- A conversion of unsigned decimal numbers such as `0.7` for the examples (the part of
`std::stof` they need): the longest leading number is converted, and a string that does not
start with a digit has no conversion. -/
def exampleStof (s : String) : Except Fault ℚ :=
  let whole := s.data.takeWhile Char.isDigit
  if whole.isEmpty then .error .invalid_argument
  else
    match s.data.dropWhile Char.isDigit with
    | '.' :: rest =>
      let frac := rest.takeWhile Char.isDigit
      .ok ((digitsValue whole : ℚ) + (digitsValue frac : ℚ) / 10 ^ frac.length)
    | _ => .ok (digitsValue whole : ℚ)

/-- The example collaborators with a configuration file of the given lines and the example
conversion for `std::stof`. -/
def configEnv (lines : List String) : Env :=
  { exampleEnv with configFile := lines, stof := exampleStof }

/-- A monitor with the single lane `"A"` whose nigiri entry holds class 31 twice, first at
seat 9 and then at seat 4; the other three categories are empty. -/
def shadowMonitor : MonitorInfo := fun lane =>
  if lane = "A" then
    some fun item =>
      if item = "nigiri" then some (exampleEntry [31, 31] [9, 4])
      else if item = "gunkan" then some (exampleEntry [] [])
      else if item = "side" then some (exampleEntry [] [])
      else if item = "dessert" then some (exampleEntry [] [])
      else none
  else none

/-- The example order with the cancellation flag: lane 1 (`"A"`), seat 3, type 1 (nigiri), one
dish of commodity 42, `o_c = "c"`. -/
def cancellationRow : ORDER_DATA :=
  { exampleOrder with o_c := "c" }

/-! ## Properties -/

theorem std_find_none (xs : List Int) (v : Int) : std_find xs v = none ↔ v ∉ xs := by
  induction xs with
  | nil => simp [std_find]
  | cons x rest ih =>
    by_cases h : x = v
    · simp [std_find, h]
    · have h2 : ¬ v = x := fun e => h e.symm
      cases hr : std_find rest v with
      | none => simp [std_find, h, h2, hr, ih.1 hr]
      | some n =>
        have h3 : v ∈ rest := by
          by_contra hc
          rw [ih.2 hc] at hr
          cases hr
        simp [std_find, h, hr, h3]

theorem std_find_some (xs : List Int) (v : Int) (i : Nat) :
    std_find xs v = some i ↔ xs[i]? = some v ∧ ∀ j, j < i → xs[j]? ≠ some v := by
  induction xs generalizing i with
  | nil => simp [std_find]
  | cons x rest ih =>
    by_cases h : x = v
    · subst h
      cases i with
      | zero => simp [std_find]
      | succ n =>
        simp only [std_find, if_true]
        constructor
        · intro h0; simp at h0
        · rintro ⟨_, h2⟩; exact absurd (by simp) (h2 0 (Nat.succ_pos n))
    · cases i with
      | zero =>
        simp only [std_find, h, if_false]
        constructor
        · intro h0; cases hr : std_find rest v <;> simp [hr] at h0
        · rintro ⟨h1, _⟩; simp at h1; exact absurd h1 h
      | succ n =>
        simp only [std_find, h, if_false, List.getElem?_cons_succ]
        constructor
        · intro h0
          have h1 : std_find rest v = some n := by
            cases hr : std_find rest v <;> simp [hr] at h0
            simp [h0]
          obtain ⟨ha, hb⟩ := (ih n).1 h1
          refine ⟨ha, fun j hj => ?_⟩
          cases j with
          | zero => simpa using h
          | succ m => simpa using hb m (Nat.lt_of_succ_lt_succ hj)
        · rintro ⟨ha, hb⟩
          have h1 : std_find rest v = some n :=
            (ih n).2 ⟨ha, fun j hj => by simpa using hb (j + 1) (Nat.succ_lt_succ hj)⟩
          simp [h1]

theorem find_zip_of_std_find_none (codes seats : List Int) (v : Int)
    (h : std_find codes v = none) :
    (List.zip codes seats).find? (fun r => r.1 = v) = none := by
  induction codes generalizing seats with
  | nil => simp
  | cons x rest ih =>
    cases seats with
    | nil => simp
    | cons s srest =>
      by_cases hx : x = v
      · simp [std_find, hx] at h
      · have hr : std_find rest v = none := by
          cases hq : std_find rest v <;> simp [std_find, hx, hq] at h
          rfl
        have h2 := ih srest hr
        simp only [List.zip_cons_cons, List.find?, hx, decide_False]
        exact h2

theorem find_zip_of_std_find_some (codes seats : List Int) (v : Int) (i : Nat)
    (hlen : codes.length = seats.length) (h : std_find codes v = some i) :
    ∃ s, seats[i]? = some s ∧ (List.zip codes seats).find? (fun r => r.1 = v) = some (v, s) := by
  induction codes generalizing seats i with
  | nil => simp [std_find] at h
  | cons x rest ih =>
    cases seats with
    | nil => simp at hlen
    | cons s srest =>
      have hlen2 : rest.length = srest.length := by simpa using hlen
      by_cases hx : x = v
      · simp only [std_find, hx, if_true, Option.some.injEq] at h
        subst h
        exact ⟨s, by simp, by simp [List.find?, hx]⟩
      · cases hq : std_find rest v with
        | none => simp [std_find, hx, hq] at h
        | some n =>
          have hi : i = n + 1 := by simp [std_find, hx, hq] at h; omega
          subst hi
          obtain ⟨t, ht1, ht2⟩ := ih srest n hlen2 hq
          refine ⟨t, by simpa using ht1, ?_⟩
          simp only [List.zip_cons_cons, List.find?, hx, decide_False]
          exact ht2

/-- A category entry of the lane that the resolver can read: both attributes are present
and index-aligned. -/
theorem records_of_entry (mi : MonitorInfo) (lane item : String)
    (cats : String → Option (String → Option (List Int))) (attrs : String → Option (List Int))
    (codes seats : List Int) (hlane : mi lane = some cats) (hitem : cats item = some attrs)
    (hcodes : attrs "TCOMMODITY_CD" = some codes) (hseats : attrs "SEAT_NO" = some seats) :
    OrderMonitor.records mi lane item = List.zip codes seats := by
  simp [OrderMonitor.records, hlane, hitem, hcodes, hseats]

theorem scan_cons_miss (mi : MonitorInfo) (lane item : String) (rest : List String) (c : Int)
    (valid : List Int) (isTop1 : Bool)
    (cats : String → Option (String → Option (List Int))) (attrs : String → Option (List Int))
    (codes : List Int) (hlane : mi lane = some cats) (hitem : cats item = some attrs)
    (hcodes : attrs "TCOMMODITY_CD" = some codes) (hmiss : c ∉ codes) :
    evaluateMissedPrediction.scan lane c valid mi isTop1 (item :: rest) =
      evaluateMissedPrediction.scan lane c valid mi isTop1 rest := by
  have h0 : std_find codes c = none := (std_find_none codes c).2 hmiss
  simp [evaluateMissedPrediction.scan, map_at, hlane, hitem, hcodes, h0, bind, Except.bind]

theorem scan_cons_hit (mi : MonitorInfo) (lane item : String) (rest : List String) (c : Int)
    (valid : List Int) (isTop1 : Bool)
    (cats : String → Option (String → Option (List Int))) (attrs : String → Option (List Int))
    (codes seats : List Int) (i : Nat) (seat : Int)
    (hlane : mi lane = some cats) (hitem : cats item = some attrs)
    (hcodes : attrs "TCOMMODITY_CD" = some codes) (hseats : attrs "SEAT_NO" = some seats)
    (hfind : std_find codes c = some i) (hseat : seats[i]? = some seat) :
    evaluateMissedPrediction.scan lane c valid mi isTop1 (item :: rest) =
      .ok (rankOutcome isTop1 (decide (seat ∈ valid))) := by
  by_cases hv : seat ∈ valid <;>
    simp [evaluateMissedPrediction.scan, map_at, hlane, hitem, hcodes, hseats, hfind, hseat,
      bind, Except.bind, isTopPredictionAcceptable, rankOutcome, hv]

/-- The category loop over categories that are all readable agrees with the first-match
scan of the specification over the same categories. -/
theorem scan_eq_findSome (mi : MonitorInfo) (lane : String) (c : Int) (valid : List Int)
    (isTop1 : Bool) (cats : String → Option (String → Option (List Int)))
    (hlane : mi lane = some cats) (items : List String)
    (hitems : ∀ item ∈ items, ∃ attrs codes seats, cats item = some attrs ∧
      attrs "TCOMMODITY_CD" = some codes ∧ attrs "SEAT_NO" = some seats ∧
      codes.length = seats.length) :
    evaluateMissedPrediction.scan lane c valid mi isTop1 items =
      .ok (rankOutcome isTop1
        (match items.findSome? (fun item =>
            ((OrderMonitor.records mi lane item).find? fun r => r.1 = c).map
              fun r => (item, r.2)) with
         | some m => decide (m.2 ∈ valid)
         | none => false)) := by
  induction items with
  | nil => simp [evaluateMissedPrediction.scan, rankOutcome]
  | cons item rest ih =>
    obtain ⟨attrs, codes, seats, hitem, hcodes, hseats, hlen⟩ := hitems item (by simp)
    have hrest := ih (fun it hit => hitems it (List.mem_cons_of_mem _ hit))
    have hrec := records_of_entry mi lane item cats attrs codes seats hlane hitem hcodes hseats
    cases hf : std_find codes c with
    | none =>
      have hmiss : c ∉ codes := (std_find_none codes c).1 hf
      rw [scan_cons_miss mi lane item rest c valid isTop1 cats attrs codes hlane hitem hcodes
        hmiss, hrest]
      simp [List.findSome?, hrec, find_zip_of_std_find_none codes seats c hf]
    | some i =>
      obtain ⟨s, hs1, hs2⟩ := find_zip_of_std_find_some codes seats c i hlen hf
      rw [scan_cons_hit mi lane item rest c valid isTop1 cats attrs codes seats i s hlane hitem
        hcodes hseats hf hs1]
      simp [List.findSome?, hrec, hs2]

/-- On a ready monitor the resolver returns the outcome of its rank decided by the
specification's lookup: a false start when the first match sits on a valid seat, the manual
outcome otherwise. -/
theorem evaluateMissedPrediction_eq_lookup (mi : MonitorInfo) (lane menu_category : String)
    (c : Int) (valid : List Int) (isTop1 : Bool) (hready : MonitorReady mi lane) :
    evaluateMissedPrediction lane menu_category c valid mi isTop1 =
      .ok (rankOutcome isTop1
        (match OrderMonitor.lookup mi lane c with
         | some m => decide (m.2 ∈ valid)
         | none => false)) := by
  obtain ⟨cats, hlane, hall⟩ := hready
  exact scan_eq_findSome mi lane c valid isTop1 cats hlane _ hall

theorem exampleMonitor_ready : MonitorReady exampleMonitor "A" := by
  refine ⟨_, rfl, ?_⟩
  intro item hitem
  simp only [List.mem_cons, List.mem_singleton, List.not_mem_nil, or_false] at hitem
  rcases hitem with rfl | rfl | rfl | rfl
  · exact ⟨_, [23, 31], [3, 9], rfl, rfl, rfl, rfl⟩
  · exact ⟨_, [31], [4], rfl, rfl, rfl, rfl⟩
  · exact ⟨_, [], [], rfl, rfl, rfl, rfl⟩
  · exact ⟨_, [55], [7], rfl, rfl, rfl, rfl⟩

/-- A second call of `getLaneMenuCate` for the same order returns the same pair and leaves
the members as the first call set them; the rules, which call it again, therefore see the
state the handler prepared. -/
theorem getLaneMenuCate_idem (self : App) (order : ORDER_DATA) :
    getLaneMenuCate (self.afterGetLaneMenuCate order) order = getLaneMenuCate self order ∧
    (self.afterGetLaneMenuCate order).afterGetLaneMenuCate order =
      self.afterGetLaneMenuCate order := by
  have h : getLaneMenuCate (self.afterGetLaneMenuCate order) order =
      getLaneMenuCate self order := by
    simp only [getLaneMenuCate, App.afterGetLaneMenuCate]
    split_ifs <;> rfl
  refine ⟨h, ?_⟩
  have h2 : (self.afterGetLaneMenuCate order).afterGetLaneMenuCate order =
      { self.afterGetLaneMenuCate order with
        lane := (getLaneMenuCate (self.afterGetLaneMenuCate order) order).1
        menu_catecogy := (getLaneMenuCate (self.afterGetLaneMenuCate order) order).2 } := rfl
  rw [h2, h]
  rfl

/-! ### C3: the resolver against the monitor lookup -/

/-- C3: on a monitor state that has all four categories of the lane (each with its
commodity codes and seats index-aligned), `evaluateMissedPrediction` returns the false start
of its rank if and only if the monitor lookup for (lane, candidate class) finds a match whose
seat is in `validSeats`; whenever it does not return that false start, and in particular when
the lookup finds no match, it returns the manual outcome of its rank. -/
theorem C3_resolver_iff_lookup (mi : MonitorInfo) (lane menu_category : String) (c : Int)
    (validSeats : List Int) (isTop1 : Bool) (hready : MonitorReady mi lane) :
    (evaluateMissedPrediction lane menu_category c validSeats mi isTop1 =
        .ok (if isTop1 then .TOP1_FALSE_START else .TOP2_FALSE_START) ↔
      ∃ item seat, OrderMonitor.lookup mi lane c = some (item, seat) ∧ seat ∈ validSeats) ∧
    (evaluateMissedPrediction lane menu_category c validSeats mi isTop1 ≠
        .ok (if isTop1 then .TOP1_FALSE_START else .TOP2_FALSE_START) →
      evaluateMissedPrediction lane menu_category c validSeats mi isTop1 =
        .ok (if isTop1 then .TOP1_MANUAL else .TOP2_MANUAL)) ∧
    (OrderMonitor.lookup mi lane c = none →
      evaluateMissedPrediction lane menu_category c validSeats mi isTop1 =
        .ok (if isTop1 then .TOP1_MANUAL else .TOP2_MANUAL)) := by
  rw [evaluateMissedPrediction_eq_lookup mi lane menu_category c validSeats isTop1 hready]
  cases hl : OrderMonitor.lookup mi lane c with
  | none => cases isTop1 <;> simp [rankOutcome]
  | some m =>
    obtain ⟨item, seat⟩ := m
    by_cases hv : seat ∈ validSeats
    · cases isTop1 <;> simp [rankOutcome, hv] <;> exact ⟨item, seat, ⟨rfl, rfl⟩, hv⟩
    · cases isTop1 <;> simp [rankOutcome, hv]

/-- Instance of C3 on the example monitor: class 31 on lane `"A"` with valid seats 3 and 9. -/
theorem C3_resolver_iff_lookup_witness :
    MonitorReady exampleMonitor "A" ∧
    ((evaluateMissedPrediction "A" "nigiri" 31 [3, 9] exampleMonitor true =
        .ok (if true then .TOP1_FALSE_START else .TOP2_FALSE_START) ↔
      ∃ item seat, OrderMonitor.lookup exampleMonitor "A" 31 = some (item, seat) ∧
        seat ∈ [3, 9]) ∧
    (evaluateMissedPrediction "A" "nigiri" 31 [3, 9] exampleMonitor true ≠
        .ok (if true then .TOP1_FALSE_START else .TOP2_FALSE_START) →
      evaluateMissedPrediction "A" "nigiri" 31 [3, 9] exampleMonitor true =
        .ok (if true then .TOP1_MANUAL else .TOP2_MANUAL)) ∧
    (OrderMonitor.lookup exampleMonitor "A" 31 = none →
      evaluateMissedPrediction "A" "nigiri" 31 [3, 9] exampleMonitor true =
        .ok (if true then .TOP1_MANUAL else .TOP2_MANUAL))) :=
  ⟨exampleMonitor_ready,
    C3_resolver_iff_lookup exampleMonitor "A" "nigiri" 31 [3, 9] true exampleMonitor_ready⟩

/-! ### C4: which record decides -/

theorem scan_skip_misses (mi : MonitorInfo) (lane : String) (c : Int) (valid : List Int)
    (isTop1 : Bool) (cats : String → Option (String → Option (List Int)))
    (hlane : mi lane = some cats) (before rest : List String)
    (hbefore : ∀ b ∈ before, ∃ battrs bcodes, cats b = some battrs ∧
      battrs "TCOMMODITY_CD" = some bcodes ∧ c ∉ bcodes) :
    evaluateMissedPrediction.scan lane c valid mi isTop1 (before ++ rest) =
      evaluateMissedPrediction.scan lane c valid mi isTop1 rest := by
  induction before with
  | nil => rfl
  | cons b more ih =>
    obtain ⟨battrs, bcodes, hb, hbc, hmiss⟩ := hbefore b (by simp)
    rw [List.cons_append,
      scan_cons_miss mi lane b (more ++ rest) c valid isTop1 cats battrs bcodes hlane hb hbc hmiss]
    exact ih (fun x hx => hbefore x (List.mem_cons_of_mem _ hx))

/-- C4: let `item` be the first category, in the order nigiri, gunkan, side, dessert, whose
commodity codes contain the candidate class `c` (the categories `before` it hold no `c`), and
let `i` be the lowest index of `c` in that category, with `seat` the seat at index `i`. Then
the result of `evaluateMissedPrediction` is the outcome of testing `seat` against
`validSeats`. Nothing is assumed of the categories `after`, of the records of `item` past
index `i`, or of any other lane, so none of them influences the result. -/
theorem C4_first_match_decides (mi : MonitorInfo) (lane menu_category : String) (c : Int)
    (validSeats : List Int) (isTop1 : Bool) (before after : List String) (item : String)
    (cats : String → Option (String → Option (List Int))) (attrs : String → Option (List Int))
    (codes seats : List Int) (i : Nat) (seat : Int)
    (horder : before ++ item :: after = ["nigiri", "gunkan", "side", "dessert"])
    (hlane : mi lane = some cats)
    (hbefore : ∀ b ∈ before, ∃ battrs bcodes, cats b = some battrs ∧
      battrs "TCOMMODITY_CD" = some bcodes ∧ c ∉ bcodes)
    (hitem : cats item = some attrs)
    (hcodes : attrs "TCOMMODITY_CD" = some codes) (hseats : attrs "SEAT_NO" = some seats)
    (hi : codes[i]? = some c) (hfirst : ∀ j, j < i → codes[j]? ≠ some c)
    (hseat : seats[i]? = some seat) :
    evaluateMissedPrediction lane menu_category c validSeats mi isTop1 =
      .ok (if seat ∈ validSeats then
            (if isTop1 then .TOP1_FALSE_START else .TOP2_FALSE_START)
           else (if isTop1 then .TOP1_MANUAL else .TOP2_MANUAL)) := by
  have hfind : std_find codes c = some i := (std_find_some codes c i).2 ⟨hi, hfirst⟩
  unfold evaluateMissedPrediction
  rw [← horder, scan_skip_misses mi lane c validSeats isTop1 cats hlane before _ hbefore,
    scan_cons_hit mi lane item after c validSeats isTop1 cats attrs codes seats i seat hlane
      hitem hcodes hseats hfind hseat]
  by_cases hv : seat ∈ validSeats <;> simp [rankOutcome, hv]

/-- Instances of C4 on the example monitor: class 31 is decided by nigiri's seat 9 although
gunkan holds it at the valid seat 4; class 55 is decided by dessert's seat 7. -/
theorem C4_first_match_decides_witness :
    evaluateMissedPrediction "A" "nigiri" 31 [4] exampleMonitor false =
      .ok (if (9 : Int) ∈ [(4 : Int)] then
            (if false then .TOP1_FALSE_START else .TOP2_FALSE_START)
           else (if false then .TOP1_MANUAL else .TOP2_MANUAL)) ∧
    evaluateMissedPrediction "A" "nigiri" 55 [7] exampleMonitor false =
      .ok (if (7 : Int) ∈ [(7 : Int)] then
            (if false then .TOP1_FALSE_START else .TOP2_FALSE_START)
           else (if false then .TOP1_MANUAL else .TOP2_MANUAL)) :=
  ⟨C4_first_match_decides exampleMonitor "A" "nigiri" 31 [4] false [] ["gunkan", "side", "dessert"]
      "nigiri" _ (exampleEntry [23, 31] [3, 9]) [23, 31] [3, 9] 1 9 rfl rfl
      (by simp) rfl rfl rfl rfl
      (by intro j hj; interval_cases j; simp) rfl,
   C4_first_match_decides exampleMonitor "A" "nigiri" 55 [7] false ["nigiri", "gunkan", "side"] []
      "dessert" _ (exampleEntry [55] [7]) [55] [7] 0 7 rfl rfl
      (by
        intro b hb
        simp only [List.mem_cons, List.mem_singleton, List.not_mem_nil, or_false] at hb
        rcases hb with rfl | rfl | rfl
        · exact ⟨_, [23, 31], rfl, rfl, by decide⟩
        · exact ⟨_, [31], rfl, rfl, by decide⟩
        · exact ⟨_, [], rfl, rfl, by decide⟩)
      rfl rfl rfl rfl (by intro j hj; omega) rfl⟩

/-! ### C1: the rule chain -/

theorem loadConfig_line_PostProcessing_ok (env : Env) (cfg : Config) (line : String) :
    ∃ cfg2, loadConfig.line env .PostProcessing cfg line = .ok cfg2 := by
  unfold loadConfig.line
  simp only []
  split_ifs <;> exact ⟨_, rfl⟩

theorem foldlM_PostProcessing_ok (env : Env) (lines : List String) (cfg : Config) :
    ∃ cfg2, lines.foldlM (loadConfig.line env .PostProcessing) cfg = .ok cfg2 := by
  induction lines generalizing cfg with
  | nil => exact ⟨cfg, rfl⟩
  | cons line rest ih =>
    obtain ⟨c1, h1⟩ := loadConfig_line_PostProcessing_ok env cfg line
    obtain ⟨c2, h2⟩ := ih c1
    exact ⟨c2, by simp [List.foldlM, h1, h2, bind, Except.bind]⟩

/-- Loading the rule mask never fails: `loadConfig` with type `PostProcessing` returns. -/
theorem loadConfig_PostProcessing_ok (env : Env) (self : App) :
    ∃ cfg, loadConfig env self .PostProcessing = .ok (cfg, { self with m_config := cfg }) := by
  obtain ⟨c, hc⟩ := foldlM_PostProcessing_ok env env.configFile self.m_config
  exact ⟨c, by simp [loadConfig, hc, bind, Except.bind, pure, Except.pure]⟩

theorem chain_loop_ne_NO_HIT (self : App) (order : ORDER_DATA) (topK : TopK) (valid : List Int)
    (flags : Int) (start : Nat) (chain : List PostProcessFunc) :
    APCTestApp.handleInferenceAndReturnResult.loop self order topK valid flags start chain ≠
      .ok .NO_HIT := by
  induction chain generalizing start with
  | nil => simp [APCTestApp.handleInferenceAndReturnResult.loop]
  | cons rule rest ih =>
    unfold APCTestApp.handleInferenceAndReturnResult.loop
    by_cases hb : flagBit flags start = true
    · cases hr : rule self order topK valid self.monitor_info with
      | error e => simp [hb, hr, bind, Except.bind]
      | ok r =>
        by_cases hn : r = .NO_HIT
        · simpa [hb, hr, hn, bind, Except.bind] using ih (start + 1)
        · simp [hb, hr, hn, bind, Except.bind]
    · simpa [hb] using ih (start + 1)

theorem chain_loop_first_hit (self : App) (order : ORDER_DATA) (topK : TopK) (valid : List Int)
    (flags : Int) (start : Nat) (chain : List PostProcessFunc) (i : Nat) (rule : PostProcessFunc)
    (hrule : chain[i]? = some rule) (hbit : flagBit flags (start + i) = true)
    (hhit : rule self order topK valid self.monitor_info ≠ .ok .NO_HIT)
    (hbefore : ∀ j earlier, j < i → chain[j]? = some earlier → flagBit flags (start + j) = true →
      earlier self order topK valid self.monitor_info = .ok .NO_HIT) :
    APCTestApp.handleInferenceAndReturnResult.loop self order topK valid flags start chain =
      rule self order topK valid self.monitor_info := by
  induction chain generalizing start i with
  | nil => simp at hrule
  | cons head rest ih =>
    unfold APCTestApp.handleInferenceAndReturnResult.loop
    cases i with
    | zero =>
      simp only [List.getElem?_cons_zero, Option.some.injEq] at hrule
      subst hrule
      simp only [Nat.add_zero] at hbit
      cases hr : head self order topK valid self.monitor_info with
      | error e => simp [hbit, bind, Except.bind]
      | ok r =>
        have hn : r ≠ .NO_HIT := fun h => hhit (by rw [hr, h])
        simp [hbit, hn, bind, Except.bind]
    | succ n =>
      have hrec := ih (start + 1) n (by simpa using hrule)
        (by simpa [Nat.add_assoc, Nat.add_comm 1 n] using hbit)
        (fun j earlier hj hje hjb =>
          hbefore (j + 1) earlier (Nat.succ_lt_succ hj) (by simpa using hje)
            (by simpa [Nat.add_assoc, Nat.add_comm 1 j] using hjb))
      by_cases hb : flagBit flags start = true
      · have h0 := hbefore 0 head (Nat.succ_pos n) (by simp) (by simpa using hb)
        simp [hb, h0, bind, Except.bind, hrec]
      · simp [hb, hrec]

theorem chain_loop_no_hit (self : App) (order : ORDER_DATA) (topK : TopK) (valid : List Int)
    (flags : Int) (start : Nat) (chain : List PostProcessFunc)
    (hall : ∀ j rule, chain[j]? = some rule → flagBit flags (start + j) = true →
      rule self order topK valid self.monitor_info = .ok .NO_HIT) :
    APCTestApp.handleInferenceAndReturnResult.loop self order topK valid flags start chain =
      .ok .TOP1_MANUAL := by
  induction chain generalizing start with
  | nil => rfl
  | cons head rest ih =>
    unfold APCTestApp.handleInferenceAndReturnResult.loop
    have hrec := ih (start + 1) (fun j rule hj hb =>
      hall (j + 1) rule (by simpa using hj)
        (by simpa [Nat.add_assoc, Nat.add_comm 1 j] using hb))
    by_cases hb : flagBit flags start = true
    · have h0 := hall 0 head (by simp) (by simpa using hb)
      simp [hb, h0, bind, Except.bind, hrec]
    · simp [hb, hrec]

theorem handle_eq_loop (env : Env) (chain : List PostProcessFunc) (self : App) (rect : Rect)
    (more : List Rect) (p : List ℚ) (order : ORDER_DATA) (cfg : Config)
    (hp : rect.p_confidence_l = some p)
    (hne : getTopKPredictions env.sort (p.take NETA_CLASS_NUM) 5 0 env.class_info_recognize ≠ [])
    (hcfg : loadConfig env (self.afterGetLaneMenuCate order) .PostProcessing =
      .ok (cfg, { self.afterGetLaneMenuCate order with m_config := cfg })) :
    Prod.fst <$> APCTestApp.handleInferenceAndReturnResult env chain self (rect :: more) order =
      APCTestApp.handleInferenceAndReturnResult.loop
        { self.afterGetLaneMenuCate order with m_config := cfg } order
        (getTopKPredictions env.sort (p.take NETA_CLASS_NUM) 5 0 env.class_info_recognize)
        (env.set_lane_seat_no (getLaneMenuCate self order).1 order.seat_no)
        cfg.post_process_flags 0 chain := by
  have hne2 : (getTopKPredictions env.sort (p.take NETA_CLASS_NUM) 5 0
      env.class_info_recognize).isEmpty = false := by
    cases h : getTopKPredictions env.sort (p.take NETA_CLASS_NUM) 5 0 env.class_info_recognize
    · exact absurd h hne
    · rfl
  simp only [APCTestApp.handleInferenceAndReturnResult, hp, hne2, hcfg]
  cases hl : APCTestApp.handleInferenceAndReturnResult.loop
      { self.afterGetLaneMenuCate order with m_config := cfg } order
      (getTopKPredictions env.sort (p.take NETA_CLASS_NUM) 5 0 env.class_info_recognize)
      (env.set_lane_seat_no (getLaneMenuCate self order).1 order.seat_no)
      cfg.post_process_flags 0 chain <;>
    simp [App.afterGetLaneMenuCate, bind, Except.bind, pure, Except.pure, Functor.map,
      Except.map] at hl ⊢ <;> simp [hl]

/-- C1: for a first rectangle with a confidence buffer whose ranked candidates `topK` are
not empty, `handleInferenceAndReturnResult` loads a configuration `cfg` and then, over the
chain of `initPostProcessChain`: it returns the result of the rule at the lowest position
`i` whose bit `i` of `cfg.post_process_flags` is set and whose result is not `NO_HIT`; it
returns `TOP1_MANUAL` when no rule is such; and it never returns `NO_HIT`. -/
theorem C1_chain_first_enabled_hit (env : Env) (self : App) (rect : Rect) (more : List Rect)
    (p : List ℚ) (order : ORDER_DATA)
    (hp : rect.p_confidence_l = some p)
    (hne : getTopKPredictions env.sort (p.take NETA_CLASS_NUM) 5 0 env.class_info_recognize ≠ []) :
    ∃ cfg self2 topK valid_seats,
      loadConfig env (self.afterGetLaneMenuCate order) .PostProcessing = .ok (cfg, self2) ∧
      topK = getTopKPredictions env.sort (p.take NETA_CLASS_NUM) 5 0 env.class_info_recognize ∧
      valid_seats = env.set_lane_seat_no (getLaneMenuCate self order).1 order.seat_no ∧
      (∀ i rule, APCTestAppTop2Threshold.initPostProcessChain[i]? = some rule →
        flagBit cfg.post_process_flags i = true →
        rule self2 order topK valid_seats self2.monitor_info ≠ .ok .NO_HIT →
        (∀ j earlier, j < i → APCTestAppTop2Threshold.initPostProcessChain[j]? = some earlier →
          flagBit cfg.post_process_flags j = true →
          earlier self2 order topK valid_seats self2.monitor_info = .ok .NO_HIT) →
        Prod.fst <$> APCTestApp.handleInferenceAndReturnResult env
            APCTestAppTop2Threshold.initPostProcessChain self (rect :: more) order =
          rule self2 order topK valid_seats self2.monitor_info) ∧
      ((∀ j rule, APCTestAppTop2Threshold.initPostProcessChain[j]? = some rule →
          flagBit cfg.post_process_flags j = true →
          rule self2 order topK valid_seats self2.monitor_info = .ok .NO_HIT) →
        Prod.fst <$> APCTestApp.handleInferenceAndReturnResult env
            APCTestAppTop2Threshold.initPostProcessChain self (rect :: more) order =
          .ok .TOP1_MANUAL) ∧
      Prod.fst <$> APCTestApp.handleInferenceAndReturnResult env
          APCTestAppTop2Threshold.initPostProcessChain self (rect :: more) order ≠
        .ok .NO_HIT := by
  obtain ⟨cfg, hcfg⟩ := loadConfig_PostProcessing_ok env (self.afterGetLaneMenuCate order)
  have hloop := handle_eq_loop env APCTestAppTop2Threshold.initPostProcessChain self rect more p
    order cfg hp hne hcfg
  refine ⟨cfg, _, _, _, hcfg, rfl, rfl, ?_, ?_, ?_⟩
  · intro i rule hrule hbit hhit hbefore
    rw [hloop]
    exact chain_loop_first_hit _ order _ _ cfg.post_process_flags 0 _ i rule hrule
      (by simpa using hbit) hhit
      (fun j earlier hj hje hjb => hbefore j earlier hj hje (by simpa using hjb))
  · intro hall
    rw [hloop]
    exact chain_loop_no_hit _ order _ _ cfg.post_process_flags 0 _
      (fun j rule hj hb => hall j rule hj (by simpa using hb))
  · rw [hloop]
    exact chain_loop_ne_NO_HIT _ order _ _ cfg.post_process_flags 0 _

/-- The example confidence buffer `[0.9, 0.5]` ranks to class 42 at 0.9 and class 17 at 0.5. -/
theorem example_topK :
    getTopKPredictions exampleEnv.sort (([9 / 10, 1 / 2] : List ℚ).take NETA_CLASS_NUM) 5 0
      exampleEnv.class_info_recognize = [(9 / 10, ⟨42⟩), (1 / 2, ⟨17⟩)] := by
  norm_num [getTopKPredictions, exampleEnv, NETA_CLASS_NUM, List.enum, List.enumFrom,
    List.insertionSort, List.orderedInsert, List.filterMap]

/-- Instance of C1 at the example dish: the buffer `[0.9, 0.5]` ranks to two candidates. -/
theorem C1_chain_first_enabled_hit_witness :
    (Rect.mk (some [9 / 10, 1 / 2])).p_confidence_l = some [9 / 10, 1 / 2] ∧
    getTopKPredictions exampleEnv.sort (([9 / 10, 1 / 2] : List ℚ).take NETA_CLASS_NUM) 5 0
      exampleEnv.class_info_recognize ≠ [] ∧
    ∃ cfg self2 topK valid_seats,
      loadConfig exampleEnv (exampleApp.afterGetLaneMenuCate exampleOrder) .PostProcessing =
        .ok (cfg, self2) ∧
      topK = getTopKPredictions exampleEnv.sort (([9 / 10, 1 / 2] : List ℚ).take NETA_CLASS_NUM)
        5 0 exampleEnv.class_info_recognize ∧
      valid_seats = exampleEnv.set_lane_seat_no (getLaneMenuCate exampleApp exampleOrder).1
        exampleOrder.seat_no ∧
      (∀ i rule, APCTestAppTop2Threshold.initPostProcessChain[i]? = some rule →
        flagBit cfg.post_process_flags i = true →
        rule self2 exampleOrder topK valid_seats self2.monitor_info ≠ .ok .NO_HIT →
        (∀ j earlier, j < i → APCTestAppTop2Threshold.initPostProcessChain[j]? = some earlier →
          flagBit cfg.post_process_flags j = true →
          earlier self2 exampleOrder topK valid_seats self2.monitor_info = .ok .NO_HIT) →
        Prod.fst <$> APCTestApp.handleInferenceAndReturnResult exampleEnv
            APCTestAppTop2Threshold.initPostProcessChain exampleApp
            [Rect.mk (some [9 / 10, 1 / 2])] exampleOrder =
          rule self2 exampleOrder topK valid_seats self2.monitor_info) ∧
      ((∀ j rule, APCTestAppTop2Threshold.initPostProcessChain[j]? = some rule →
          flagBit cfg.post_process_flags j = true →
          rule self2 exampleOrder topK valid_seats self2.monitor_info = .ok .NO_HIT) →
        Prod.fst <$> APCTestApp.handleInferenceAndReturnResult exampleEnv
            APCTestAppTop2Threshold.initPostProcessChain exampleApp
            [Rect.mk (some [9 / 10, 1 / 2])] exampleOrder =
          .ok .TOP1_MANUAL) ∧
      Prod.fst <$> APCTestApp.handleInferenceAndReturnResult exampleEnv
          APCTestAppTop2Threshold.initPostProcessChain exampleApp
          [Rect.mk (some [9 / 10, 1 / 2])] exampleOrder ≠
        .ok .NO_HIT :=
  ⟨rfl, by rw [example_topK]; simp,
    C1_chain_first_enabled_hit exampleEnv exampleApp (Rect.mk (some [9 / 10, 1 / 2])) []
      [9 / 10, 1 / 2] exampleOrder rfl (by rw [example_topK]; simp)⟩

/-! ### C2: the counter switch of the short-circuit handler -/

theorem example_top1 (self : App) (valid : List Int) (mi : MonitorInfo) :
    APCTestAppTop2Threshold.processTop1Judge self exampleOrder
      [(9 / 10, ⟨42⟩), (1 / 2, ⟨17⟩)] valid mi = .ok .TOP1_CORRECT := by
  simp [APCTestAppTop2Threshold.processTop1Judge, vec_at, exampleOrder, bind, Except.bind]

/-- With the default rule mask, the example dish (order of class 42, candidates class 42 at
0.9 and class 17 at 0.5) is judged `TOP1_CORRECT` by the chain. -/
theorem example_dish_result :
    APCTestApp.handleInferenceAndReturnResult exampleEnv
        APCTestAppTop2Threshold.initPostProcessChain exampleApp
        [Rect.mk (some [9 / 10, 1 / 2])] exampleOrder =
      .ok (.TOP1_CORRECT, exampleApp.afterGetLaneMenuCate exampleOrder) := by
  have hcfg : loadConfig exampleEnv (exampleApp.afterGetLaneMenuCate exampleOrder)
      .PostProcessing = .ok ((exampleApp.afterGetLaneMenuCate exampleOrder).m_config,
        exampleApp.afterGetLaneMenuCate exampleOrder) := rfl
  have hbit : flagBit (exampleApp.afterGetLaneMenuCate exampleOrder).m_config.post_process_flags
      (0 + 0) = true := by decide
  have hloop := chain_loop_first_hit (exampleApp.afterGetLaneMenuCate exampleOrder) exampleOrder
    [(9 / 10, ⟨42⟩), (1 / 2, ⟨17⟩)]
    (exampleEnv.set_lane_seat_no (exampleApp.afterGetLaneMenuCate exampleOrder).lane
      exampleOrder.seat_no)
    (exampleApp.afterGetLaneMenuCate exampleOrder).m_config.post_process_flags 0
    APCTestAppTop2Threshold.initPostProcessChain 0 APCTestAppTop2Threshold.processTop1Judge rfl
    hbit (by rw [example_top1]; simp) (fun j _ hj => absurd hj (Nat.not_lt_zero j))
  rw [example_top1] at hloop
  simp only [APCTestApp.handleInferenceAndReturnResult, example_topK, hcfg, hloop]
  rfl

/-- C2 (evaluation of the code): the switch of the short-circuit `handleInferenceResult`
has no case for `TOP1_CORRECT`, `TOP2_CORRECT` and `DIFF_THRESH_CORRECT`, so for these
outcomes it leaves every bucket of every (lane, category) as it was; and the example dish,
judged `TOP1_CORRECT`, goes through the whole handler with all counters still at 0. -/
theorem C2_switch_misses_plain_correct :
    (∀ (countor : Countor) (lane menu_category : String),
      APCTestApp.handleInferenceResult.count countor lane menu_category .TOP1_CORRECT = countor ∧
      APCTestApp.handleInferenceResult.count countor lane menu_category .TOP2_CORRECT = countor ∧
      APCTestApp.handleInferenceResult.count countor lane menu_category .DIFF_THRESH_CORRECT =
        countor) ∧
    ∃ app, APCTestApp.handleInferenceResult exampleEnv
        APCTestAppTop2Threshold.initPostProcessChain exampleApp
        [Rect.mk (some [9 / 10, 1 / 2])] exampleOrder = .ok app ∧
      ∀ lane menu_category bucket, app.countor lane menu_category bucket = 0 := by
  refine ⟨fun _ _ _ => ⟨rfl, rfl, rfl⟩, ?_⟩
  simp only [APCTestApp.handleInferenceResult, example_dish_result, bind, Except.bind, pure,
    Except.pure, APCTestApp.handleInferenceResult.count]
  exact ⟨_, rfl, fun _ _ _ => rfl⟩

/-! ### C5: the multi-dish reduction -/

/-- The reduction loop entered with any value that `final_result` can hold: a
`TOP1_FALSE_START` dish decides; otherwise the highest of `TOP1_THRESH_CORRECT`,
`TOP2_FALSE_START`, `TOP2_MANUAL` found among the dishes and the entry value decides. -/
theorem reduce_from (final_result : PostProcessResult) (rs : List PostProcessResult)
    (hfinal : final_result = .TOP2_THRESH_CORRECT ∨ final_result = .TOP2_MANUAL ∨
      final_result = .TOP2_FALSE_START ∨ final_result = .TOP1_THRESH_CORRECT) :
    APCTestApp.runInferenceForMulti.reduce final_result rs =
      if .TOP1_FALSE_START ∈ rs then .TOP1_FALSE_START
      else if .TOP1_THRESH_CORRECT ∈ rs ∨ final_result = .TOP1_THRESH_CORRECT then
        .TOP1_THRESH_CORRECT
      else if .TOP2_FALSE_START ∈ rs ∨ final_result = .TOP2_FALSE_START then .TOP2_FALSE_START
      else if .TOP2_MANUAL ∈ rs ∨ final_result = .TOP2_MANUAL then .TOP2_MANUAL
      else .TOP2_THRESH_CORRECT := by
  induction rs generalizing final_result with
  | nil =>
    rcases hfinal with h | h | h | h <;> subst h <;>
      simp [APCTestApp.runInferenceForMulti.reduce]
  | cons r rest ih =>
    unfold APCTestApp.runInferenceForMulti.reduce
    rcases hfinal with h | h | h | h <;> subst h <;> cases r <;>
      simp [ih, eq_comm]

/-- C5: the reduction of `runInferenceForMulti` over any list of dish outcomes, started as
the code starts it (`final_result = TOP2_THRESH_CORRECT`), yields `TOP1_FALSE_START` if any
dish is `TOP1_FALSE_START`; otherwise `TOP1_THRESH_CORRECT` if any dish is; otherwise
`TOP2_FALSE_START` if any dish is; otherwise `TOP2_MANUAL` if any dish is; otherwise
`TOP2_THRESH_CORRECT`. The result depends on the dishes by membership only, hence not on their
order. The list `[TOP2_MANUAL, TOP1_FALSE_START, TOP1_THRESH_CORRECT]` reduces to
`TOP1_FALSE_START`. -/
theorem C5_multi_dish_reduction :
    (∀ rs : List PostProcessResult,
      APCTestApp.runInferenceForMulti.reduce .TOP2_THRESH_CORRECT rs =
        if .TOP1_FALSE_START ∈ rs then .TOP1_FALSE_START
        else if .TOP1_THRESH_CORRECT ∈ rs then .TOP1_THRESH_CORRECT
        else if .TOP2_FALSE_START ∈ rs then .TOP2_FALSE_START
        else if .TOP2_MANUAL ∈ rs then .TOP2_MANUAL
        else .TOP2_THRESH_CORRECT) ∧
    APCTestApp.runInferenceForMulti.reduce .TOP2_THRESH_CORRECT
      [.TOP2_MANUAL, .TOP1_FALSE_START, .TOP1_THRESH_CORRECT] = .TOP1_FALSE_START := by
  refine ⟨fun rs => ?_, by decide⟩
  rw [reduce_from .TOP2_THRESH_CORRECT rs (Or.inl rfl)]
  simp

/-! ### C6: a correct first candidate -/

/-- C6 (counterexample): for the order of class 42 and the candidates class 42 at 0.9
and class 17 at 0.5, with the default thresholds, the rank-based `processTopKAboveThreshJudge`
returns `TOP1_THRESH_CORRECT`, not `TOP1_CORRECT`; and with `threshold_top1` at 0.95
`processTop1ThreshJudge` returns `TOP1_MANUAL`. -/
theorem C6_not_all_TOP1_CORRECT :
    APCTestApp.processTopKAboveThreshJudge exampleApp exampleOrder
        [(9 / 10, ⟨42⟩), (1 / 2, ⟨17⟩)] [2, 3, 4] exampleMonitor = .ok .TOP1_THRESH_CORRECT ∧
    APCTestApp.processTopKAboveThreshJudge exampleApp exampleOrder
        [(9 / 10, ⟨42⟩), (1 / 2, ⟨17⟩)] [2, 3, 4] exampleMonitor ≠ .ok .TOP1_CORRECT ∧
    APCTestApp.processTop1ThreshJudge
        { exampleApp with m_config := { threshold_top1 := 19 / 20 } } exampleOrder
        [(9 / 10, ⟨42⟩), (1 / 2, ⟨17⟩)] [2, 3, 4] exampleMonitor = .ok .TOP1_MANUAL := by
  have h1 : APCTestApp.processTopKAboveThreshJudge exampleApp exampleOrder
      [(9 / 10, ⟨42⟩), (1 / 2, ⟨17⟩)] [2, 3, 4] exampleMonitor = .ok .TOP1_THRESH_CORRECT := by
    norm_num [APCTestApp.processTopKAboveThreshJudge,
      APCTestApp.processTopKAboveThreshJudge.loop, exampleApp, exampleOrder]
  refine ⟨h1, by rw [h1]; decide, ?_⟩
  · have hres : evaluateMissedPrediction "A" "nigiri" 42 [2, 3, 4] exampleMonitor true =
        .ok .TOP1_MANUAL := by decide
    norm_num [APCTestApp.processTop1ThreshJudge, vec_at, exampleApp, exampleOrder,
      getLaneMenuCate, bind, Except.bind, hres]

/-- C6 (amended): when the first of at least two candidates has the ordered class,
`processTop1Judge`, `processTop2Judge`, `processTop2ThreshJudge` and `processScoreGapJudge`
return `TOP1_CORRECT` whatever the thresholds; the rank-based `processTopKAboveThreshJudge`
returns `TOP1_THRESH_CORRECT` when the first score is at least `topK_threshold` and
`TOP1_MANUAL` when it is below; `processTop1ThreshJudge` returns `TOP1_CORRECT` when the
first score is at least `threshold_top1` and otherwise the result of resolving the first
candidate with `isTop1 = true`. -/
theorem C6_first_candidate_correct (self : App) (order : ORDER_DATA) (top1 top2 : ℚ × E_Class)
    (more : TopK) (valid_seat_list : List Int) (monitor_info : MonitorInfo)
    (hclass : top1.2.class_code = order.tcommodity_cd) :
    APCTestAppTop2Threshold.processTop1Judge self order (top1 :: top2 :: more) valid_seat_list
        monitor_info = .ok .TOP1_CORRECT ∧
    APCTestAppTop2Threshold.processTop2Judge self order (top1 :: top2 :: more) valid_seat_list
        monitor_info = .ok .TOP1_CORRECT ∧
    APCTestAppTop2Threshold.processTop2ThreshJudge self order (top1 :: top2 :: more)
        valid_seat_list monitor_info = .ok .TOP1_CORRECT ∧
    APCTestApp.processScoreGapJudge self order (top1 :: top2 :: more) valid_seat_list
        monitor_info = .ok .TOP1_CORRECT ∧
    APCTestApp.processTopKAboveThreshJudge self order (top1 :: top2 :: more) valid_seat_list
        monitor_info =
      .ok (if top1.1 < self.m_config.topK_threshold then .TOP1_MANUAL
           else .TOP1_THRESH_CORRECT) ∧
    APCTestApp.processTop1ThreshJudge self order (top1 :: top2 :: more) valid_seat_list
        monitor_info =
      (if top1.1 ≥ self.m_config.threshold_top1 then .ok .TOP1_CORRECT
       else evaluateMissedPrediction (getLaneMenuCate self order).1 (getLaneMenuCate self order).2
         top1.2.class_code valid_seat_list monitor_info true) := by
  obtain ⟨score, e_class⟩ := top1
  simp only at hclass
  refine ⟨?_, ?_, ?_, ?_, ?_, ?_⟩
  · simp [APCTestAppTop2Threshold.processTop1Judge, vec_at, bind, Except.bind, hclass]
  · simp [APCTestAppTop2Threshold.processTop2Judge, vec_at, bind, Except.bind, hclass]
  · simp [APCTestAppTop2Threshold.processTop2ThreshJudge, vec_at, bind, Except.bind, hclass]
  · simp [APCTestApp.processScoreGapJudge, vec_at, bind, Except.bind, hclass]
  · by_cases hs : score < self.m_config.topK_threshold <;>
      simp [APCTestApp.processTopKAboveThreshJudge, APCTestApp.processTopKAboveThreshJudge.loop,
        hclass, hs]
  · by_cases hs : self.m_config.threshold_top1 ≤ score <;>
      simp [APCTestApp.processTop1ThreshJudge, vec_at, bind, Except.bind, hclass, hs]

/-- Instance of amended C6 at the order of class 42 and the candidates class 42 at 0.9
and class 17 at 0.5. -/
theorem C6_first_candidate_correct_witness :
    ((9 / 10, ⟨42⟩) : ℚ × E_Class).2.class_code = exampleOrder.tcommodity_cd ∧
    (APCTestAppTop2Threshold.processTop1Judge exampleApp exampleOrder
        [(9 / 10, ⟨42⟩), (1 / 2, ⟨17⟩)] [2, 3, 4] exampleMonitor = .ok .TOP1_CORRECT ∧
    APCTestAppTop2Threshold.processTop2Judge exampleApp exampleOrder
        [(9 / 10, ⟨42⟩), (1 / 2, ⟨17⟩)] [2, 3, 4] exampleMonitor = .ok .TOP1_CORRECT ∧
    APCTestAppTop2Threshold.processTop2ThreshJudge exampleApp exampleOrder
        [(9 / 10, ⟨42⟩), (1 / 2, ⟨17⟩)] [2, 3, 4] exampleMonitor = .ok .TOP1_CORRECT ∧
    APCTestApp.processScoreGapJudge exampleApp exampleOrder
        [(9 / 10, ⟨42⟩), (1 / 2, ⟨17⟩)] [2, 3, 4] exampleMonitor = .ok .TOP1_CORRECT ∧
    APCTestApp.processTopKAboveThreshJudge exampleApp exampleOrder
        [(9 / 10, ⟨42⟩), (1 / 2, ⟨17⟩)] [2, 3, 4] exampleMonitor =
      .ok (if ((9 / 10, ⟨42⟩) : ℚ × E_Class).1 < exampleApp.m_config.topK_threshold then
            .TOP1_MANUAL
           else .TOP1_THRESH_CORRECT) ∧
    APCTestApp.processTop1ThreshJudge exampleApp exampleOrder
        [(9 / 10, ⟨42⟩), (1 / 2, ⟨17⟩)] [2, 3, 4] exampleMonitor =
      (if ((9 / 10, ⟨42⟩) : ℚ × E_Class).1 ≥ exampleApp.m_config.threshold_top1 then
        .ok .TOP1_CORRECT
       else evaluateMissedPrediction (getLaneMenuCate exampleApp exampleOrder).1
         (getLaneMenuCate exampleApp exampleOrder).2 ((9 / 10, ⟨42⟩) : ℚ × E_Class).2.class_code
         [2, 3, 4] exampleMonitor true)) :=
  ⟨rfl, C6_first_candidate_correct exampleApp exampleOrder (9 / 10, ⟨42⟩) (1 / 2, ⟨17⟩) []
    [2, 3, 4] exampleMonitor rfl⟩

/-! ### C7: processTop2Judge on at least two candidates -/

/-- C7: on candidates `top1 :: top2 :: more`, `processTop2Judge` returns `TOP1_CORRECT` if
the class of `top1` is the ordered one; otherwise `TOP1_FALSE_START` if resolving `top1`
(with `isTop1 = true`) gives `TOP1_FALSE_START`; otherwise (the resolver gave another
outcome) `TOP2_CORRECT` if the class of `top2` is the ordered one; otherwise the result of
resolving `top2` with `isTop1 = false`. -/
theorem C7_top2_judge_cases (self : App) (order : ORDER_DATA) (top1 top2 : ℚ × E_Class)
    (more : TopK) (valid_seat_list : List Int) (monitor_info : MonitorInfo) :
    (top1.2.class_code = order.tcommodity_cd →
      APCTestAppTop2Threshold.processTop2Judge self order (top1 :: top2 :: more)
        valid_seat_list monitor_info = .ok .TOP1_CORRECT) ∧
    (top1.2.class_code ≠ order.tcommodity_cd →
      evaluateMissedPrediction (getLaneMenuCate self order).1 (getLaneMenuCate self order).2
        top1.2.class_code valid_seat_list monitor_info true = .ok .TOP1_FALSE_START →
      APCTestAppTop2Threshold.processTop2Judge self order (top1 :: top2 :: more)
        valid_seat_list monitor_info = .ok .TOP1_FALSE_START) ∧
    (top1.2.class_code ≠ order.tcommodity_cd →
      ∀ top1_result,
        evaluateMissedPrediction (getLaneMenuCate self order).1 (getLaneMenuCate self order).2
          top1.2.class_code valid_seat_list monitor_info true = .ok top1_result →
        top1_result ≠ .TOP1_FALSE_START →
        (top2.2.class_code = order.tcommodity_cd →
          APCTestAppTop2Threshold.processTop2Judge self order (top1 :: top2 :: more)
            valid_seat_list monitor_info = .ok .TOP2_CORRECT) ∧
        (top2.2.class_code ≠ order.tcommodity_cd →
          APCTestAppTop2Threshold.processTop2Judge self order (top1 :: top2 :: more)
            valid_seat_list monitor_info =
          evaluateMissedPrediction (getLaneMenuCate self order).1
            (getLaneMenuCate self order).2 top2.2.class_code valid_seat_list monitor_info
            false)) := by
  refine ⟨fun h => ?_, fun h hr => ?_, fun h r hr hne => ⟨fun h2 => ?_, fun h2 => ?_⟩⟩
  · simp [APCTestAppTop2Threshold.processTop2Judge, vec_at, bind, Except.bind, h]
  · simp [APCTestAppTop2Threshold.processTop2Judge, vec_at, bind, Except.bind, h, hr]
  · simp [APCTestAppTop2Threshold.processTop2Judge, vec_at, bind, Except.bind, h, hr, hne, h2]
  · simp [APCTestAppTop2Threshold.processTop2Judge, vec_at, bind, Except.bind, h, hr, hne, h2]

/-- Instance of C7 at the order of class 42 and the candidates class 17 at 0.9 (recorded
nowhere on the lane) and class 42 at 0.5: the result is `TOP2_CORRECT`. -/
theorem C7_top2_judge_cases_witness :
    ((9 / 10, ⟨17⟩) : ℚ × E_Class).2.class_code ≠ exampleOrder.tcommodity_cd ∧
    evaluateMissedPrediction (getLaneMenuCate exampleApp exampleOrder).1
      (getLaneMenuCate exampleApp exampleOrder).2 17 [2, 3, 4] exampleMonitor true =
      .ok .TOP1_MANUAL ∧
    ((1 / 2, ⟨42⟩) : ℚ × E_Class).2.class_code = exampleOrder.tcommodity_cd ∧
    APCTestAppTop2Threshold.processTop2Judge exampleApp exampleOrder
      [(9 / 10, ⟨17⟩), (1 / 2, ⟨42⟩)] [2, 3, 4] exampleMonitor = .ok .TOP2_CORRECT :=
  ⟨by decide, by decide, rfl,
    ((C7_top2_judge_cases exampleApp exampleOrder (9 / 10, ⟨17⟩) (1 / 2, ⟨42⟩) [] [2, 3, 4]
      exampleMonitor).2.2 (by decide) .TOP1_MANUAL (by decide) (by decide)).1 rfl⟩

/-! ### C8: processScoreGapJudge -/

/-- C8 (counterexample): the first candidate has score 0.25 and a class recorded nowhere on
the lane, the second has score 13421771/2^28 and the ordered class, and `diff_threshold` is
13421773/2^26, the `float` nearest to 0.2; all three are values of type `float`. The exact
difference of the scores, 53687093/2^28, is strictly above the threshold, but the `float`
subtraction of the code rounds it to the threshold itself, so the test
`score_diff > diff_threshold` fails and `processScoreGapJudge` returns `DIFF_THRESH_CORRECT`,
not `TOP1_MANUAL`. -/
theorem C8_exact_gap_above_threshold :
    (float_round (1 / 4) = 1 / 4 ∧
      float_round (13421771 / 268435456) = 13421771 / 268435456 ∧
      float_round (13421773 / 67108864) = 13421773 / 67108864) ∧
    ((1 / 4, ⟨17⟩) : ℚ × E_Class).2.class_code ≠ exampleOrder.tcommodity_cd ∧
    evaluateMissedPrediction "A" "nigiri" 17 [2, 3, 4] exampleMonitor true =
      .ok .TOP1_MANUAL ∧
    (1 / 4 : ℚ) - 13421771 / 268435456 > 13421773 / 67108864 ∧
    float_sub (1 / 4) (13421771 / 268435456) = 13421773 / 67108864 ∧
    APCTestApp.processScoreGapJudge
      { exampleApp with m_config := { diff_threshold := 13421773 / 67108864 } } exampleOrder
      [(1 / 4, ⟨17⟩), (13421771 / 268435456, ⟨42⟩)] [2, 3, 4] exampleMonitor =
      .ok .DIFF_THRESH_CORRECT := by
  refine ⟨⟨by decide!, by decide!, by decide!⟩, by decide, by decide, by norm_num, by decide!,
    by decide!⟩

/-- C8 (amended): on fewer than two candidates `processScoreGapJudge` returns `NO_HIT`. On
candidates `top1 :: top2 :: more` where the class of `top1` is not the ordered one and
resolving `top1` gives an outcome other than `TOP1_FALSE_START`, it returns `TOP1_MANUAL`
when the `float` difference of the two scores, `float_sub score(top1) score(top2)`, is
strictly above `diff_threshold`, whatever the class of `top2`; when that difference is at
most `diff_threshold` it returns `DIFF_THRESH_CORRECT` if the class of `top2` is the ordered
one and otherwise the result of resolving `top2` with `isTop1 = false`. -/
theorem C8_score_gap_cases (self : App) (order : ORDER_DATA) (valid_seat_list : List Int)
    (monitor_info : MonitorInfo) :
    (∀ topK : TopK, topK.length < 2 →
      APCTestApp.processScoreGapJudge self order topK valid_seat_list monitor_info =
        .ok .NO_HIT) ∧
    ∀ (top1 top2 : ℚ × E_Class) (more : TopK) (top1_result : PostProcessResult),
      top1.2.class_code ≠ order.tcommodity_cd →
      evaluateMissedPrediction (getLaneMenuCate self order).1 (getLaneMenuCate self order).2
        top1.2.class_code valid_seat_list monitor_info true = .ok top1_result →
      top1_result ≠ .TOP1_FALSE_START →
      (float_sub top1.1 top2.1 > self.m_config.diff_threshold →
        APCTestApp.processScoreGapJudge self order (top1 :: top2 :: more) valid_seat_list
          monitor_info = .ok .TOP1_MANUAL) ∧
      (float_sub top1.1 top2.1 ≤ self.m_config.diff_threshold →
        top2.2.class_code = order.tcommodity_cd →
        APCTestApp.processScoreGapJudge self order (top1 :: top2 :: more) valid_seat_list
          monitor_info = .ok .DIFF_THRESH_CORRECT) ∧
      (float_sub top1.1 top2.1 ≤ self.m_config.diff_threshold →
        top2.2.class_code ≠ order.tcommodity_cd →
        APCTestApp.processScoreGapJudge self order (top1 :: top2 :: more) valid_seat_list
          monitor_info =
        evaluateMissedPrediction (getLaneMenuCate self order).1 (getLaneMenuCate self order).2
          top2.2.class_code valid_seat_list monitor_info false) := by
  refine ⟨fun topK hlen => ?_, fun top1 top2 more top1_result hclass hres hne =>
    ⟨fun hg => ?_, fun hg h2 => ?_, fun hg h2 => ?_⟩⟩
  · simp [APCTestApp.processScoreGapJudge, hlen]
  · simp [APCTestApp.processScoreGapJudge, vec_at, bind, Except.bind, hclass, hres, hne, hg]
  · have hg2 : ¬ self.m_config.diff_threshold < float_sub top1.1 top2.1 := not_lt.mpr hg
    simp [APCTestApp.processScoreGapJudge, vec_at, bind, Except.bind, hclass, hres, hne, hg2, h2]
  · have hg2 : ¬ self.m_config.diff_threshold < float_sub top1.1 top2.1 := not_lt.mpr hg
    simp [APCTestApp.processScoreGapJudge, vec_at, bind, Except.bind, hclass, hres, hne, hg2, h2]

/-- Instance of amended C8 at the `float` values nearest to 0.9 and 0.3 as scores
(7549747/2^23 and 5033165/2^24), `diff_threshold` the `float` nearest to 0.3 and a correct
second candidate: the `float` difference 10066329/2^24 is above the threshold and the result
is `TOP1_MANUAL`. -/
theorem C8_score_gap_cases_witness :
    ((7549747 / 8388608, ⟨17⟩) : ℚ × E_Class).2.class_code ≠ exampleOrder.tcommodity_cd ∧
    evaluateMissedPrediction
      (getLaneMenuCate
        { exampleApp with m_config := { diff_threshold := 5033165 / 16777216 } }
        exampleOrder).1
      (getLaneMenuCate
        { exampleApp with m_config := { diff_threshold := 5033165 / 16777216 } }
        exampleOrder).2
      ((7549747 / 8388608, ⟨17⟩) : ℚ × E_Class).2.class_code [2, 3, 4] exampleMonitor true =
      .ok .TOP1_MANUAL ∧
    PostProcessResult.TOP1_MANUAL ≠ .TOP1_FALSE_START ∧
    float_sub (7549747 / 8388608) (5033165 / 16777216) = 10066329 / 16777216 ∧
    float_sub (7549747 / 8388608) (5033165 / 16777216) > 5033165 / 16777216 ∧
    ((5033165 / 16777216, ⟨42⟩) : ℚ × E_Class).2.class_code = exampleOrder.tcommodity_cd ∧
    APCTestApp.processScoreGapJudge
      { exampleApp with m_config := { diff_threshold := 5033165 / 16777216 } }
      exampleOrder [(7549747 / 8388608, ⟨17⟩), (5033165 / 16777216, ⟨42⟩)] [2, 3, 4]
      exampleMonitor = .ok .TOP1_MANUAL :=
  ⟨by decide, by decide, by decide, by decide!, by decide!, rfl,
    ((C8_score_gap_cases
      { exampleApp with m_config := { diff_threshold := 5033165 / 16777216 } }
      exampleOrder [2, 3, 4] exampleMonitor).2 (7549747 / 8388608, ⟨17⟩)
      (5033165 / 16777216, ⟨42⟩) [] .TOP1_MANUAL
      (by decide) (by decide) (by decide)).1 (by decide!)⟩

/-! ### C10: processTop2ThreshJudge past the first candidate -/

/-- C10: on candidates `top1 :: others` where the class of `top1` is not the ordered one and
resolving `top1` gives an outcome other than `TOP1_FALSE_START`, `processTop2ThreshJudge`
returns `TOP2_MANUAL` if there is no second candidate; `TOP2_MANUAL` if the score of the
second candidate is strictly below `threshold_top2`, whatever its class; otherwise
`TOP2_THRESH_CORRECT` if the class of the second candidate is the ordered one, and otherwise
the result of resolving the second candidate with `isTop1 = false`. -/
theorem C10_top2_thresh_cases (self : App) (order : ORDER_DATA) (top1 : ℚ × E_Class)
    (valid_seat_list : List Int) (monitor_info : MonitorInfo) (top1_result : PostProcessResult)
    (hclass : top1.2.class_code ≠ order.tcommodity_cd)
    (hres : evaluateMissedPrediction (getLaneMenuCate self order).1
      (getLaneMenuCate self order).2 top1.2.class_code valid_seat_list monitor_info true =
        .ok top1_result)
    (hne : top1_result ≠ .TOP1_FALSE_START) :
    APCTestAppTop2Threshold.processTop2ThreshJudge self order [top1] valid_seat_list
      monitor_info = .ok .TOP2_MANUAL ∧
    ∀ (top2 : ℚ × E_Class) (more : TopK),
      (top2.1 < self.m_config.threshold_top2 →
        APCTestAppTop2Threshold.processTop2ThreshJudge self order (top1 :: top2 :: more)
          valid_seat_list monitor_info = .ok .TOP2_MANUAL) ∧
      (¬ top2.1 < self.m_config.threshold_top2 →
        top2.2.class_code = order.tcommodity_cd →
        APCTestAppTop2Threshold.processTop2ThreshJudge self order (top1 :: top2 :: more)
          valid_seat_list monitor_info = .ok .TOP2_THRESH_CORRECT) ∧
      (¬ top2.1 < self.m_config.threshold_top2 →
        top2.2.class_code ≠ order.tcommodity_cd →
        APCTestAppTop2Threshold.processTop2ThreshJudge self order (top1 :: top2 :: more)
          valid_seat_list monitor_info =
        evaluateMissedPrediction (getLaneMenuCate self order).1 (getLaneMenuCate self order).2
          top2.2.class_code valid_seat_list monitor_info false) := by
  refine ⟨?_, fun top2 more => ⟨fun hs => ?_, fun hs h2 => ?_, fun hs h2 => ?_⟩⟩
  · simp [APCTestAppTop2Threshold.processTop2ThreshJudge, vec_at, bind, Except.bind, hclass,
      hres, hne]
  · simp [APCTestAppTop2Threshold.processTop2ThreshJudge, vec_at, bind, Except.bind, hclass,
      hres, hne, hs]
  · simp [APCTestAppTop2Threshold.processTop2ThreshJudge, vec_at, bind, Except.bind, hclass,
      hres, hne, hs, h2]
  · simp [APCTestAppTop2Threshold.processTop2ThreshJudge, vec_at, bind, Except.bind, hclass,
      hres, hne, hs, h2]

/-- Instances of C10: a single wrong candidate, and a correct second candidate whose score
0.3 is below the default `threshold_top2` 0.4; both give `TOP2_MANUAL`. -/
theorem C10_top2_thresh_cases_witness :
    ((9 / 10, ⟨17⟩) : ℚ × E_Class).2.class_code ≠ exampleOrder.tcommodity_cd ∧
    evaluateMissedPrediction (getLaneMenuCate exampleApp exampleOrder).1
      (getLaneMenuCate exampleApp exampleOrder).2
      ((9 / 10, ⟨17⟩) : ℚ × E_Class).2.class_code [2, 3, 4] exampleMonitor true =
      .ok .TOP1_MANUAL ∧
    PostProcessResult.TOP1_MANUAL ≠ .TOP1_FALSE_START ∧
    APCTestAppTop2Threshold.processTop2ThreshJudge exampleApp exampleOrder [(9 / 10, ⟨17⟩)]
      [2, 3, 4] exampleMonitor = .ok .TOP2_MANUAL ∧
    ((3 / 10 : ℚ) < exampleApp.m_config.threshold_top2) ∧
    APCTestAppTop2Threshold.processTop2ThreshJudge exampleApp exampleOrder
      [(9 / 10, ⟨17⟩), (3 / 10, ⟨42⟩)] [2, 3, 4] exampleMonitor = .ok .TOP2_MANUAL :=
  ⟨by decide, by decide, by decide,
    (C10_top2_thresh_cases exampleApp exampleOrder (9 / 10, ⟨17⟩) [2, 3, 4] exampleMonitor
      .TOP1_MANUAL (by decide) (by decide) (by decide)).1,
    by norm_num [exampleApp],
    ((C10_top2_thresh_cases exampleApp exampleOrder (9 / 10, ⟨17⟩) [2, 3, 4] exampleMonitor
      .TOP1_MANUAL (by decide) (by decide) (by decide)).2 (3 / 10, ⟨42⟩) []).1
      (by norm_num [exampleApp])⟩

/-! ### C9: the rank-based processTopKAboveThreshJudge as a scan -/

/-- Whatever the monitor, a result of the resolver is the false start or the manual outcome
of its rank. -/
theorem scan_range (lane : String) (c : Int) (valid : List Int) (mi : MonitorInfo)
    (isTop1 : Bool) (items : List String) (r : PostProcessResult)
    (h : evaluateMissedPrediction.scan lane c valid mi isTop1 items = .ok r) :
    r = rankOutcome isTop1 true ∨ r = rankOutcome isTop1 false := by
  induction items with
  | nil =>
    simp only [evaluateMissedPrediction.scan, Except.ok.injEq] at h
    right; simp [rankOutcome, ← h]
  | cons item rest ih =>
    unfold evaluateMissedPrediction.scan at h
    cases h1 : map_at mi lane with
    | error e => simp [h1, bind, Except.bind] at h
    | ok cats =>
      cases h2 : map_at cats item with
      | error e => simp [h1, h2, bind, Except.bind] at h
      | ok attrs =>
        cases h3 : map_at attrs "TCOMMODITY_CD" with
        | error e => simp [h1, h2, h3, bind, Except.bind] at h
        | ok codes =>
          cases h4 : std_find codes c with
          | none => exact ih (by simpa [h1, h2, h3, h4, bind, Except.bind] using h)
          | some idx =>
            cases h5 : map_at attrs "SEAT_NO" with
            | error e => simp [h1, h2, h3, h4, h5, bind, Except.bind] at h
            | ok seats =>
              cases h6 : seats[idx]? with
              | none => simp [h1, h2, h3, h4, h5, h6, bind, Except.bind] at h
              | some seat =>
                simp only [h1, h2, h3, h4, h5, h6, bind, Except.bind] at h
                by_cases hv : isTopPredictionAcceptable seat valid = true
                · simp only [hv, if_true, Except.ok.injEq] at h
                  left; simp [rankOutcome, ← h]
                · simp only [hv, Bool.false_eq_true, if_false, Except.ok.injEq] at h
                  right; simp [rankOutcome, ← h]

theorem evaluateMissedPrediction_range (lane menu_category : String) (c : Int)
    (valid : List Int) (mi : MonitorInfo) (isTop1 : Bool) (r : PostProcessResult)
    (h : evaluateMissedPrediction lane menu_category c valid mi isTop1 = .ok r) :
    r = rankOutcome isTop1 true ∨ r = rankOutcome isTop1 false :=
  scan_range lane c valid mi isTop1 _ r h

/-- The loop of the code entered at rank `n ≥ 1` is the scan of the specification entered at
the same rank. -/
theorem loop_eq_scan (self : App) (order : ORDER_DATA) (lane menu_category : String)
    (valid : List Int) (mi : MonitorInfo) (n : Nat) (hn : 1 ≤ n) (topK : TopK) :
    APCTestApp.processTopKAboveThreshJudge.loop self order lane menu_category valid mi
        (n : Int) topK =
      Spec.topKAboveThreshScan self.m_config.topK_threshold order.tcommodity_cd
        (fun c isTop1 => evaluateMissedPrediction lane menu_category c valid mi isTop1) n topK := by
  induction topK generalizing n with
  | nil => rfl
  | cons candidate rest ih =>
    obtain ⟨score, e_class⟩ := candidate
    unfold APCTestApp.processTopKAboveThreshJudge.loop Spec.topKAboveThreshScan
    have hcast : ((n : Int) = 1) ↔ (n = 1) := by omega
    by_cases hs : score < self.m_config.topK_threshold
    · simp [hs, hcast]
    · by_cases hc : e_class.class_code = order.tcommodity_cd
      · simp [hs, hc, hcast]
      · simp only [hs, hc, if_false, hcast]
        cases hr : evaluateMissedPrediction lane menu_category e_class.class_code valid mi
            (decide (n = 1)) with
        | error e => simp [bind, Except.bind]
        | ok r =>
          have hrange := evaluateMissedPrediction_range _ _ _ _ _ _ r hr
          have hnext := ih (n + 1) (by omega)
          simp only [Nat.cast_add, Nat.cast_one] at hnext
          simp only [bind, Except.bind, hnext]
          by_cases h1 : n = 1
          · subst h1
            rcases hrange with h | h <;> simp [rankOutcome] at h <;> subst h <;> simp
          · have h2 : (n : Int) ≥ 2 := by omega
            rcases hrange with h | h <;> simp [rankOutcome, h1] at h <;> subst h <;>
              simp [h1, h2]

/-- C9: on a non-empty `topK` the rank-based `processTopKAboveThreshJudge` equals the scan of
the specification started at rank 1, with threshold `topK_threshold`, the ordered commodity
code, and `evaluateMissedPrediction` on the order's lane as the resolver. -/
theorem C9_topk_above_thresh_is_scan (self : App) (order : ORDER_DATA) (topK : TopK)
    (valid_seat_list : List Int) (monitor_info : MonitorInfo) (hne : topK ≠ []) :
    APCTestApp.processTopKAboveThreshJudge self order topK valid_seat_list monitor_info =
      Spec.topKAboveThreshScan self.m_config.topK_threshold order.tcommodity_cd
        (fun c isTop1 => evaluateMissedPrediction (getLaneMenuCate self order).1
          (getLaneMenuCate self order).2 c valid_seat_list monitor_info isTop1) 1 topK := by
  have hempty : topK.isEmpty = false := by
    cases topK with
    | nil => exact absurd rfl hne
    | cons _ _ => rfl
  simp only [APCTestApp.processTopKAboveThreshJudge, hempty]
  exact loop_eq_scan self order _ _ valid_seat_list monitor_info 1 (le_refl 1) topK

/-- Instance of C9 at the candidates class 17 at 0.9 and class 42 at 0.5. -/
theorem C9_topk_above_thresh_is_scan_witness :
    ([(9 / 10, ⟨17⟩), (1 / 2, ⟨42⟩)] : TopK) ≠ [] ∧
    APCTestApp.processTopKAboveThreshJudge exampleApp exampleOrder
        [(9 / 10, ⟨17⟩), (1 / 2, ⟨42⟩)] [2, 3, 4] exampleMonitor =
      Spec.topKAboveThreshScan exampleApp.m_config.topK_threshold exampleOrder.tcommodity_cd
        (fun c isTop1 => evaluateMissedPrediction (getLaneMenuCate exampleApp exampleOrder).1
          (getLaneMenuCate exampleApp exampleOrder).2 c [2, 3, 4] exampleMonitor isTop1) 1
        [(9 / 10, ⟨17⟩), (1 / 2, ⟨42⟩)] :=
  ⟨by simp, C9_topk_above_thresh_is_scan exampleApp exampleOrder
    [(9 / 10, ⟨17⟩), (1 / 2, ⟨42⟩)] [2, 3, 4] exampleMonitor (by simp)⟩

/-! ### C11: processTop1ThreshJudge -/

/-- A result of the resolver is never `NO_HIT` and never `TOP1_CORRECT`. -/
theorem evaluateMissedPrediction_ne (lane menu_category : String) (c : Int)
    (valid : List Int) (mi : MonitorInfo) (isTop1 : Bool) :
    evaluateMissedPrediction lane menu_category c valid mi isTop1 ≠ .ok .NO_HIT ∧
    evaluateMissedPrediction lane menu_category c valid mi isTop1 ≠ .ok .TOP1_CORRECT := by
  constructor <;> intro h <;>
    rcases evaluateMissedPrediction_range _ _ _ _ _ _ _ h with h2 | h2 <;>
    cases isTop1 <;> simp [rankOutcome] at h2

/-- C11: on a non-empty `topK`, `processTop1ThreshJudge` returns `TOP1_CORRECT` if and only if
the class of the first candidate is the ordered one and its score is at least
`threshold_top1`; in every other case (another class, or the ordered class at a lower score)
it returns exactly the result of resolving the class of the first candidate with
`isTop1 = true`. -/
theorem C11_top1_thresh_judge (self : App) (order : ORDER_DATA) (top1 : ℚ × E_Class)
    (more : TopK) (valid_seat_list : List Int) (monitor_info : MonitorInfo) :
    (APCTestApp.processTop1ThreshJudge self order (top1 :: more) valid_seat_list monitor_info =
        .ok .TOP1_CORRECT ↔
      top1.2.class_code = order.tcommodity_cd ∧ top1.1 ≥ self.m_config.threshold_top1) ∧
    (¬ (top1.2.class_code = order.tcommodity_cd ∧ top1.1 ≥ self.m_config.threshold_top1) →
      APCTestApp.processTop1ThreshJudge self order (top1 :: more) valid_seat_list monitor_info =
        evaluateMissedPrediction (getLaneMenuCate self order).1 (getLaneMenuCate self order).2
          top1.2.class_code valid_seat_list monitor_info true) := by
  have helse : ¬ (top1.2.class_code = order.tcommodity_cd ∧
      top1.1 ≥ self.m_config.threshold_top1) →
      APCTestApp.processTop1ThreshJudge self order (top1 :: more) valid_seat_list monitor_info =
        evaluateMissedPrediction (getLaneMenuCate self order).1 (getLaneMenuCate self order).2
          top1.2.class_code valid_seat_list monitor_info true := by
    intro hn
    simp only [APCTestApp.processTop1ThreshJudge, vec_at, List.isEmpty_cons, Bool.false_eq_true,
      if_false, List.getElem?_cons_zero, bind, Except.bind, hn]
  refine ⟨⟨fun h => ?_, fun h => ?_⟩, helse⟩
  · by_contra hn
    rw [helse hn] at h
    exact (evaluateMissedPrediction_ne _ _ _ _ _ _).2 h
  · simp only [APCTestApp.processTop1ThreshJudge, vec_at, List.isEmpty_cons, Bool.false_eq_true,
      if_false, List.getElem?_cons_zero, bind, Except.bind, h, and_self, if_true]

/-- Instance of C11 at the order of class 42 and the candidates class 42 at 0.3 and class 17
at 0.2: the ordered class at a score below the default `threshold_top1` 0.5 is resolved like a
wrong class. -/
theorem C11_top1_thresh_judge_witness :
    ¬ (((3 / 10, ⟨42⟩) : ℚ × E_Class).2.class_code = exampleOrder.tcommodity_cd ∧
      ((3 / 10, ⟨42⟩) : ℚ × E_Class).1 ≥ exampleApp.m_config.threshold_top1) ∧
    APCTestApp.processTop1ThreshJudge exampleApp exampleOrder [(3 / 10, ⟨42⟩), (1 / 5, ⟨17⟩)]
        [2, 3, 4] exampleMonitor =
      evaluateMissedPrediction (getLaneMenuCate exampleApp exampleOrder).1
        (getLaneMenuCate exampleApp exampleOrder).2 ((3 / 10, ⟨42⟩) : ℚ × E_Class).2.class_code
        [2, 3, 4] exampleMonitor true :=
  ⟨by norm_num [exampleApp],
    (C11_top1_thresh_judge exampleApp exampleOrder (3 / 10, ⟨42⟩) [(1 / 5, ⟨17⟩)] [2, 3, 4]
      exampleMonitor).2 (by norm_num [exampleApp])⟩

/-! ### C12: processTop1Judge -/

/-- C12: on a non-empty `topK`, `processTop1Judge` returns `TOP1_CORRECT` if the class of the
first candidate is the ordered one and otherwise exactly the result of resolving that class
with `isTop1 = true`; replacing the score of the first candidate and all further candidates
leaves the result unchanged. -/
theorem C12_top1_judge (self : App) (order : ORDER_DATA) (top1 : ℚ × E_Class) (more : TopK)
    (valid_seat_list : List Int) (monitor_info : MonitorInfo) :
    (top1.2.class_code = order.tcommodity_cd →
      APCTestAppTop2Threshold.processTop1Judge self order (top1 :: more) valid_seat_list
        monitor_info = .ok .TOP1_CORRECT) ∧
    (top1.2.class_code ≠ order.tcommodity_cd →
      APCTestAppTop2Threshold.processTop1Judge self order (top1 :: more) valid_seat_list
        monitor_info =
      evaluateMissedPrediction (getLaneMenuCate self order).1 (getLaneMenuCate self order).2
        top1.2.class_code valid_seat_list monitor_info true) ∧
    (∀ (score : ℚ) (others : TopK),
      APCTestAppTop2Threshold.processTop1Judge self order ((score, top1.2) :: others)
        valid_seat_list monitor_info =
      APCTestAppTop2Threshold.processTop1Judge self order (top1 :: more) valid_seat_list
        monitor_info) := by
  refine ⟨fun h => ?_, fun h => ?_, fun score others => ?_⟩
  · simp [APCTestAppTop2Threshold.processTop1Judge, vec_at, bind, Except.bind, h]
  · simp [APCTestAppTop2Threshold.processTop1Judge, vec_at, bind, Except.bind, h]
  · simp [APCTestAppTop2Threshold.processTop1Judge, vec_at, bind, Except.bind]

/-- Instance of C12 at the order of class 42 and a first candidate of class 17, which
the example monitor records nowhere: the rule gives the resolver's result. -/
theorem C12_top1_judge_witness :
    ((9 / 10, ⟨17⟩) : ℚ × E_Class).2.class_code ≠ exampleOrder.tcommodity_cd ∧
    APCTestAppTop2Threshold.processTop1Judge exampleApp exampleOrder
        [(9 / 10, ⟨17⟩), (1 / 2, ⟨42⟩)] [2, 3, 4] exampleMonitor =
      evaluateMissedPrediction (getLaneMenuCate exampleApp exampleOrder).1
        (getLaneMenuCate exampleApp exampleOrder).2 ((9 / 10, ⟨17⟩) : ℚ × E_Class).2.class_code
        [2, 3, 4] exampleMonitor true :=
  ⟨by decide,
    (C12_top1_judge exampleApp exampleOrder (9 / 10, ⟨17⟩) [(1 / 2, ⟨42⟩)] [2, 3, 4]
      exampleMonitor).2.1 (by decide)⟩

/-! ### C13: when a rule returns NO_HIT -/

theorem top1_judge_ne_NO_HIT (self : App) (order : ORDER_DATA) (top1 : ℚ × E_Class)
    (more : TopK) (valid : List Int) (mi : MonitorInfo) :
    APCTestAppTop2Threshold.processTop1Judge self order (top1 :: more) valid mi ≠
      .ok .NO_HIT := by
  by_cases hc : top1.2.class_code = order.tcommodity_cd
  · simp [APCTestAppTop2Threshold.processTop1Judge, vec_at, bind, Except.bind, hc]
  · simpa [APCTestAppTop2Threshold.processTop1Judge, vec_at, bind, Except.bind, hc] using
      (evaluateMissedPrediction_ne _ _ _ _ _ _).1

theorem top2_judge_ne_NO_HIT (self : App) (order : ORDER_DATA) (top1 : ℚ × E_Class)
    (more : TopK) (valid : List Int) (mi : MonitorInfo) :
    APCTestAppTop2Threshold.processTop2Judge self order (top1 :: more) valid mi ≠
      .ok .NO_HIT := by
  by_cases hc : top1.2.class_code = order.tcommodity_cd
  · simp [APCTestAppTop2Threshold.processTop2Judge, vec_at, bind, Except.bind, hc]
  · cases hr : evaluateMissedPrediction (getLaneMenuCate self order).1
        (getLaneMenuCate self order).2 top1.2.class_code valid mi true with
    | error e =>
      simp [APCTestAppTop2Threshold.processTop2Judge, vec_at, bind, Except.bind, hc, hr]
    | ok r =>
      by_cases hfs : r = .TOP1_FALSE_START
      · simp [APCTestAppTop2Threshold.processTop2Judge, vec_at, bind, Except.bind, hc, hr, hfs]
      · cases more with
        | nil =>
          simp [APCTestAppTop2Threshold.processTop2Judge, vec_at, bind, Except.bind, hc, hr, hfs]
        | cons top2 others =>
          by_cases hc2 : top2.2.class_code = order.tcommodity_cd
          · simp [APCTestAppTop2Threshold.processTop2Judge, vec_at, bind, Except.bind, hc, hr,
              hfs, hc2]
          · simpa [APCTestAppTop2Threshold.processTop2Judge, vec_at, bind, Except.bind, hc, hr,
              hfs, hc2] using (evaluateMissedPrediction_ne _ _ _ _ _ _).1

theorem top2_thresh_judge_ne_NO_HIT (self : App) (order : ORDER_DATA) (top1 : ℚ × E_Class)
    (more : TopK) (valid : List Int) (mi : MonitorInfo) :
    APCTestAppTop2Threshold.processTop2ThreshJudge self order (top1 :: more) valid mi ≠
      .ok .NO_HIT := by
  by_cases hc : top1.2.class_code = order.tcommodity_cd
  · simp [APCTestAppTop2Threshold.processTop2ThreshJudge, vec_at, bind, Except.bind, hc]
  · cases hr : evaluateMissedPrediction (getLaneMenuCate self order).1
        (getLaneMenuCate self order).2 top1.2.class_code valid mi true with
    | error e =>
      simp [APCTestAppTop2Threshold.processTop2ThreshJudge, vec_at, bind, Except.bind, hc, hr]
    | ok r =>
      by_cases hfs : r = .TOP1_FALSE_START
      · simp [APCTestAppTop2Threshold.processTop2ThreshJudge, vec_at, bind, Except.bind, hc, hr,
          hfs]
      · cases more with
        | nil =>
          simp [APCTestAppTop2Threshold.processTop2ThreshJudge, vec_at, bind, Except.bind, hc,
            hr, hfs]
        | cons top2 others =>
          by_cases hs : top2.1 < self.m_config.threshold_top2
          · simp [APCTestAppTop2Threshold.processTop2ThreshJudge, vec_at, bind, Except.bind, hc,
              hr, hfs, hs]
          · by_cases hc2 : top2.2.class_code = order.tcommodity_cd
            · simp [APCTestAppTop2Threshold.processTop2ThreshJudge, vec_at, bind, Except.bind,
                hc, hr, hfs, hs, hc2]
            · simpa [APCTestAppTop2Threshold.processTop2ThreshJudge, vec_at, bind, Except.bind,
                hc, hr, hfs, hs, hc2] using (evaluateMissedPrediction_ne _ _ _ _ _ _).1

theorem score_gap_judge_ne_NO_HIT (self : App) (order : ORDER_DATA) (top1 top2 : ℚ × E_Class)
    (more : TopK) (valid : List Int) (mi : MonitorInfo) :
    APCTestApp.processScoreGapJudge self order (top1 :: top2 :: more) valid mi ≠
      .ok .NO_HIT := by
  by_cases hc : top1.2.class_code = order.tcommodity_cd
  · simp [APCTestApp.processScoreGapJudge, vec_at, bind, Except.bind, hc]
  · cases hr : evaluateMissedPrediction (getLaneMenuCate self order).1
        (getLaneMenuCate self order).2 top1.2.class_code valid mi true with
    | error e => simp [APCTestApp.processScoreGapJudge, vec_at, bind, Except.bind, hc, hr]
    | ok r =>
      by_cases hfs : r = .TOP1_FALSE_START
      · simp [APCTestApp.processScoreGapJudge, vec_at, bind, Except.bind, hc, hr, hfs]
      · by_cases hg : self.m_config.diff_threshold < float_sub top1.1 top2.1
        · simp [APCTestApp.processScoreGapJudge, vec_at, bind, Except.bind, hc, hr, hfs, hg]
        · by_cases hc2 : top2.2.class_code = order.tcommodity_cd
          · simp [APCTestApp.processScoreGapJudge, vec_at, bind, Except.bind, hc, hr, hfs, hg,
              hc2]
          · simpa [APCTestApp.processScoreGapJudge, vec_at, bind, Except.bind, hc, hr, hfs, hg,
              hc2] using (evaluateMissedPrediction_ne _ _ _ _ _ _).1

theorem top1_thresh_judge_ne_NO_HIT (self : App) (order : ORDER_DATA) (top1 : ℚ × E_Class)
    (more : TopK) (valid : List Int) (mi : MonitorInfo) :
    APCTestApp.processTop1ThreshJudge self order (top1 :: more) valid mi ≠ .ok .NO_HIT := by
  by_cases hc : top1.2.class_code = order.tcommodity_cd ∧
      top1.1 ≥ self.m_config.threshold_top1
  · simp only [APCTestApp.processTop1ThreshJudge, vec_at, List.isEmpty_cons, Bool.false_eq_true,
      if_false, List.getElem?_cons_zero, bind, Except.bind, hc, and_self, if_true]
    simp
  · simp only [APCTestApp.processTop1ThreshJudge, vec_at, List.isEmpty_cons, Bool.false_eq_true,
      if_false, List.getElem?_cons_zero, bind, Except.bind, hc]
    exact (evaluateMissedPrediction_ne _ _ _ _ _ _).1

theorem rank_loop_ne_NO_HIT (self : App) (order : ORDER_DATA) (lane menu_category : String)
    (valid : List Int) (mi : MonitorInfo) (rank : Int) (topK : TopK) :
    APCTestApp.processTopKAboveThreshJudge.loop self order lane menu_category valid mi rank
      topK ≠ .ok .NO_HIT := by
  induction topK generalizing rank with
  | nil => simp [APCTestApp.processTopKAboveThreshJudge.loop]
  | cons candidate rest ih =>
    obtain ⟨score, e_class⟩ := candidate
    unfold APCTestApp.processTopKAboveThreshJudge.loop
    by_cases hs : score < self.m_config.topK_threshold
    · by_cases h1 : rank = 1 <;> simp [hs, h1]
    · by_cases hc : e_class.class_code = order.tcommodity_cd
      · by_cases h1 : rank = 1 <;> simp [hs, hc, h1]
      · simp only [hs, hc, if_false]
        cases hr : evaluateMissedPrediction lane menu_category e_class.class_code valid mi
            (decide (rank = 1)) with
        | error e => simp [bind, Except.bind]
        | ok r =>
          have hne : r ≠ .NO_HIT := fun h =>
            (evaluateMissedPrediction_ne lane menu_category e_class.class_code valid mi
              (decide (rank = 1))).1 (by rw [hr, h])
          simp only [bind, Except.bind]
          split_ifs
          · simpa using hne
          · exact ih (rank + 1)

/-- The rule `APCTestAppTop2Threshold::processTopKAboveThreshJudge` always returns, with
`NO_HIT` exactly when no candidate at or above `topK_threshold` has the ordered class, and
with `TOP1_CORRECT` otherwise. -/
theorem legacy_topk_above_thresh (self : App) (order : ORDER_DATA) (topK : TopK)
    (valid : List Int) (mi : MonitorInfo) :
    (APCTestAppTop2Threshold.processTopKAboveThreshJudge self order topK valid mi =
        .ok .NO_HIT ↔
      ∀ p ∈ topK, ¬ (p.1 ≥ self.m_config.topK_threshold ∧
        p.2.class_code = order.tcommodity_cd)) ∧
    (APCTestAppTop2Threshold.processTopKAboveThreshJudge self order topK valid mi =
        .ok .NO_HIT ∨
      APCTestAppTop2Threshold.processTopKAboveThreshJudge self order topK valid mi =
        .ok .TOP1_CORRECT) := by
  induction topK with
  | nil => simp [APCTestAppTop2Threshold.processTopKAboveThreshJudge]
  | cons p rest ih =>
    obtain ⟨score, e_class⟩ := p
    unfold APCTestAppTop2Threshold.processTopKAboveThreshJudge
    by_cases h : score ≥ self.m_config.topK_threshold ∧
        e_class.class_code = order.tcommodity_cd
    · rw [if_pos h]
      exact ⟨⟨fun h2 => by simp at h2, fun h2 => absurd h (h2 (score, e_class) (by simp))⟩,
        Or.inr rfl⟩
    · rw [if_neg h]
      refine ⟨?_, ih.2⟩
      rw [ih.1]
      constructor
      · intro h2 p hp
        rcases List.mem_cons.1 hp with rfl | hp2
        · exact h
        · exact h2 p hp2
      · intro h2 p hp
        exact h2 p (List.mem_cons_of_mem _ hp)

/-- C13 (counterexample): the rule that `initPostProcessChain` binds at position 4,
`APCTestAppTop2Threshold::processTopKAboveThreshJudge`, returns `NO_HIT` for the order
of class 42 on the non-empty candidate list holding class 17 at 0.9. -/
theorem C13_bound_topk_rule_NO_HIT_on_nonempty :
    ∃ rule, APCTestAppTop2Threshold.initPostProcessChain[4]? = some rule ∧
      ([((9 : ℚ) / 10, (⟨17⟩ : E_Class))] : TopK) ≠ [] ∧
      rule exampleApp exampleOrder [(9 / 10, ⟨17⟩)] [2, 3, 4] exampleMonitor = .ok .NO_HIT := by
  refine ⟨APCTestAppTop2Threshold.processTopKAboveThreshJudge, rfl, by simp, ?_⟩
  simp [APCTestAppTop2Threshold.processTopKAboveThreshJudge, exampleOrder]

/-- C13 (amended): `processTop1Judge`, `processTop2Judge`, `processTop2ThreshJudge` and
`processTop1ThreshJudge` return `NO_HIT` if and only if `topK` is empty;
`processScoreGapJudge` returns `NO_HIT` if and only if `topK` has fewer than two candidates;
the rule `APCTestAppTop2Threshold::processTopKAboveThreshJudge` that the chain binds returns
`NO_HIT` if and only if no candidate at or above `topK_threshold` has the ordered class (in
particular on an empty `topK`); the rank-based `APCTestApp::processTopKAboveThreshJudge`
returns `NO_HIT` if and only if `topK` is empty. -/
theorem C13_no_hit_conditions (self : App) (order : ORDER_DATA) (topK : TopK)
    (valid_seat_list : List Int) (monitor_info : MonitorInfo) :
    (APCTestAppTop2Threshold.processTop1Judge self order topK valid_seat_list monitor_info =
      .ok .NO_HIT ↔ topK = []) ∧
    (APCTestAppTop2Threshold.processTop2Judge self order topK valid_seat_list monitor_info =
      .ok .NO_HIT ↔ topK = []) ∧
    (APCTestAppTop2Threshold.processTop2ThreshJudge self order topK valid_seat_list
      monitor_info = .ok .NO_HIT ↔ topK = []) ∧
    (APCTestApp.processTop1ThreshJudge self order topK valid_seat_list monitor_info =
      .ok .NO_HIT ↔ topK = []) ∧
    (APCTestApp.processScoreGapJudge self order topK valid_seat_list monitor_info =
      .ok .NO_HIT ↔ topK.length < 2) ∧
    (APCTestAppTop2Threshold.processTopKAboveThreshJudge self order topK valid_seat_list
      monitor_info = .ok .NO_HIT ↔
      ∀ p ∈ topK, ¬ (p.1 ≥ self.m_config.topK_threshold ∧
        p.2.class_code = order.tcommodity_cd)) ∧
    (APCTestApp.processTopKAboveThreshJudge self order topK valid_seat_list monitor_info =
      .ok .NO_HIT ↔ topK = []) := by
  refine ⟨?_, ?_, ?_, ?_, ?_, (legacy_topk_above_thresh self order topK _ _).1, ?_⟩
  · cases topK with
    | nil => simp [APCTestAppTop2Threshold.processTop1Judge]
    | cons top1 more => simpa using top1_judge_ne_NO_HIT self order top1 more _ _
  · cases topK with
    | nil => simp [APCTestAppTop2Threshold.processTop2Judge]
    | cons top1 more => simpa using top2_judge_ne_NO_HIT self order top1 more _ _
  · cases topK with
    | nil => simp [APCTestAppTop2Threshold.processTop2ThreshJudge]
    | cons top1 more => simpa using top2_thresh_judge_ne_NO_HIT self order top1 more _ _
  · cases topK with
    | nil => simp [APCTestApp.processTop1ThreshJudge]
    | cons top1 more => simpa using top1_thresh_judge_ne_NO_HIT self order top1 more _ _
  · cases topK with
    | nil => simp [APCTestApp.processScoreGapJudge]
    | cons top1 more =>
      cases more with
      | nil => simp [APCTestApp.processScoreGapJudge]
      | cons top2 others =>
        have hne := score_gap_judge_ne_NO_HIT self order top1 top2 others valid_seat_list
          monitor_info
        constructor
        · intro h; exact absurd h hne
        · intro h; simp only [List.length_cons] at h; omega
  · cases topK with
    | nil => simp [APCTestApp.processTopKAboveThreshJudge]
    | cons top1 more =>
      simpa [APCTestApp.processTopKAboveThreshJudge] using
        rank_loop_ne_NO_HIT self order _ _ valid_seat_list monitor_info 1 (top1 :: more)

/-- Instance of amended C13 at the order of class 42 and the single candidate class 17 at
0.9: the bound rule returns `NO_HIT` because no candidate has the ordered class. -/
theorem C13_no_hit_conditions_witness :
    (∀ p ∈ ([(9 / 10, ⟨17⟩)] : TopK), ¬ (p.1 ≥ exampleApp.m_config.topK_threshold ∧
      p.2.class_code = exampleOrder.tcommodity_cd)) ∧
    APCTestAppTop2Threshold.processTopKAboveThreshJudge exampleApp exampleOrder
      [(9 / 10, ⟨17⟩)] [2, 3, 4] exampleMonitor = .ok .NO_HIT :=
  ⟨by simp [exampleOrder],
    (C13_no_hit_conditions exampleApp exampleOrder [(9 / 10, ⟨17⟩)] [2, 3, 4]
      exampleMonitor).2.2.2.2.2.1.2 (by simp [exampleOrder])⟩

/-! ### Ranking: facts shared by C14 to C18 -/

theorem getTopKPredictions_eq_filterMap_temp (sort : List (ℚ × Nat) → List (ℚ × Nat))
    (scores : List ℚ) (k : Int) (threshold : ℚ) (m : Nat → Option E_Class) :
    getTopKPredictions sort scores k threshold m =
      (getTopKPredictions.temp sort scores k threshold).filterMap
        fun p => (m p.2).map fun c => (p.1, c) := rfl

theorem temp_sublist_sorted (sort : List (ℚ × Nat) → List (ℚ × Nat)) (scores : List ℚ)
    (k : Int) (threshold : ℚ) :
    List.Sublist (getTopKPredictions.temp sort scores k threshold)
      (sort (scores.enum.map fun p => (p.2, p.1))) := by
  unfold getTopKPredictions.temp
  simp only []
  split_ifs
  · exact List.take_sublist _ _
  · exact List.Sublist.refl _
  · exact List.filter_sublist _

theorem mem_indexed_scores (scores : List ℚ) (s : ℚ) (i : Nat) :
    (s, i) ∈ (scores.enum.map fun p => (p.2, p.1)) ↔ scores[i]? = some s := by
  simp only [List.mem_map, Prod.mk.injEq, Prod.exists]
  constructor
  · rintro ⟨a, b, hab, rfl, rfl⟩
    exact List.mk_mem_enum_iff_getElem?.1 hab
  · intro h
    exact ⟨i, s, List.mk_mem_enum_iff_getElem?.2 h, rfl, rfl⟩

theorem indexed_scores_nodup (scores : List ℚ) :
    ((scores.enum.map fun p => (p.2, p.1)).map Prod.snd).Nodup := by
  have h : (scores.enum.map fun p => (p.2, p.1)).map Prod.snd = List.range scores.length := by
    rw [List.map_map]
    exact List.enum_map_fst scores
  rw [h]
  exact List.nodup_range _

/-- Under the contract of `std::sort`, the pairs in `temp` are pairs (scores[i], i), no index
occurs twice, and no pair is followed by one with a strictly higher score. -/
theorem temp_facts (sort : List (ℚ × Nat) → List (ℚ × Nat)) (hsort : SortsByScoreDescending sort)
    (scores : List ℚ) (k : Int) (threshold : ℚ) :
    (∀ p ∈ getTopKPredictions.temp sort scores k threshold, scores[p.2]? = some p.1) ∧
    ((getTopKPredictions.temp sort scores k threshold).map Prod.snd).Nodup ∧
    (getTopKPredictions.temp sort scores k threshold).Pairwise (fun a b => ¬ b.1 > a.1) := by
  have hsub := temp_sublist_sorted sort scores k threshold
  obtain ⟨hperm, hpair⟩ := hsort (scores.enum.map fun p => (p.2, p.1))
  refine ⟨fun p hp => ?_, ?_, hpair.sublist hsub⟩
  · have h1 : p ∈ (scores.enum.map fun p => (p.2, p.1)) := hperm.mem_iff.1 (hsub.subset hp)
    exact (mem_indexed_scores scores p.1 p.2).1 h1
  · have h2 : ((sort (scores.enum.map fun p => (p.2, p.1))).map Prod.snd).Nodup :=
      ((hperm.map Prod.snd).nodup_iff).2 (indexed_scores_nodup scores)
    exact h2.sublist (hsub.map Prod.snd)

/-- The insertion sort by descending score of the example collaborators meets the contract of
`std::sort`. -/
theorem exampleEnv_sort_contract : SortsByScoreDescending exampleEnv.sort := by
  intro l
  haveI : IsTotal (ℚ × Nat) (fun a b => a.1 ≥ b.1) := ⟨fun a b => le_total b.1 a.1⟩
  haveI : IsTrans (ℚ × Nat) (fun a b => a.1 ≥ b.1) := ⟨fun a b c hab hbc => le_trans hbc hab⟩
  refine ⟨List.perm_insertionSort _ l, ?_⟩
  have hs : List.Sorted (fun a b : ℚ × Nat => a.1 ≥ b.1)
      (List.insertionSort (fun a b => a.1 ≥ b.1) l) := List.sorted_insertionSort _ l
  exact List.Pairwise.imp (fun {a b} h => not_lt.mpr h) hs

/-! ### C14: descending scores -/

/-- C14 (counterexample): for the score vector `[0.5, 0.5]` (k = 5, both indices mapped) the
result under the example sort is class 42 at 0.5 followed by class 17 at 0.5, which is not
strictly descending; and under every sort that meets the contract of `std::sort` the result
for this vector is not strictly descending. -/
theorem C14_equal_scores_not_strict :
    getTopKPredictions exampleEnv.sort [1 / 2, 1 / 2] 5 0 exampleEnv.class_info_recognize =
      [(1 / 2, ⟨42⟩), (1 / 2, ⟨17⟩)] ∧
    ¬ List.Chain' (fun a b : ℚ × E_Class => a.1 > b.1)
      (getTopKPredictions exampleEnv.sort [1 / 2, 1 / 2] 5 0 exampleEnv.class_info_recognize) ∧
    ∀ sort, SortsByScoreDescending sort →
      ¬ List.Chain' (fun a b : ℚ × E_Class => a.1 > b.1)
        (getTopKPredictions sort [1 / 2, 1 / 2] 5 0 exampleEnv.class_info_recognize) := by
  have h1 : getTopKPredictions exampleEnv.sort [1 / 2, 1 / 2] 5 0
      exampleEnv.class_info_recognize = [(1 / 2, ⟨42⟩), (1 / 2, ⟨17⟩)] := by
    norm_num [getTopKPredictions, exampleEnv, List.enum, List.enumFrom, List.insertionSort,
      List.orderedInsert, List.filterMap]
  refine ⟨h1, by rw [h1]; simp, fun sort hsort => ?_⟩
  obtain ⟨hperm, -⟩ := hsort (([1 / 2, 1 / 2] : List ℚ).enum.map fun p => (p.2, p.1))
  have hlen : (sort (([1 / 2, 1 / 2] : List ℚ).enum.map fun p => (p.2, p.1))).length = 2 := by
    rw [hperm.length_eq]; rfl
  have hres : getTopKPredictions sort [1 / 2, 1 / 2] 5 0 exampleEnv.class_info_recognize =
      (sort (([1 / 2, 1 / 2] : List ℚ).enum.map fun p => (p.2, p.1))).filterMap
        fun p => (exampleEnv.class_info_recognize p.2).map fun c => (p.1, c) := by
    rw [getTopKPredictions_eq_filterMap_temp]
    unfold getTopKPredictions.temp
    simp only []
    rw [if_pos (by norm_num), if_neg (by rw [hlen]; norm_num)]
  have hp2 := hperm.filterMap
    (fun p : ℚ × Nat => (exampleEnv.class_info_recognize p.2).map fun c => (p.1, c))
  have hbase : (([1 / 2, 1 / 2] : List ℚ).enum.map fun p => (p.2, p.1)).filterMap
      (fun p : ℚ × Nat => (exampleEnv.class_info_recognize p.2).map fun c => (p.1, c)) =
      [(1 / 2, ⟨42⟩), (1 / 2, ⟨17⟩)] := by
    simp [exampleEnv, List.enum, List.enumFrom, List.filterMap]
  rw [hbase] at hp2
  rw [hres]
  intro hchain
  have hall : ∀ e ∈ (sort (([1 / 2, 1 / 2] : List ℚ).enum.map fun p => (p.2, p.1))).filterMap
      (fun p : ℚ × Nat => (exampleEnv.class_info_recognize p.2).map fun c => (p.1, c)),
      e.1 = 1 / 2 := by
    intro e he
    have := hp2.mem_iff.1 he
    simp only [List.mem_cons, List.mem_singleton, List.not_mem_nil, or_false] at this
    rcases this with rfl | rfl <;> rfl
  have hl2 := hp2.length_eq
  match hm : (sort (([1 / 2, 1 / 2] : List ℚ).enum.map fun p => (p.2, p.1))).filterMap
      (fun p : ℚ × Nat => (exampleEnv.class_info_recognize p.2).map fun c => (p.1, c)) with
  | [] => rw [hm] at hl2; simp at hl2
  | [_] => rw [hm] at hl2; simp at hl2
  | a :: b :: rest =>
    rw [hm] at hchain hall
    have ha := hall a (by simp)
    have hb := hall b (by simp)
    have hgt : a.1 > b.1 := (List.chain'_cons.1 hchain).1
    rw [ha, hb] at hgt
    exact lt_irrefl _ hgt

/-- C14 (amended): for every sort that meets the contract of `std::sort`, every score vector,
`k`, threshold and mapping, the list returned by `getTopKPredictions` is descending by score
in the wide sense: every entry's score is at least the score of each later entry, and so of
the entry that follows it. -/
theorem C14_scores_descending (sort : List (ℚ × Nat) → List (ℚ × Nat))
    (hsort : SortsByScoreDescending sort) (scores : List ℚ) (k : Int) (threshold : ℚ)
    (class_info_recognize : Nat → Option E_Class) :
    List.Pairwise (fun a b : ℚ × E_Class => a.1 ≥ b.1)
      (getTopKPredictions sort scores k threshold class_info_recognize) ∧
    List.Chain' (fun a b : ℚ × E_Class => a.1 ≥ b.1)
      (getTopKPredictions sort scores k threshold class_info_recognize) := by
  have hp : List.Pairwise (fun a b : ℚ × E_Class => a.1 ≥ b.1)
      (getTopKPredictions sort scores k threshold class_info_recognize) := by
    rw [getTopKPredictions_eq_filterMap_temp, List.pairwise_filterMap]
    refine List.Pairwise.imp (fun {a b} h => ?_) (temp_facts sort hsort scores k threshold).2.2
    intro x hx y hy
    simp only [Option.mem_def, Option.map_eq_some'] at hx hy
    obtain ⟨_, _, rfl⟩ := hx
    obtain ⟨_, _, rfl⟩ := hy
    exact not_lt.mp h
  exact ⟨hp, hp.chain'⟩

/-- Instance of amended C14 at the example sort and the score vector `[0.5, 0.5]`. -/
theorem C14_scores_descending_witness :
    SortsByScoreDescending exampleEnv.sort ∧
    List.Pairwise (fun a b : ℚ × E_Class => a.1 ≥ b.1)
      (getTopKPredictions exampleEnv.sort [1 / 2, 1 / 2] 5 0 exampleEnv.class_info_recognize) ∧
    List.Chain' (fun a b : ℚ × E_Class => a.1 ≥ b.1)
      (getTopKPredictions exampleEnv.sort [1 / 2, 1 / 2] 5 0 exampleEnv.class_info_recognize) :=
  ⟨exampleEnv_sort_contract,
    C14_scores_descending exampleEnv.sort exampleEnv_sort_contract [1 / 2, 1 / 2] 5 0
      exampleEnv.class_info_recognize⟩

/-! ### C15: selection by count -/

/-- C15: for `k > 0`, `getTopKPredictions` returns at most `k` entries, and its result is the
same for every value of the threshold argument. -/
theorem C15_by_count (sort : List (ℚ × Nat) → List (ℚ × Nat)) (scores : List ℚ) (k : Int)
    (threshold : ℚ) (class_info_recognize : Nat → Option E_Class) (hk : k > 0) :
    ((getTopKPredictions sort scores k threshold class_info_recognize).length : Int) ≤ k ∧
    ∀ other : ℚ, getTopKPredictions sort scores k other class_info_recognize =
      getTopKPredictions sort scores k threshold class_info_recognize := by
  constructor
  · rw [getTopKPredictions_eq_filterMap_temp]
    have h1 := List.length_filterMap_le
      (fun p : ℚ × Nat => (class_info_recognize p.2).map fun c => (p.1, c))
      (getTopKPredictions.temp sort scores k threshold)
    have h2 : ((getTopKPredictions.temp sort scores k threshold).length : Int) ≤ k := by
      unfold getTopKPredictions.temp
      simp only [hk, if_true]
      split_ifs with hlen
      · rw [List.length_take]
        omega
      · omega
    omega
  · intro other
    simp only [getTopKPredictions, hk, if_true]

/-- Instance of C15 at `k = 1` and the score vector `[0.9, 0.5]`. -/
theorem C15_by_count_witness :
    (1 : Int) > 0 ∧
    ((getTopKPredictions exampleEnv.sort [9 / 10, 1 / 2] 1 0
      exampleEnv.class_info_recognize).length : Int) ≤ 1 ∧
    ∀ other : ℚ, getTopKPredictions exampleEnv.sort [9 / 10, 1 / 2] 1 other
        exampleEnv.class_info_recognize =
      getTopKPredictions exampleEnv.sort [9 / 10, 1 / 2] 1 0 exampleEnv.class_info_recognize :=
  ⟨by decide, C15_by_count exampleEnv.sort [9 / 10, 1 / 2] 1 0 exampleEnv.class_info_recognize
    (by decide)⟩

/-! ### C16: selection by threshold -/

/-- C16: for `k ≤ 0` and a sort that meets the contract of `std::sort`, `getTopKPredictions`
returns exactly the mapped candidates at or above the threshold: every returned entry is
(scores[i], mapping[i]) for an index `i` of the mapping's domain and has a score of at least
`threshold`, and every index `i` of the mapping's domain with `scores[i] ≥ threshold` appears
in the result as (scores[i], mapping[i]). -/
theorem C16_by_threshold (sort : List (ℚ × Nat) → List (ℚ × Nat))
    (hsort : SortsByScoreDescending sort) (scores : List ℚ) (k : Int) (threshold : ℚ)
    (class_info_recognize : Nat → Option E_Class) (hk : k ≤ 0) :
    (∀ e ∈ getTopKPredictions sort scores k threshold class_info_recognize,
      e.1 ≥ threshold ∧
      ∃ i, scores[i]? = some e.1 ∧ class_info_recognize i = some e.2) ∧
    (∀ (i : Nat) (s : ℚ) (c : E_Class), scores[i]? = some s →
      class_info_recognize i = some c → s ≥ threshold →
      (s, c) ∈ getTopKPredictions sort scores k threshold class_info_recognize) := by
  have hk2 : ¬ k > 0 := not_lt.mpr hk
  have htemp : getTopKPredictions.temp sort scores k threshold =
      (sort (scores.enum.map fun p => (p.2, p.1))).filter fun p => ¬ p.1 < threshold := by
    unfold getTopKPredictions.temp
    simp only [hk2, if_false]
  obtain ⟨hperm, -⟩ := hsort (scores.enum.map fun p => (p.2, p.1))
  constructor
  · intro e he
    rw [getTopKPredictions_eq_filterMap_temp, List.mem_filterMap] at he
    obtain ⟨p, hp, hpe⟩ := he
    simp only [Option.map_eq_some'] at hpe
    obtain ⟨c, hc, rfl⟩ := hpe
    have hfact := (temp_facts sort hsort scores k threshold).1 p hp
    rw [htemp, List.mem_filter] at hp
    refine ⟨?_, p.2, hfact, hc⟩
    have := hp.2
    simp only [decide_not, Bool.not_eq_true', decide_eq_false_iff_not, not_lt] at this
    exact of_decide_eq_true this
  · intro i s c hs hc hge
    rw [getTopKPredictions_eq_filterMap_temp, List.mem_filterMap]
    refine ⟨(s, i), ?_, by simp [hc]⟩
    rw [htemp, List.mem_filter]
    refine ⟨hperm.mem_iff.2 ((mem_indexed_scores scores s i).2 hs), ?_⟩
    simp only [decide_not, Bool.not_eq_true', decide_eq_false_iff_not, not_lt]
    exact decide_eq_true hge

/-- Instance of C16 at the example sort, `k = 0`, threshold 0.6 and the score vector
`[0.9, 0.5]`. -/
theorem C16_by_threshold_witness :
    SortsByScoreDescending exampleEnv.sort ∧ (0 : Int) ≤ 0 ∧
    (∀ e ∈ getTopKPredictions exampleEnv.sort [9 / 10, 1 / 2] 0 (3 / 5)
        exampleEnv.class_info_recognize,
      e.1 ≥ 3 / 5 ∧
      ∃ i, ([9 / 10, 1 / 2] : List ℚ)[i]? = some e.1 ∧
        exampleEnv.class_info_recognize i = some e.2) ∧
    (∀ (i : Nat) (s : ℚ) (c : E_Class), ([9 / 10, 1 / 2] : List ℚ)[i]? = some s →
      exampleEnv.class_info_recognize i = some c → s ≥ 3 / 5 →
      (s, c) ∈ getTopKPredictions exampleEnv.sort [9 / 10, 1 / 2] 0 (3 / 5)
        exampleEnv.class_info_recognize) :=
  ⟨exampleEnv_sort_contract, le_refl 0,
    C16_by_threshold exampleEnv.sort exampleEnv_sort_contract [9 / 10, 1 / 2] 0 (3 / 5)
      exampleEnv.class_info_recognize (le_refl 0)⟩

/-! ### C17: the ranking always returns mapped candidates -/

theorem filterMap_indices (scores : List ℚ) (m : Nat → Option E_Class) (l : List (ℚ × Nat))
    (hl : ∀ p ∈ l, scores[p.2]? = some p.1) (hnd : (l.map Prod.snd).Nodup) :
    ∃ idxs : List Nat, idxs.Nodup ∧ (∀ i ∈ idxs, i ∈ l.map Prod.snd) ∧
      List.Forall₂ (fun i (e : ℚ × E_Class) =>
        i < scores.length ∧ scores[i]? = some e.1 ∧ m i = some e.2) idxs
        (l.filterMap fun p => (m p.2).map fun c => (p.1, c)) := by
  induction l with
  | nil => exact ⟨[], List.nodup_nil, by simp, by simp⟩
  | cons p rest ih =>
    have hnd2 : (rest.map Prod.snd).Nodup := (List.nodup_cons.1 (by simpa using hnd)).2
    have hnotin : p.2 ∉ rest.map Prod.snd := (List.nodup_cons.1 (by simpa using hnd)).1
    obtain ⟨idxs, h1, h2, h3⟩ := ih (fun q hq => hl q (List.mem_cons_of_mem _ hq)) hnd2
    cases hm : m p.2 with
    | none =>
      refine ⟨idxs, h1, fun i hi => ?_, ?_⟩
      · simpa using Or.inr (by simpa using h2 i hi)
      · simpa [List.filterMap_cons, hm] using h3
    | some c =>
      have hp := hl p (by simp)
      have hlt : p.2 < scores.length := by
        obtain ⟨h, _⟩ := List.getElem?_eq_some.1 hp
        exact h
      refine ⟨p.2 :: idxs, List.nodup_cons.2 ⟨fun hin => hnotin (h2 _ hin), h1⟩,
        fun i hi => ?_, ?_⟩
      · rcases List.mem_cons.1 hi with rfl | hi2
        · simp
        · simpa using Or.inr (by simpa using h2 i hi2)
      · simp only [List.filterMap_cons, hm, Option.map_some']
        exact List.Forall₂.cons ⟨hlt, hp, hm⟩ h3

/-- C17: `getTopKPredictions` is a total function of its arguments; for a sort that meets the
contract of `std::sort` and every score vector, `k`, threshold and mapping, the entries of
its result are, in order, (scores[i], mapping[i]) for a list of pairwise distinct indices
`i < |scores|` of the mapping's domain, so an index without a mapping never appears; the
result is empty when the score vector is empty, and when no index that survives the
truncation or the filter is mapped. -/
theorem C17_ranking_total (sort : List (ℚ × Nat) → List (ℚ × Nat))
    (hsort : SortsByScoreDescending sort) (scores : List ℚ) (k : Int) (threshold : ℚ)
    (class_info_recognize : Nat → Option E_Class) :
    (∃ idxs : List Nat, idxs.Nodup ∧
      List.Forall₂ (fun i (e : ℚ × E_Class) =>
        i < scores.length ∧ scores[i]? = some e.1 ∧ class_info_recognize i = some e.2) idxs
        (getTopKPredictions sort scores k threshold class_info_recognize)) ∧
    (scores = [] → getTopKPredictions sort scores k threshold class_info_recognize = []) ∧
    ((∀ p ∈ getTopKPredictions.temp sort scores k threshold,
        class_info_recognize p.2 = none) →
      getTopKPredictions sort scores k threshold class_info_recognize = []) := by
  obtain ⟨hmem, hnd, -⟩ := temp_facts sort hsort scores k threshold
  refine ⟨?_, fun hempty => ?_, fun hnone => ?_⟩
  · obtain ⟨idxs, h1, -, h3⟩ := filterMap_indices scores class_info_recognize _ hmem hnd
    exact ⟨idxs, h1, h3⟩
  · have htemp : getTopKPredictions.temp sort scores k threshold = [] := by
      cases ht : getTopKPredictions.temp sort scores k threshold with
      | nil => rfl
      | cons p rest =>
        have hp := hmem p (by rw [ht]; simp)
        rw [hempty] at hp
        simp at hp
    rw [getTopKPredictions_eq_filterMap_temp, htemp]
    rfl
  · rw [getTopKPredictions_eq_filterMap_temp, List.filterMap_eq_nil_iff]
    intro p hp
    simp [hnone p hp]

/-- Instance of C17 at the example sort and the score vector `[0.9, 0.5, 0.4, 0.3]`, whose last
index has no mapping. -/
theorem C17_ranking_total_witness :
    SortsByScoreDescending exampleEnv.sort ∧
    ((∃ idxs : List Nat, idxs.Nodup ∧
      List.Forall₂ (fun i (e : ℚ × E_Class) =>
        i < ([9 / 10, 1 / 2, 2 / 5, 3 / 10] : List ℚ).length ∧
        ([9 / 10, 1 / 2, 2 / 5, 3 / 10] : List ℚ)[i]? = some e.1 ∧
        exampleEnv.class_info_recognize i = some e.2) idxs
        (getTopKPredictions exampleEnv.sort [9 / 10, 1 / 2, 2 / 5, 3 / 10] 5 0
          exampleEnv.class_info_recognize)) ∧
    (([9 / 10, 1 / 2, 2 / 5, 3 / 10] : List ℚ) = [] →
      getTopKPredictions exampleEnv.sort [9 / 10, 1 / 2, 2 / 5, 3 / 10] 5 0
        exampleEnv.class_info_recognize = []) ∧
    ((∀ p ∈ getTopKPredictions.temp exampleEnv.sort [9 / 10, 1 / 2, 2 / 5, 3 / 10] 5 0,
        exampleEnv.class_info_recognize p.2 = none) →
      getTopKPredictions exampleEnv.sort [9 / 10, 1 / 2, 2 / 5, 3 / 10] 5 0
        exampleEnv.class_info_recognize = [])) :=
  ⟨exampleEnv_sort_contract,
    C17_ranking_total exampleEnv.sort exampleEnv_sort_contract [9 / 10, 1 / 2, 2 / 5, 3 / 10] 5 0
      exampleEnv.class_info_recognize⟩

/-! ### C18: ties -/

/-- C18 (counterexample): with `std::sort` as the library implements it, the score vector
of 17 equal scores 1/32 (every index `i` mapped to the class of code `i`) ranked by count
`k = 5` gives the indices 8, 16, 15, 14, 13 in this order: the indices 15 and 16 have equal
scores and both appear, and the entry of 16 precedes the entry of 15. The partition step
for a range of more than 16 elements swaps equal elements. On the two equal scores
`[0.5, 0.5]` the same routine keeps the index order. -/
theorem C18_std_sort_reorders_ties :
    sort_by_score ((List.replicate 17 (1 / 32 : ℚ)).enum.map fun p => (p.2, p.1)) =
      [(1 / 32, 8), (1 / 32, 16), (1 / 32, 15), (1 / 32, 14), (1 / 32, 13), (1 / 32, 12),
        (1 / 32, 11), (1 / 32, 10), (1 / 32, 9), (1 / 32, 0), (1 / 32, 7), (1 / 32, 6),
        (1 / 32, 5), (1 / 32, 4), (1 / 32, 3), (1 / 32, 2), (1 / 32, 1)] ∧
    getTopKPredictions.temp sort_by_score (List.replicate 17 (1 / 32)) 5 0 =
      [(1 / 32, 8), (1 / 32, 16), (1 / 32, 15), (1 / 32, 14), (1 / 32, 13)] ∧
    getTopKPredictions sort_by_score (List.replicate 17 (1 / 32)) 5 0
        (fun idx => some ⟨idx⟩) =
      [(1 / 32, ⟨8⟩), (1 / 32, ⟨16⟩), (1 / 32, ⟨15⟩), (1 / 32, ⟨14⟩), (1 / 32, ⟨13⟩)] ∧
    getTopKPredictions.temp sort_by_score [1 / 2, 1 / 2] 5 0 = [(1 / 2, 0), (1 / 2, 1)] := by
  refine ⟨by decide!, by decide!, by decide!, by decide!⟩

/-- C18 (amended): for a sort that meets the contract of `std::sort`, the result of
`getTopKPredictions` lists the mapped pairs of `temp` in the order of `temp`, and in `temp`
a pair (scores[i], i) with a strictly higher score stands before every pair with a lower
score; among equal scores the order is the one the sort leaves. -/
theorem C18_higher_score_first (sort : List (ℚ × Nat) → List (ℚ × Nat))
    (hsort : SortsByScoreDescending sort) (scores : List ℚ) (k : Int) (threshold : ℚ)
    (class_info_recognize : Nat → Option E_Class) :
    getTopKPredictions sort scores k threshold class_info_recognize =
      (getTopKPredictions.temp sort scores k threshold).filterMap
        (fun p => (class_info_recognize p.2).map fun c => (p.1, c)) ∧
    ∀ (pos_a pos_b : Nat) (a b : ℚ × Nat),
      (getTopKPredictions.temp sort scores k threshold)[pos_a]? = some a →
      (getTopKPredictions.temp sort scores k threshold)[pos_b]? = some b →
      a.1 > b.1 →
      scores[a.2]? = some a.1 ∧ scores[b.2]? = some b.1 ∧ pos_a < pos_b := by
  obtain ⟨hmem, -, hpair⟩ := temp_facts sort hsort scores k threshold
  refine ⟨rfl, fun pos_a pos_b a b ha hb hgt => ?_⟩
  obtain ⟨hla, hea⟩ := List.getElem?_eq_some.1 ha
  obtain ⟨hlb, heb⟩ := List.getElem?_eq_some.1 hb
  refine ⟨hmem a (by rw [← hea]; exact List.getElem_mem _),
    hmem b (by rw [← heb]; exact List.getElem_mem _), ?_⟩
  by_contra hnot
  rcases Nat.lt_or_ge pos_b pos_a with hlt | hge
  · have := (List.pairwise_iff_getElem.1 hpair) pos_b pos_a hlb hla hlt
    rw [hea, heb] at this
    exact this hgt
  · have heq : pos_a = pos_b := by omega
    subst heq
    rw [hea] at heb
    rw [heb] at hgt
    exact lt_irrefl _ hgt

/-- Instance of amended C18 at the insertion sort of the example collaborators and the score
vector `[0.9, 0.5]` ranked by count. -/
theorem C18_higher_score_first_witness :
    SortsByScoreDescending exampleEnv.sort ∧
    (getTopKPredictions exampleEnv.sort [9 / 10, 1 / 2] 5 0 exampleEnv.class_info_recognize =
      (getTopKPredictions.temp exampleEnv.sort [9 / 10, 1 / 2] 5 0).filterMap
        (fun p => (exampleEnv.class_info_recognize p.2).map fun c => (p.1, c)) ∧
    ∀ (pos_a pos_b : Nat) (a b : ℚ × Nat),
      (getTopKPredictions.temp exampleEnv.sort [9 / 10, 1 / 2] 5 0)[pos_a]? = some a →
      (getTopKPredictions.temp exampleEnv.sort [9 / 10, 1 / 2] 5 0)[pos_b]? = some b →
      a.1 > b.1 →
      ([9 / 10, 1 / 2] : List ℚ)[a.2]? = some a.1 ∧
        ([9 / 10, 1 / 2] : List ℚ)[b.2]? = some b.1 ∧ pos_a < pos_b) :=
  ⟨exampleEnv_sort_contract,
    C18_higher_score_first exampleEnv.sort exampleEnv_sort_contract [9 / 10, 1 / 2] 5 0
      exampleEnv.class_info_recognize⟩

/-! ### C19: what an ingestion appends -/

theorem monitorList_push_back (mi : MonitorInfo) (lane cat attr : String) (v : Int)
    (l c a : String) :
    monitorList (push_back mi lane cat attr v) l c a =
      if l = lane ∧ c = cat ∧ a = attr then monitorList mi lane cat attr ++ [v]
      else monitorList mi l c a := by
  by_cases hl : l = lane
  · subst hl
    by_cases hc : c = cat
    · subst hc
      by_cases ha : a = attr
      · subst ha
        simp [monitorList, push_back]
      · cases h1 : mi l with
        | none => simp [monitorList, push_back, ha, h1]
        | some cats =>
          cases h2 : cats c with
          | none => simp [monitorList, push_back, ha, h1, h2]
          | some attrs => simp [monitorList, push_back, ha, h1, h2]
    · cases h1 : mi l with
      | none => simp [monitorList, push_back, hc, h1]
      | some cats => simp [monitorList, push_back, hc, h1]
  · simp [monitorList, push_back, hl]

/-- The vectors of the monitor after the updates of `getOrderData` for a row that is not a
drink order and not a cancellation: in the entry of the row's lane and category the four
vectors receive `order_no`, `seat_no`, `type` and `amount_no`; every other vector is as it
was. -/
theorem monitorList_ingest (self : App) (row : ORDER_DATA) (cat : String)
    (hcat : getOrderData.menu_catecogy row = some cat) (hoc : row.o_c ≠ "c")
    (l c a : String) :
    monitorList (getOrderData.ingest self row).monitor_info l c a =
      if l = getOrderData.lane row ∧ c = cat then
        if a = "ORDER_NO" then monitorList self.monitor_info l c a ++ [row.order_no]
        else if a = "SEAT_NO" then monitorList self.monitor_info l c a ++ [row.seat_no]
        else if a = "TCOMMODITY_CD" then monitorList self.monitor_info l c a ++ [row.type]
        else if a = "AMOUNT" then monitorList self.monitor_info l c a ++ [row.amount_no]
        else monitorList self.monitor_info l c a
      else monitorList self.monitor_info l c a := by
  simp only [getOrderData.ingest, hcat, hoc, if_false, monitorList_push_back]
  by_cases hl : l = getOrderData.lane row
  · by_cases hc : c = cat
    · subst hl hc
      by_cases h1 : a = "ORDER_NO"
      · subst h1; simp
      · by_cases h2 : a = "SEAT_NO"
        · subst h2; simp
        · by_cases h3 : a = "TCOMMODITY_CD"
          · subst h3; simp
          · by_cases h4 : a = "AMOUNT"
            · subst h4; simp
            · simp [h1, h2, h3, h4]
    · simp [hc]
  · simp [hl]

/-- A drink order or a cancellation leaves the monitor as it was. -/
theorem monitor_ingest_unchanged (self : App) (row : ORDER_DATA)
    (h : getOrderData.menu_catecogy row = none ∨ row.o_c = "c") :
    (getOrderData.ingest self row).monitor_info = self.monitor_info := by
  unfold getOrderData.ingest
  cases hm : getOrderData.menu_catecogy row with
  | none => rfl
  | some cat =>
    rcases h with h | h
    · rw [hm] at h; cases h
    · simp [h]

/-- C19 (evaluation of the code): for every row that is neither a drink order nor a
cancellation, `getOrderData` appends to the entry of the row's lane and category the order
number to `"ORDER_NO"` and the seat to `"SEAT_NO"`, but the type code `type` to
`"TCOMMODITY_CD"` and the member `amount_no` to `"AMOUNT"`. From the initial state, the line
of the order of commodity 42 (lane 1, seat 3, type 1, amount 1) is parsed to that order and
leaves `[1]` in `"TCOMMODITY_CD"` of `("A", "nigiri")`; the monitor lookup of 42 on lane
`"A"` then finds nothing and the resolver answers `TOP1_MANUAL` although seat 3 is valid. -/
theorem C19_ingest_appends_type_code :
    (∀ (self : App) (row : ORDER_DATA) (cat : String),
      getOrderData.menu_catecogy row = some cat → row.o_c ≠ "c" →
      monitorList (getOrderData.ingest self row).monitor_info (getOrderData.lane row) cat
          "ORDER_NO" =
        monitorList self.monitor_info (getOrderData.lane row) cat "ORDER_NO" ++
          [row.order_no] ∧
      monitorList (getOrderData.ingest self row).monitor_info (getOrderData.lane row) cat
          "SEAT_NO" =
        monitorList self.monitor_info (getOrderData.lane row) cat "SEAT_NO" ++ [row.seat_no] ∧
      monitorList (getOrderData.ingest self row).monitor_info (getOrderData.lane row) cat
          "TCOMMODITY_CD" =
        monitorList self.monitor_info (getOrderData.lane row) cat "TCOMMODITY_CD" ++
          [row.type] ∧
      monitorList (getOrderData.ingest self row).monitor_info (getOrderData.lane row) cat
          "AMOUNT" =
        monitorList self.monitor_info (getOrderData.lane row) cat "AMOUNT" ++
          [row.amount_no]) ∧
    getOrderData exampleStoi exampleOrder initialApp "t,1,1,3,1,x,1,x,42,x,o\r" =
      .ok (exampleOrder, getOrderData.ingest initialApp exampleOrder) ∧
    monitorList (getOrderData.ingest initialApp exampleOrder).monitor_info "A" "nigiri"
      "TCOMMODITY_CD" = [1] ∧
    monitorList (getOrderData.ingest initialApp exampleOrder).monitor_info "A" "nigiri"
      "SEAT_NO" = [3] ∧
    OrderMonitor.lookup (getOrderData.ingest initialApp exampleOrder).monitor_info "A" 42 =
      none ∧
    evaluateMissedPrediction "A" "nigiri" 42 [2, 3, 4]
      (getOrderData.ingest initialApp exampleOrder).monitor_info true = .ok .TOP1_MANUAL := by
  refine ⟨fun self row cat hcat hoc => ?_, ?_, by decide, by decide, by decide, by decide⟩
  · simp [monitorList_ingest self row cat hcat hoc]
  · have hrow : getOrderData.fields exampleStoi { exampleOrder with o_c := "" } 0
        (getline_items "t,1,1,3,1,x,1,x,42,x,o\r") = .ok exampleOrder := by decide
    simp only [getOrderData, hrow, bind, Except.bind, pure, Except.pure]

/-! ### C20: the alignment of the monitor -/

theorem monitorList_initial (l c a : String) : monitorList InitDefaultMonitorInfo l c a = [] := by
  unfold monitorList InitDefaultMonitorInfo
  by_cases hl : l = "A" ∨ l = "B" ∨ l = "C"
  · by_cases hc : c = "nigiri" ∨ c = "gunkan" ∨ c = "side" ∨ c = "dessert"
    · by_cases ha : a = "ORDER_NO" ∨ a = "SEAT_NO" ∨ a = "TCOMMODITY_CD" ∨ a = "AMOUNT"
      · simp only [hl, hc, ha, if_true, Option.getD_some]
      · simp only [hl, hc, ha, if_true, if_false, Option.getD_none]
    · simp only [hl, hc, if_true, if_false]
  · simp only [hl, if_false]

theorem initial_monitor_aligned : MonitorAligned InitDefaultMonitorInfo := by
  intro lane cat
  simp [monitorList_initial]

/-- One call of the updates of `getOrderData` keeps the alignment and extends every vector
of the monitor at its end. -/
theorem ingest_step (self : App) (row : ORDER_DATA)
    (haligned : MonitorAligned self.monitor_info) :
    MonitorAligned (getOrderData.ingest self row).monitor_info ∧
    ∀ l c a : String, monitorList self.monitor_info l c a <+:
      monitorList (getOrderData.ingest self row).monitor_info l c a := by
  cases hcat : getOrderData.menu_catecogy row with
  | none =>
    rw [monitor_ingest_unchanged self row (Or.inl hcat)]
    exact ⟨haligned, fun _ _ _ => List.prefix_refl _⟩
  | some cat =>
    by_cases hoc : row.o_c = "c"
    · rw [monitor_ingest_unchanged self row (Or.inr hoc)]
      exact ⟨haligned, fun _ _ _ => List.prefix_refl _⟩
    · constructor
      · intro l c
        obtain ⟨h1, h2, h3⟩ := haligned l c
        by_cases hlc : l = getOrderData.lane row ∧ c = cat
        · simp only [monitorList_ingest self row cat hcat hoc, hlc, and_self, if_true]
          obtain ⟨rfl, rfl⟩ := hlc
          simp [h1, h2, h3]
        · simp only [monitorList_ingest self row cat hcat hoc, hlc, if_false]
          exact ⟨h1, h2, h3⟩
      · intro l c a
        rw [monitorList_ingest self row cat hcat hoc]
        split_ifs <;> first | exact List.prefix_append _ _ | exact List.prefix_refl _

theorem getOrderData_state (stoi : String → Except Fault Int) (fresh : ORDER_DATA) (self : App)
    (line : String) (row : ORDER_DATA) (next : App)
    (h : getOrderData stoi fresh self line = .ok (row, next)) :
    next = getOrderData.ingest self row := by
  unfold getOrderData at h
  cases hf : getOrderData.fields stoi { fresh with o_c := "" } 0 (getline_items line) with
  | error e => simp [hf, bind, Except.bind] at h
  | ok parsed =>
    simp only [hf, bind, Except.bind, pure, Except.pure, Except.ok.injEq, Prod.mk.injEq] at h
    rw [← h.1, ← h.2]

/-- C20: from an initial state with an aligned monitor, in every state reached by calls of
`getOrderData` the four vectors `"ORDER_NO"`, `"SEAT_NO"`, `"TCOMMODITY_CD"` and `"AMOUNT"`
of every (lane, category) have the same length and every vector of the initial monitor is a
beginning of the vector it has become; and each single call that returns leaves every vector
as a beginning of its new contents. -/
theorem C20_monitor_alignment (stoi : String → Except Fault Int) (init : App)
    (haligned : MonitorAligned init.monitor_info) :
    (∀ app, IngestReachable stoi init app →
      MonitorAligned app.monitor_info ∧
      ∀ l c a : String, monitorList init.monitor_info l c a <+:
        monitorList app.monitor_info l c a) ∧
    (∀ (self next : App) (fresh row : ORDER_DATA) (line : String),
      getOrderData stoi fresh self line = .ok (row, next) →
      ∀ l c a : String, monitorList self.monitor_info l c a <+:
        monitorList next.monitor_info l c a) := by
  have hstep : ∀ (self next : App) (fresh row : ORDER_DATA) (line : String),
      getOrderData stoi fresh self line = .ok (row, next) →
      (MonitorAligned self.monitor_info → MonitorAligned next.monitor_info) ∧
      ∀ l c a : String, monitorList self.monitor_info l c a <+:
        monitorList next.monitor_info l c a := by
    intro self next fresh row line h
    have hnext := getOrderData_state stoi fresh self line row next h
    subst hnext
    refine ⟨fun ha => (ingest_step self row ha).1, ?_⟩
    intro l c a
    cases hcat : getOrderData.menu_catecogy row with
    | none =>
      rw [monitor_ingest_unchanged self row (Or.inl hcat)]
    | some cat =>
      by_cases hoc : row.o_c = "c"
      · rw [monitor_ingest_unchanged self row (Or.inr hoc)]
      · rw [monitorList_ingest self row cat hcat hoc]
        split_ifs <;> first | exact List.prefix_append _ _ | exact List.prefix_refl _
  refine ⟨fun app hreach => ?_, fun self next fresh row line h => (hstep self next fresh row line h).2⟩
  induction hreach with
  | start => exact ⟨haligned, fun _ _ _ => List.prefix_refl _⟩
  | call self next fresh row line _ hcall ih =>
    obtain ⟨h1, h2⟩ := hstep self next fresh row line hcall
    exact ⟨h1 ih.1, fun l c a => (ih.2 l c a).trans (h2 l c a)⟩

/-- Instance of C20 at the initial state and the state reached by the line of the example
order. -/
theorem C20_monitor_alignment_witness :
    MonitorAligned initialApp.monitor_info ∧
    IngestReachable exampleStoi initialApp (getOrderData.ingest initialApp exampleOrder) ∧
    MonitorAligned (getOrderData.ingest initialApp exampleOrder).monitor_info ∧
    ∀ l c a : String, monitorList initialApp.monitor_info l c a <+:
      monitorList (getOrderData.ingest initialApp exampleOrder).monitor_info l c a :=
  have hreach : IngestReachable exampleStoi initialApp
      (getOrderData.ingest initialApp exampleOrder) :=
    IngestReachable.call initialApp _ exampleOrder exampleOrder "t,1,1,3,1,x,1,x,42,x,o\r"
      IngestReachable.start
      (by
        have hrow : getOrderData.fields exampleStoi { exampleOrder with o_c := "" } 0
            (getline_items "t,1,1,3,1,x,1,x,42,x,o\r") = .ok exampleOrder := by decide
        simp only [getOrderData, hrow, bind, Except.bind, pure, Except.pure])
  ⟨initial_monitor_aligned, hreach,
    (C20_monitor_alignment exampleStoi initialApp initial_monitor_aligned).1 _ hreach⟩

/-! ### Configuration lines: facts shared by C21, C22 and C30 -/

theorem starts_with_append (key value : String) : starts_with (key ++ value) key = true := by
  simp [starts_with]

theorem substr_from_append (key value : String) :
    substr_from (key ++ value) key.length = value := by
  show String.mk (((key ++ value).data).drop key.data.length) = value
  rw [String.data_append, List.drop_left]

theorem foldl_binary (cs : List Char) (acc : Int) :
    cs.foldl (fun acc ch => 2 * acc + (if ch = '1' then 1 else 0)) acc =
      acc * 2 ^ cs.length + Spec.binaryValue cs := by
  induction cs generalizing acc with
  | nil => simp [Spec.binaryValue]
  | cons ch rest ih =>
    simp only [List.foldl_cons, ih, Spec.binaryValue, List.length_cons, pow_succ]
    ring

theorem stoi_base2_eq (s : String) : stoi_base2 s = Spec.binaryValue s.data := by
  simp [stoi_base2, foldl_binary]

theorem binaryValue_range (cs : List Char) :
    0 ≤ Spec.binaryValue cs ∧ Spec.binaryValue cs < 2 ^ cs.length := by
  induction cs with
  | nil => simp [Spec.binaryValue]
  | cons ch rest ih =>
    have hp : (0 : Int) < 2 ^ rest.length := by positivity
    by_cases h : ch = '1'
    · simp only [Spec.binaryValue, h, if_true, List.length_cons, pow_succ]
      constructor <;> linarith [ih.1, ih.2]
    · simp only [Spec.binaryValue, h, if_false, List.length_cons, pow_succ]
      constructor <;> linarith [ih.1, ih.2]

/-- The effect of a line `POST_PROCESS_ENABLE=<s>` under type `PostProcessing`. -/
theorem line_PostProcessing (env : Env) (m_config : Config) (s : String) :
    loadConfig.line env .PostProcessing m_config ("POST_PROCESS_ENABLE=" ++ s) =
      if s.length = 8 ∧ ∀ ch ∈ s.data, ch = '0' ∨ ch = '1' then
        .ok { m_config with post_process_flags := Spec.binaryValue s.data }
      else .ok m_config := by
  have hcond : (s.length = 8 ∧ s.data.all (fun ch => decide (ch = '0' ∨ ch = '1')) = true) ↔
      (s.length = 8 ∧ ∀ ch ∈ s.data, ch = '0' ∨ ch = '1') := by
    simp [List.all_eq_true]
  simp only [loadConfig.line, starts_with_append, if_true, substr_from_append, stoi_base2_eq,
    hcond]
  split_ifs <;> rfl

/-! ### C21: the rule mask line -/

/-- C21: under type `PostProcessing`, a line `POST_PROCESS_ENABLE=<s>` whose `s` is exactly 8
characters, each `'0'` or `'1'`, sets `post_process_flags` to the base-2 value of `s`
(leftmost character most significant), a number from 0 to 255; for every other `s` the
configuration is left as it was. The same holds of `loadConfig` on a file of this one
line. -/
theorem C21_rule_mask_line (env : Env) (self : App) (s : String) :
    (s.length = 8 ∧ (∀ ch ∈ s.data, ch = '0' ∨ ch = '1') →
      loadConfig.line env .PostProcessing self.m_config ("POST_PROCESS_ENABLE=" ++ s) =
        .ok { self.m_config with post_process_flags := Spec.binaryValue s.data } ∧
      loadConfig { env with configFile := ["POST_PROCESS_ENABLE=" ++ s] } self .PostProcessing =
        .ok ({ self.m_config with post_process_flags := Spec.binaryValue s.data },
          { self with
            m_config := { self.m_config with post_process_flags := Spec.binaryValue s.data } }) ∧
      0 ≤ Spec.binaryValue s.data ∧ Spec.binaryValue s.data ≤ 255) ∧
    (¬ (s.length = 8 ∧ (∀ ch ∈ s.data, ch = '0' ∨ ch = '1')) →
      loadConfig.line env .PostProcessing self.m_config ("POST_PROCESS_ENABLE=" ++ s) =
        .ok self.m_config ∧
      loadConfig { env with configFile := ["POST_PROCESS_ENABLE=" ++ s] } self .PostProcessing =
        .ok (self.m_config, { self with m_config := self.m_config })) := by
  constructor
  · intro h
    have hline := line_PostProcessing env self.m_config s
    rw [if_pos h] at hline
    have hline2 := line_PostProcessing { env with configFile := ["POST_PROCESS_ENABLE=" ++ s] }
      self.m_config s
    rw [if_pos h] at hline2
    refine ⟨hline, ?_, (binaryValue_range s.data).1, ?_⟩
    · simp only [loadConfig, List.foldlM, hline2, bind, Except.bind, pure, Except.pure]
    · have hr := (binaryValue_range s.data).2
      have hlen : s.data.length = 8 := h.1
      rw [hlen] at hr
      norm_num at hr
      omega
  · intro h
    have hline := line_PostProcessing env self.m_config s
    rw [if_neg h] at hline
    have hline2 := line_PostProcessing { env with configFile := ["POST_PROCESS_ENABLE=" ++ s] }
      self.m_config s
    rw [if_neg h] at hline2
    refine ⟨hline, ?_⟩
    simp only [loadConfig, List.foldlM, hline2, bind, Except.bind, pure, Except.pure]

/-- Instances of C21: the mask `00000101` gives the value 5, and the seven characters
`0000101` leave the configuration as it was. -/
theorem C21_rule_mask_line_witness :
    ("00000101".length = 8 ∧ (∀ ch ∈ "00000101".data, ch = '0' ∨ ch = '1')) ∧
    Spec.binaryValue "00000101".data = 5 ∧
    loadConfig.line exampleEnv .PostProcessing exampleApp.m_config
        ("POST_PROCESS_ENABLE=" ++ "00000101") =
      .ok { exampleApp.m_config with post_process_flags := Spec.binaryValue "00000101".data } ∧
    ¬ ("0000101".length = 8 ∧ (∀ ch ∈ "0000101".data, ch = '0' ∨ ch = '1')) ∧
    loadConfig.line exampleEnv .PostProcessing exampleApp.m_config
        ("POST_PROCESS_ENABLE=" ++ "0000101") = .ok exampleApp.m_config :=
  ⟨by decide, by decide,
    ((C21_rule_mask_line exampleEnv exampleApp "00000101").1 (by decide)).1,
    by decide,
    ((C21_rule_mask_line exampleEnv exampleApp "0000101").2 (by decide)).1⟩

/-! ### C22: malformed threshold values -/

theorem exampleStof_seven_tenths : exampleStof "0.7" = .ok (7 / 10) := by
  have h1 : "0.7".data.takeWhile Char.isDigit = ['0'] := by decide
  have h2 : "0.7".data.dropWhile Char.isDigit = ['.', '7'] := by decide
  have h3 : ['7'].takeWhile Char.isDigit = ['7'] := by decide
  have h4 : digitsValue ['0'] = 0 := by decide
  have h5 : digitsValue ['7'] = 7 := by decide
  simp only [exampleStof, h1, h2, h3, h4, h5]
  norm_num

/-- C22 (evaluation of the code): `loadConfig` passes the text after a threshold key to
`std::stof` without a check, so whenever that conversion throws, `loadConfig` throws and the
lines after it are not processed. With the example conversion: the file of the two lines
`THRESHOLD_TOP1=abc` and `THRESHOLD_TOP1=0.7` under type `top1_thresh`, and the file of the
line `THRESHOLD_TOP2=` under type `top2_thresh`, end in `invalid_argument`, while the
well-formed line `THRESHOLD_TOP1=0.7` alone sets `threshold_top1` to 0.7. -/
theorem C22_malformed_threshold_throws :
    (∀ (env : Env) (self : App) (value : String) (rest : List String) (e : Fault),
      env.stof value = .error e →
      loadConfig { env with configFile := ("THRESHOLD_TOP1=" ++ value) :: rest } self
        .top1_thresh = .error e) ∧
    loadConfig (configEnv ["THRESHOLD_TOP1=abc", "THRESHOLD_TOP1=0.7"]) exampleApp
      .top1_thresh = .error .invalid_argument ∧
    loadConfig (configEnv ["THRESHOLD_TOP2="]) exampleApp .top2_thresh =
      .error .invalid_argument ∧
    loadConfig (configEnv ["THRESHOLD_TOP1=0.7"]) exampleApp .top1_thresh =
      .ok ({ threshold_top1 := 7 / 10 },
        { exampleApp with m_config := { threshold_top1 := 7 / 10 } }) := by
  refine ⟨fun env self value rest e he => ?_, rfl, rfl, ?_⟩
  · simp only [loadConfig, List.foldlM, loadConfig.line, starts_with_append, if_true,
      substr_from_append, he, bind, Except.bind]
  · have hs : starts_with "THRESHOLD_TOP1=0.7" "THRESHOLD_TOP1=" = true := by decide
    have hv : substr_from "THRESHOLD_TOP1=0.7" "THRESHOLD_TOP1=".length = "0.7" := by decide
    simp only [loadConfig, configEnv, List.foldlM, loadConfig.line, hs, hv,
      exampleStof_seven_tenths, if_true, bind, Except.bind, pure, Except.pure]
    rfl

/-! ### C30: what a call of loadConfig can change -/

theorem agreesOutside_refl (type : ConfigType) (a : Config) : Config.agreesOutside type a a := by
  cases type <;> exact ⟨rfl, rfl, rfl, rfl⟩

theorem agreesOutside_trans (type : ConfigType) (a b c : Config)
    (hab : Config.agreesOutside type a b) (hbc : Config.agreesOutside type b c) :
    Config.agreesOutside type a c := by
  cases type <;>
    exact ⟨hab.1.trans hbc.1, hab.2.1.trans hbc.2.1, hab.2.2.1.trans hbc.2.2.1,
      hab.2.2.2.trans hbc.2.2.2⟩

theorem stof_bind_ok (r : Except Fault ℚ) (f : ℚ → Config) (b : Config)
    (h : (r >>= fun v => (pure (f v) : Except Fault Config)) = .ok b) : ∃ v, b = f v := by
  cases r with
  | error e => simp [bind, Except.bind] at h
  | ok v =>
    simp only [bind, Except.bind, pure, Except.pure, Except.ok.injEq] at h
    exact ⟨v, h.symm⟩

theorem line_agreesOutside (env : Env) (type : ConfigType) (a b : Config) (line : String)
    (h : loadConfig.line env type a line = .ok b) : Config.agreesOutside type a b := by
  have hpure : ∀ c : Config, (pure c : Except Fault Config) = .ok b → c = b := by
    intro c hc
    simpa [pure, Except.pure] using hc
  cases type <;> simp only [loadConfig.line] at h <;> split_ifs at h
  all_goals
    first
    | (cases hpure _ h
       exact ⟨rfl, rfl, rfl, rfl⟩)
    | (obtain ⟨v, rfl⟩ := stof_bind_ok _ _ _ h
       exact ⟨rfl, rfl, rfl, rfl⟩)

theorem foldlM_agreesOutside (env : Env) (type : ConfigType) (lines : List String)
    (a b : Config) (h : lines.foldlM (loadConfig.line env type) a = .ok b) :
    Config.agreesOutside type a b := by
  induction lines generalizing a with
  | nil =>
    simp only [List.foldlM, pure, Except.pure, Except.ok.injEq] at h
    subst h
    exact agreesOutside_refl type a
  | cons line rest ih =>
    simp only [List.foldlM] at h
    cases hl : loadConfig.line env type a line with
    | error e => simp [hl, bind, Except.bind] at h
    | ok c =>
      simp only [hl, bind, Except.bind] at h
      exact agreesOutside_trans type a c b (line_agreesOutside env type a c line hl) (ih c h)

/-- C30: a call `loadConfig(path, type)` that returns changes at most the field of `m_config`
that `type` selects: under `PostProcessing` the four thresholds of the returned `Config` are
those before the call, whatever lines the file holds, and under each threshold type
`post_process_flags` and the other three thresholds are those before the call. -/
theorem C30_loadConfig_frame (env : Env) (self : App) (type : ConfigType) (cfg : Config)
    (next : App) (h : loadConfig env self type = .ok (cfg, next)) :
    (type = .PostProcessing →
      cfg.threshold_top1 = self.m_config.threshold_top1 ∧
      cfg.threshold_top2 = self.m_config.threshold_top2 ∧
      cfg.diff_threshold = self.m_config.diff_threshold ∧
      cfg.topK_threshold = self.m_config.topK_threshold) ∧
    (type = .top1_thresh →
      cfg.threshold_top2 = self.m_config.threshold_top2 ∧
      cfg.diff_threshold = self.m_config.diff_threshold ∧
      cfg.topK_threshold = self.m_config.topK_threshold ∧
      cfg.post_process_flags = self.m_config.post_process_flags) ∧
    (type = .top2_thresh →
      cfg.threshold_top1 = self.m_config.threshold_top1 ∧
      cfg.diff_threshold = self.m_config.diff_threshold ∧
      cfg.topK_threshold = self.m_config.topK_threshold ∧
      cfg.post_process_flags = self.m_config.post_process_flags) ∧
    (type = .diff_thresh →
      cfg.threshold_top1 = self.m_config.threshold_top1 ∧
      cfg.threshold_top2 = self.m_config.threshold_top2 ∧
      cfg.topK_threshold = self.m_config.topK_threshold ∧
      cfg.post_process_flags = self.m_config.post_process_flags) ∧
    (type = .topk_thresh →
      cfg.threshold_top1 = self.m_config.threshold_top1 ∧
      cfg.threshold_top2 = self.m_config.threshold_top2 ∧
      cfg.diff_threshold = self.m_config.diff_threshold ∧
      cfg.post_process_flags = self.m_config.post_process_flags) ∧
    next = { self with m_config := cfg } := by
  unfold loadConfig at h
  cases hf : env.configFile.foldlM (loadConfig.line env type) self.m_config with
  | error e => simp [hf, bind, Except.bind] at h
  | ok c =>
    simp only [hf, bind, Except.bind, pure, Except.pure, Except.ok.injEq, Prod.mk.injEq] at h
    obtain ⟨h1, h2⟩ := h
    subst h1
    have hag := foldlM_agreesOutside env type env.configFile self.m_config c hf
    refine ⟨?_, ?_, ?_, ?_, ?_, h2.symm⟩ <;> intro ht <;> subst ht <;>
      exact ⟨hag.1.symm, hag.2.1.symm, hag.2.2.1.symm, hag.2.2.2.symm⟩

/-- Instance of C30 at the file of the lines `THRESHOLD_TOP1=0.7` and
`POST_PROCESS_ENABLE=00000101` read under type `PostProcessing`: the mask becomes 5 and
`threshold_top1` stays at its default 0.5. -/
theorem C30_loadConfig_frame_witness :
    loadConfig (configEnv ["THRESHOLD_TOP1=0.7", "POST_PROCESS_ENABLE=00000101"]) exampleApp
        .PostProcessing =
      .ok ({ post_process_flags := 5 },
        { exampleApp with m_config := { post_process_flags := 5 } }) ∧
    (({ post_process_flags := 5 } : Config).threshold_top1 = exampleApp.m_config.threshold_top1 ∧
      ({ post_process_flags := 5 } : Config).threshold_top2 =
        exampleApp.m_config.threshold_top2 ∧
      ({ post_process_flags := 5 } : Config).diff_threshold =
        exampleApp.m_config.diff_threshold ∧
      ({ post_process_flags := 5 } : Config).topK_threshold =
        exampleApp.m_config.topK_threshold) :=
  have hload : loadConfig (configEnv ["THRESHOLD_TOP1=0.7", "POST_PROCESS_ENABLE=00000101"])
      exampleApp .PostProcessing =
      .ok ({ post_process_flags := 5 },
        { exampleApp with m_config := { post_process_flags := 5 } }) := rfl
  ⟨hload,
    (C30_loadConfig_frame (configEnv ["THRESHOLD_TOP1=0.7", "POST_PROCESS_ENABLE=00000101"])
      exampleApp .PostProcessing _ _ hload).1 rfl⟩

/-! ### C29: first-match shadowing -/

/-- C29: in the example monitor the gunkan entry of lane `"A"` records class 31 at seat 4,
which is in the valid seats `[4]`, and yet `evaluateMissedPrediction` returns the manual
outcome for class 31, because the lookup stops at the nigiri record of class 31, whose seat 9
is not valid (an earlier category). In the shadow monitor the same happens inside one
category: nigiri records class 31 at seat 9 and then at the valid seat 4 (an earlier
position). -/
theorem C29_first_match_shadowing :
    ((31, 4) ∈ OrderMonitor.records exampleMonitor "A" "gunkan" ∧ (4 : Int) ∈ [(4 : Int)] ∧
      OrderMonitor.lookup exampleMonitor "A" 31 = some ("nigiri", 9) ∧
      (9 : Int) ∉ [(4 : Int)] ∧
      evaluateMissedPrediction "A" "nigiri" 31 [4] exampleMonitor true = .ok .TOP1_MANUAL ∧
      evaluateMissedPrediction "A" "nigiri" 31 [4] exampleMonitor false = .ok .TOP2_MANUAL) ∧
    ((OrderMonitor.records shadowMonitor "A" "nigiri")[1]? = some (31, 4) ∧
      (OrderMonitor.records shadowMonitor "A" "nigiri")[0]? = some (31, 9) ∧
      OrderMonitor.lookup shadowMonitor "A" 31 = some ("nigiri", 9) ∧
      evaluateMissedPrediction "A" "nigiri" 31 [4] shadowMonitor true = .ok .TOP1_MANUAL ∧
      evaluateMissedPrediction "A" "nigiri" 31 [4] shadowMonitor false = .ok .TOP2_MANUAL) := by
  have hrec : OrderMonitor.records exampleMonitor "A" "gunkan" = [(31, 4)] := rfl
  refine ⟨⟨by rw [hrec]; simp, by decide, rfl, by decide, by decide, by decide⟩,
    ⟨rfl, rfl, rfl, by decide, by decide⟩⟩

/-! ### C28: the counter of the multi-dish reduction -/

/-- C28: for every list of dish outcomes the reduction of `runInferenceForMulti` ends in one
of the five outcomes of its switch, so the switch increments exactly one bucket of the order's
(lane, category) by 1 and leaves every other count as it was; when the list holds none of
`TOP1_FALSE_START`, `TOP1_THRESH_CORRECT`, `TOP2_FALSE_START`, `TOP2_MANUAL` (the empty list,
a list of `TOP1_MANUAL` only, a list of `NO_HIT` only) the reduction gives
`TOP2_THRESH_CORRECT` and the bucket is `TOP2正解数`. The method itself returns the state
with the counters so incremented whenever its dish loop returns. -/
theorem C28_multi_dish_counter (rs : List PostProcessResult) (countor : Countor)
    (lane menu_category : String) :
    ((PostProcessResult.TOP1_FALSE_START ∉ rs ∧ PostProcessResult.TOP1_THRESH_CORRECT ∉ rs ∧
        PostProcessResult.TOP2_FALSE_START ∉ rs ∧ PostProcessResult.TOP2_MANUAL ∉ rs) →
      APCTestApp.runInferenceForMulti.reduce .TOP2_THRESH_CORRECT rs = .TOP2_THRESH_CORRECT ∧
      APCTestApp.runInferenceForMulti.count countor lane menu_category
          (APCTestApp.runInferenceForMulti.reduce .TOP2_THRESH_CORRECT rs) =
        APCTestApp.increment countor lane menu_category "TOP2正解数") ∧
    (∃ bucket, bucket ∈ ["TOP1誤出発数", "TOP1正解数", "TOP2誤出発数", "TOP2手動数", "TOP2正解数"] ∧
      ∀ l c b, APCTestApp.runInferenceForMulti.count countor lane menu_category
          (APCTestApp.runInferenceForMulti.reduce .TOP2_THRESH_CORRECT rs) l c b =
        countor l c b + (if l = lane ∧ c = menu_category ∧ b = bucket then 1 else 0)) ∧
    APCTestApp.runInferenceForMulti.reduce .TOP2_THRESH_CORRECT [] = .TOP2_THRESH_CORRECT ∧
    APCTestApp.runInferenceForMulti.reduce .TOP2_THRESH_CORRECT [.TOP1_MANUAL, .TOP1_MANUAL] =
      .TOP2_THRESH_CORRECT ∧
    APCTestApp.runInferenceForMulti.reduce .TOP2_THRESH_CORRECT [.NO_HIT] =
      .TOP2_THRESH_CORRECT ∧
    (∀ (env : Env) (chain : List PostProcessFunc) (self self1 : App)
      (dishes : List (Option (List Rect))) (order : ORDER_DATA),
      APCTestApp.runInferenceForMulti.collect env chain order self dishes = .ok (rs, self1) →
      APCTestApp.runInferenceForMulti env chain self dishes order =
        .ok { self1.afterGetLaneMenuCate order with
          countor := APCTestApp.runInferenceForMulti.count
            (self1.afterGetLaneMenuCate order).countor (self1.afterGetLaneMenuCate order).lane
            (self1.afterGetLaneMenuCate order).menu_catecogy
            (APCTestApp.runInferenceForMulti.reduce .TOP2_THRESH_CORRECT rs) }) := by
  have hred := reduce_from .TOP2_THRESH_CORRECT rs (Or.inl rfl)
  have hinc : ∀ (bucket : String) (l c b : String),
      APCTestApp.increment countor lane menu_category bucket l c b =
        countor l c b + (if l = lane ∧ c = menu_category ∧ b = bucket then 1 else 0) := by
    intro bucket l c b
    unfold APCTestApp.increment
    split_ifs <;> simp
  refine ⟨fun h => ?_, ?_, by decide, by decide, by decide, ?_⟩
  · have h1 : APCTestApp.runInferenceForMulti.reduce .TOP2_THRESH_CORRECT rs =
        .TOP2_THRESH_CORRECT := by
      rw [hred]; simp [h.1, h.2.1, h.2.2.1, h.2.2.2]
    exact ⟨h1, by rw [h1]; rfl⟩
  · rw [hred]
    by_cases h1 : PostProcessResult.TOP1_FALSE_START ∈ rs
    · exact ⟨"TOP1誤出発数", by simp, fun l c b => by
        simp only [h1, if_true, APCTestApp.runInferenceForMulti.count]; exact hinc _ l c b⟩
    · by_cases h2 : PostProcessResult.TOP1_THRESH_CORRECT ∈ rs
      · exact ⟨"TOP1正解数", by simp, fun l c b => by
          simp only [h1, h2, if_true, if_false, true_or,
            APCTestApp.runInferenceForMulti.count]
          exact hinc _ l c b⟩
      · by_cases h3 : PostProcessResult.TOP2_FALSE_START ∈ rs
        · exact ⟨"TOP2誤出発数", by simp, fun l c b => by
            simp only [h1, h2, h3, if_true, if_false, true_or, false_or, reduceCtorEq,
              APCTestApp.runInferenceForMulti.count]
            exact hinc _ l c b⟩
        · by_cases h4 : PostProcessResult.TOP2_MANUAL ∈ rs
          · exact ⟨"TOP2手動数", by simp, fun l c b => by
              simp only [h1, h2, h3, h4, if_true, if_false, true_or, false_or, reduceCtorEq,
                APCTestApp.runInferenceForMulti.count]
              exact hinc _ l c b⟩
          · exact ⟨"TOP2正解数", by simp, fun l c b => by
              simp only [h1, h2, h3, h4, if_false, false_or, reduceCtorEq,
                APCTestApp.runInferenceForMulti.count]
              exact hinc _ l c b⟩
  · intro env chain self self1 dishes order hcollect
    simp only [APCTestApp.runInferenceForMulti, hcollect, bind, Except.bind, pure, Except.pure]

/-- Instance of C28 at the list of two `TOP1_MANUAL` dishes: the reduction gives
`TOP2_THRESH_CORRECT` and the bucket `TOP2正解数` of `("A", "nigiri")` goes from 0 to 1. -/
theorem C28_multi_dish_counter_witness :
    (PostProcessResult.TOP1_FALSE_START ∉ [PostProcessResult.TOP1_MANUAL, .TOP1_MANUAL] ∧
      PostProcessResult.TOP1_THRESH_CORRECT ∉ [PostProcessResult.TOP1_MANUAL, .TOP1_MANUAL] ∧
      PostProcessResult.TOP2_FALSE_START ∉ [PostProcessResult.TOP1_MANUAL, .TOP1_MANUAL] ∧
      PostProcessResult.TOP2_MANUAL ∉ [PostProcessResult.TOP1_MANUAL, .TOP1_MANUAL]) ∧
    APCTestApp.runInferenceForMulti.count (fun _ _ _ => 0) "A" "nigiri"
        (APCTestApp.runInferenceForMulti.reduce .TOP2_THRESH_CORRECT
          [.TOP1_MANUAL, .TOP1_MANUAL]) =
      APCTestApp.increment (fun _ _ _ => 0) "A" "nigiri" "TOP2正解数" :=
  ⟨by decide,
    ((C28_multi_dish_counter [.TOP1_MANUAL, .TOP1_MANUAL] (fun _ _ _ => 0) "A" "nigiri").1
      (by decide)).2⟩

/-! ### C25: no candidates -/

/-- C25: when the recognition result is empty, or its first rectangle has no confidence
buffer, or the buffer ranks to an empty `topK`, `handleInferenceAndReturnResult` returns
`NO_HIT` and leaves the state as it was, whatever the chain holds (no rule is evaluated, also
a rule that would throw); the short-circuit `handleInferenceResult` then returns with every
counter of every (lane, category) unchanged. -/
theorem C25_no_candidates (env : Env) (chain : List PostProcessFunc) (self : App)
    (rect_vec : List Rect) (order : ORDER_DATA)
    (hnone : rect_vec = [] ∨ ∃ rect more, rect_vec = rect :: more ∧
      (rect.p_confidence_l = none ∨ ∃ p, rect.p_confidence_l = some p ∧
        getTopKPredictions env.sort (p.take NETA_CLASS_NUM) 5 0 env.class_info_recognize = [])) :
    APCTestApp.handleInferenceAndReturnResult env chain self rect_vec order =
      .ok (.NO_HIT, self) ∧
    ∃ app, APCTestApp.handleInferenceResult env chain self rect_vec order = .ok app ∧
      app.countor = self.countor := by
  have h1 : APCTestApp.handleInferenceAndReturnResult env chain self rect_vec order =
      .ok (.NO_HIT, self) := by
    rcases hnone with rfl | ⟨rect, more, rfl, hp | ⟨p, hp, htop⟩⟩
    · rfl
    · simp only [APCTestApp.handleInferenceAndReturnResult, hp]
    · simp only [APCTestApp.handleInferenceAndReturnResult, hp, htop, List.isEmpty_nil, if_true]
  refine ⟨h1, ?_⟩
  simp only [APCTestApp.handleInferenceResult, h1, bind, Except.bind, pure, Except.pure,
    APCTestApp.handleInferenceResult.count]
  exact ⟨_, rfl, rfl⟩

/-- Instance of C25 at an empty recognition result and a chain of one rule that always
throws. -/
theorem C25_no_candidates_witness :
    (([] : List Rect) = [] ∨ ∃ rect more, ([] : List Rect) = rect :: more ∧
      (rect.p_confidence_l = none ∨ ∃ p, rect.p_confidence_l = some p ∧
        getTopKPredictions exampleEnv.sort (p.take NETA_CLASS_NUM) 5 0
          exampleEnv.class_info_recognize = [])) ∧
    APCTestApp.handleInferenceAndReturnResult exampleEnv
        [fun _ _ _ _ _ => .error .out_of_range] exampleApp [] exampleOrder =
      .ok (.NO_HIT, exampleApp) ∧
    ∃ app, APCTestApp.handleInferenceResult exampleEnv
        [fun _ _ _ _ _ => .error .out_of_range] exampleApp [] exampleOrder = .ok app ∧
      app.countor = exampleApp.countor :=
  ⟨Or.inl rfl,
    C25_no_candidates exampleEnv [fun _ _ _ _ _ => .error .out_of_range] exampleApp []
      exampleOrder (Or.inl rfl)⟩

/-! ### C26: the first rule decides -/

theorem top1_judge_state_irrelevant (self : App) (order : ORDER_DATA) (cfg : Config)
    (topK : TopK) (valid : List Int) (mi : MonitorInfo) :
    APCTestAppTop2Threshold.processTop1Judge
        { self.afterGetLaneMenuCate order with m_config := cfg } order topK valid mi =
      APCTestAppTop2Threshold.processTop1Judge self order topK valid mi := by
  have h : getLaneMenuCate { self.afterGetLaneMenuCate order with m_config := cfg } order =
      getLaneMenuCate self order := by
    simp only [getLaneMenuCate, App.afterGetLaneMenuCate]
    split_ifs <;> rfl
  simp only [APCTestAppTop2Threshold.processTop1Judge, h]

/-- C26: when bit 0 of the loaded `post_process_flags` is set, on a non-empty `topK` the
result of `handleInferenceAndReturnResult` over the chain of `initPostProcessChain` is
exactly the result of `processTop1Judge`; a returned outcome is therefore `TOP1_CORRECT`,
`TOP1_FALSE_START` or `TOP1_MANUAL`, and it is a function of the class of the first candidate
alone: the other mask bits, the thresholds, the scores and the later candidates do not enter
it. -/
theorem C26_first_rule_decides (env : Env) (self : App) (rect : Rect) (more : List Rect)
    (p : List ℚ) (order : ORDER_DATA) (cfg : Config) (next : App) (top1 : ℚ × E_Class)
    (others : TopK)
    (hp : rect.p_confidence_l = some p)
    (htop : getTopKPredictions env.sort (p.take NETA_CLASS_NUM) 5 0 env.class_info_recognize =
      top1 :: others)
    (hcfg : loadConfig env (self.afterGetLaneMenuCate order) .PostProcessing = .ok (cfg, next))
    (hbit : flagBit cfg.post_process_flags 0 = true) :
    Prod.fst <$> APCTestApp.handleInferenceAndReturnResult env
        APCTestAppTop2Threshold.initPostProcessChain self (rect :: more) order =
      APCTestAppTop2Threshold.processTop1Judge self order (top1 :: others)
        (env.set_lane_seat_no (getLaneMenuCate self order).1 order.seat_no)
        self.monitor_info ∧
    Prod.fst <$> APCTestApp.handleInferenceAndReturnResult env
        APCTestAppTop2Threshold.initPostProcessChain self (rect :: more) order =
      (if top1.2.class_code = order.tcommodity_cd then .ok .TOP1_CORRECT
       else evaluateMissedPrediction (getLaneMenuCate self order).1
         (getLaneMenuCate self order).2 top1.2.class_code
         (env.set_lane_seat_no (getLaneMenuCate self order).1 order.seat_no)
         self.monitor_info true) ∧
    ∀ r, Prod.fst <$> APCTestApp.handleInferenceAndReturnResult env
        APCTestAppTop2Threshold.initPostProcessChain self (rect :: more) order = .ok r →
      r = .TOP1_CORRECT ∨ r = .TOP1_FALSE_START ∨ r = .TOP1_MANUAL := by
  obtain ⟨cfg2, hcfg2⟩ := loadConfig_PostProcessing_ok env (self.afterGetLaneMenuCate order)
  have hsame : cfg2 = cfg := by
    rw [hcfg2] at hcfg
    simp only [Except.ok.injEq, Prod.mk.injEq] at hcfg
    exact hcfg.1
  subst hsame
  have hne : getTopKPredictions env.sort (p.take NETA_CLASS_NUM) 5 0
      env.class_info_recognize ≠ [] := by rw [htop]; simp
  have hloop := handle_eq_loop env APCTestAppTop2Threshold.initPostProcessChain self rect more p
    order cfg2 hp hne hcfg2
  rw [htop] at hloop
  have hfirst := chain_loop_first_hit
    { self.afterGetLaneMenuCate order with m_config := cfg2 } order (top1 :: others)
    (env.set_lane_seat_no (getLaneMenuCate self order).1 order.seat_no)
    cfg2.post_process_flags 0 APCTestAppTop2Threshold.initPostProcessChain 0
    APCTestAppTop2Threshold.processTop1Judge rfl (by simpa using hbit)
    (top1_judge_ne_NO_HIT _ order top1 others _ _)
    (fun j _ hj => absurd hj (Nat.not_lt_zero j))
  have hmain : Prod.fst <$> APCTestApp.handleInferenceAndReturnResult env
      APCTestAppTop2Threshold.initPostProcessChain self (rect :: more) order =
      APCTestAppTop2Threshold.processTop1Judge self order (top1 :: others)
        (env.set_lane_seat_no (getLaneMenuCate self order).1 order.seat_no)
        self.monitor_info := by
    rw [hloop, hfirst]
    exact top1_judge_state_irrelevant self order cfg2 _ _ _
  have hform : APCTestAppTop2Threshold.processTop1Judge self order (top1 :: others)
      (env.set_lane_seat_no (getLaneMenuCate self order).1 order.seat_no) self.monitor_info =
      (if top1.2.class_code = order.tcommodity_cd then .ok .TOP1_CORRECT
       else evaluateMissedPrediction (getLaneMenuCate self order).1
         (getLaneMenuCate self order).2 top1.2.class_code
         (env.set_lane_seat_no (getLaneMenuCate self order).1 order.seat_no)
         self.monitor_info true) := by
    simp [APCTestAppTop2Threshold.processTop1Judge, vec_at, bind, Except.bind]
  refine ⟨hmain, hmain.trans hform, fun r hr => ?_⟩
  rw [hmain, hform] at hr
  by_cases hc : top1.2.class_code = order.tcommodity_cd
  · rw [if_pos hc] at hr
    simp only [Except.ok.injEq] at hr
    exact Or.inl hr.symm
  · rw [if_neg hc] at hr
    rcases evaluateMissedPrediction_range _ _ _ _ _ _ r hr with h | h
    · exact Or.inr (Or.inl (by simpa [rankOutcome] using h))
    · exact Or.inr (Or.inr (by simpa [rankOutcome] using h))

/-- Instance of C26 at the example dish and the default mask 15: the chain returns what
`processTop1Judge` returns. -/
theorem C26_first_rule_decides_witness :
    flagBit (15 : Int) 0 = true ∧
    getTopKPredictions exampleEnv.sort (([9 / 10, 1 / 2] : List ℚ).take NETA_CLASS_NUM) 5 0
      exampleEnv.class_info_recognize = [(9 / 10, ⟨42⟩), (1 / 2, ⟨17⟩)] ∧
    Prod.fst <$> APCTestApp.handleInferenceAndReturnResult exampleEnv
        APCTestAppTop2Threshold.initPostProcessChain exampleApp
        [Rect.mk (some [9 / 10, 1 / 2])] exampleOrder =
      APCTestAppTop2Threshold.processTop1Judge exampleApp exampleOrder
        [(9 / 10, ⟨42⟩), (1 / 2, ⟨17⟩)]
        (exampleEnv.set_lane_seat_no (getLaneMenuCate exampleApp exampleOrder).1
          exampleOrder.seat_no)
        exampleApp.monitor_info :=
  ⟨by decide, example_topK,
    (C26_first_rule_decides exampleEnv exampleApp (Rect.mk (some [9 / 10, 1 / 2])) []
      [9 / 10, 1 / 2] exampleOrder (exampleApp.afterGetLaneMenuCate exampleOrder).m_config
      (exampleApp.afterGetLaneMenuCate exampleOrder) (9 / 10, ⟨42⟩) [(1 / 2, ⟨17⟩)] rfl
      example_topK rfl (by decide)).1⟩

/-! ### C27: the read of topK[1] in processTop2Judge -/

theorem resolver_returns (mi : MonitorInfo) (lane menu_category : String) (c : Int)
    (valid : List Int) (isTop1 : Bool) (hready : MonitorReady mi lane) :
    ∃ r, evaluateMissedPrediction lane menu_category c valid mi isTop1 = .ok r :=
  ⟨_, evaluateMissedPrediction_eq_lookup mi lane menu_category c valid isTop1 hready⟩

/-- C27: on a single candidate whose class is not the ordered one and which the resolver does
not turn into `TOP1_FALSE_START`, `processTop2Judge` reads `topK[1]` past the end, where
`processTop2ThreshJudge` returns `TOP2_MANUAL`. On a monitor that is ready for the order's
lane (so that the resolver returns), `processTop2Judge` on `top1 :: more` returns an outcome
exactly when there is a second candidate, or the class of `top1` is the ordered one, or
`top1` resolves to `TOP1_FALSE_START`; in the remaining case its result is the read past the
end. -/
theorem C27_top2_judge_reads_past_end (self : App) (order : ORDER_DATA) (top1 : ℚ × E_Class)
    (valid_seat_list : List Int) (monitor_info : MonitorInfo) :
    (∀ top1_result, top1.2.class_code ≠ order.tcommodity_cd →
      evaluateMissedPrediction (getLaneMenuCate self order).1 (getLaneMenuCate self order).2
        top1.2.class_code valid_seat_list monitor_info true = .ok top1_result →
      top1_result ≠ .TOP1_FALSE_START →
      APCTestAppTop2Threshold.processTop2Judge self order [top1] valid_seat_list monitor_info =
        .error .past_the_end ∧
      APCTestAppTop2Threshold.processTop2ThreshJudge self order [top1] valid_seat_list
        monitor_info = .ok .TOP2_MANUAL) ∧
    (MonitorReady monitor_info (getLaneMenuCate self order).1 →
      ∀ more : TopK,
        ((∃ r, APCTestAppTop2Threshold.processTop2Judge self order (top1 :: more)
            valid_seat_list monitor_info = .ok r) ↔
          (more ≠ [] ∨ top1.2.class_code = order.tcommodity_cd ∨
            evaluateMissedPrediction (getLaneMenuCate self order).1
              (getLaneMenuCate self order).2 top1.2.class_code valid_seat_list monitor_info
              true = .ok .TOP1_FALSE_START)) ∧
        (¬ (more ≠ [] ∨ top1.2.class_code = order.tcommodity_cd ∨
            evaluateMissedPrediction (getLaneMenuCate self order).1
              (getLaneMenuCate self order).2 top1.2.class_code valid_seat_list monitor_info
              true = .ok .TOP1_FALSE_START) →
          APCTestAppTop2Threshold.processTop2Judge self order (top1 :: more)
            valid_seat_list monitor_info = .error .past_the_end)) := by
  have hsingle : ∀ top1_result, top1.2.class_code ≠ order.tcommodity_cd →
      evaluateMissedPrediction (getLaneMenuCate self order).1 (getLaneMenuCate self order).2
        top1.2.class_code valid_seat_list monitor_info true = .ok top1_result →
      top1_result ≠ .TOP1_FALSE_START →
      APCTestAppTop2Threshold.processTop2Judge self order [top1] valid_seat_list monitor_info =
        .error .past_the_end := by
    intro r hc hr hne
    simp [APCTestAppTop2Threshold.processTop2Judge, vec_at, bind, Except.bind, hc, hr, hne]
  refine ⟨fun r hc hr hne => ⟨hsingle r hc hr hne, ?_⟩, fun hready more => ?_⟩
  · simp [APCTestAppTop2Threshold.processTop2ThreshJudge, vec_at, bind, Except.bind, hc, hr,
      hne]
  · obtain ⟨r1, hr1⟩ := resolver_returns monitor_info (getLaneMenuCate self order).1
      (getLaneMenuCate self order).2 top1.2.class_code valid_seat_list true hready
    by_cases hc : top1.2.class_code = order.tcommodity_cd
    · have hok : APCTestAppTop2Threshold.processTop2Judge self order (top1 :: more)
          valid_seat_list monitor_info = .ok .TOP1_CORRECT := by
        simp [APCTestAppTop2Threshold.processTop2Judge, vec_at, bind, Except.bind, hc]
      exact ⟨⟨fun _ => Or.inr (Or.inl hc), fun _ => ⟨_, hok⟩⟩,
        fun hn => absurd (Or.inr (Or.inl hc)) hn⟩
    · by_cases hfs : r1 = .TOP1_FALSE_START
      · subst hfs
        have hok : APCTestAppTop2Threshold.processTop2Judge self order (top1 :: more)
            valid_seat_list monitor_info = .ok .TOP1_FALSE_START := by
          simp [APCTestAppTop2Threshold.processTop2Judge, vec_at, bind, Except.bind, hc, hr1]
        exact ⟨⟨fun _ => Or.inr (Or.inr hr1), fun _ => ⟨_, hok⟩⟩,
          fun hn => absurd (Or.inr (Or.inr hr1)) hn⟩
      · cases more with
        | nil =>
          have herr := hsingle r1 hc hr1 hfs
          have hnot : ¬ (([] : TopK) ≠ [] ∨ top1.2.class_code = order.tcommodity_cd ∨
              evaluateMissedPrediction (getLaneMenuCate self order).1
                (getLaneMenuCate self order).2 top1.2.class_code valid_seat_list monitor_info
                true = .ok .TOP1_FALSE_START) := by
            rintro (h | h | h)
            · exact h rfl
            · exact hc h
            · rw [hr1] at h
              simp only [Except.ok.injEq] at h
              exact hfs h
          refine ⟨⟨fun ⟨r, hr⟩ => ?_, fun h => absurd h hnot⟩, fun _ => herr⟩
          rw [herr] at hr
          cases hr
        | cons top2 others =>
          have hok : ∃ r, APCTestAppTop2Threshold.processTop2Judge self order
              (top1 :: top2 :: others) valid_seat_list monitor_info = .ok r := by
            by_cases hc2 : top2.2.class_code = order.tcommodity_cd
            · exact ⟨.TOP2_CORRECT, by
                simp [APCTestAppTop2Threshold.processTop2Judge, vec_at, bind, Except.bind, hc,
                  hr1, hfs, hc2]⟩
            · obtain ⟨r2, hr2⟩ := resolver_returns monitor_info (getLaneMenuCate self order).1
                (getLaneMenuCate self order).2 top2.2.class_code valid_seat_list false hready
              exact ⟨r2, by
                simp [APCTestAppTop2Threshold.processTop2Judge, vec_at, bind, Except.bind, hc,
                  hr1, hfs, hc2, hr2]⟩
          exact ⟨⟨fun _ => Or.inl (by simp), fun _ => hok⟩,
            fun hn => absurd (Or.inl (by simp)) hn⟩

/-- Instance of C27 at the order of class 42 and the single candidate class 17 at 0.9, which
the example monitor records nowhere. -/
theorem C27_top2_judge_reads_past_end_witness :
    ((9 / 10, ⟨17⟩) : ℚ × E_Class).2.class_code ≠ exampleOrder.tcommodity_cd ∧
    evaluateMissedPrediction (getLaneMenuCate exampleApp exampleOrder).1
      (getLaneMenuCate exampleApp exampleOrder).2 17 [2, 3, 4] exampleMonitor true =
      .ok .TOP1_MANUAL ∧
    APCTestAppTop2Threshold.processTop2Judge exampleApp exampleOrder [(9 / 10, ⟨17⟩)] [2, 3, 4]
      exampleMonitor = .error .past_the_end ∧
    APCTestAppTop2Threshold.processTop2ThreshJudge exampleApp exampleOrder [(9 / 10, ⟨17⟩)]
      [2, 3, 4] exampleMonitor = .ok .TOP2_MANUAL :=
  ⟨by decide, by decide,
    (C27_top2_judge_reads_past_end exampleApp exampleOrder (9 / 10, ⟨17⟩) [2, 3, 4]
      exampleMonitor).1 .TOP1_MANUAL (by decide) (by decide) (by decide)⟩

/-! ### C24: the per-rule handler -/

theorem outcomeSum_increment (countor : Countor) (lane cat bucket : String)
    (hb : bucket ∈ ["TOP1正解数", "TOP2正解数", "TOP1誤出発数", "TOP1手動数", "TOP2誤出発数",
      "TOP2手動数"]) :
    outcomeSum (APCTestApp.increment countor lane cat bucket) lane cat =
      outcomeSum countor lane cat + 1 := by
  simp only [List.mem_cons, List.mem_singleton, List.not_mem_nil, or_false] at hb
  rcases hb with rfl | rfl | rfl | rfl | rfl | rfl <;>
    simp [outcomeSum, APCTestApp.increment] <;> ring

/-- Every case of the per-rule switch, the default included, adds 1 to the sum of the six
outcome buckets. -/
theorem outcomeSum_count (countor : Countor) (lane cat : String) (r : PostProcessResult) :
    outcomeSum (APCTestAppTop2Threshold.handleInferenceResult.count countor lane cat r)
        lane cat = outcomeSum countor lane cat + 1 := by
  cases r <;>
    exact outcomeSum_increment countor lane cat _ (by simp)

theorem per_rule_loop_sum (self : App) (order : ORDER_DATA) (topK : TopK) (valid : List Int)
    (flags : Int) (lane cat : String) (i : Nat) (chain : List PostProcessFunc)
    (countor result : Countor)
    (h : APCTestAppTop2Threshold.handleInferenceResult.loop self order topK valid flags lane
      cat i chain countor = .ok result) :
    outcomeSum result lane cat =
      outcomeSum countor lane cat + (enabledRules flags i chain.length : Int) := by
  induction chain generalizing i countor with
  | nil =>
    simp only [APCTestAppTop2Threshold.handleInferenceResult.loop, Except.ok.injEq] at h
    subst h
    simp [enabledRules]
  | cons rule rest ih =>
    unfold APCTestAppTop2Threshold.handleInferenceResult.loop at h
    by_cases hb : flagBit flags i = true
    · simp only [hb, if_true] at h
      cases hr : rule self order topK valid self.monitor_info with
      | error e => simp [hr, bind, Except.bind] at h
      | ok r =>
        simp only [hr, bind, Except.bind] at h
        rw [ih (i + 1) _ h, outcomeSum_count]
        simp only [List.length_cons, enabledRules, hb, if_true]
        push_cast
        ring
    · simp only [hb, Bool.false_eq_true, if_false] at h
      rw [ih (i + 1) _ h]
      simp [enabledRules, hb]

theorem example_top2 (self : App) (order : ORDER_DATA) (valid : List Int) (mi : MonitorInfo)
    (hcode : order.tcommodity_cd = 42) :
    APCTestAppTop2Threshold.processTop2Judge self order
      [(9 / 10, ⟨42⟩), (1 / 2, ⟨17⟩)] valid mi = .ok .TOP1_CORRECT := by
  simp [APCTestAppTop2Threshold.processTop2Judge, vec_at, hcode, bind, Except.bind]

theorem example_top2_thresh (self : App) (order : ORDER_DATA) (valid : List Int)
    (mi : MonitorInfo) (hcode : order.tcommodity_cd = 42) :
    APCTestAppTop2Threshold.processTop2ThreshJudge self order
      [(9 / 10, ⟨42⟩), (1 / 2, ⟨17⟩)] valid mi = .ok .TOP1_CORRECT := by
  simp [APCTestAppTop2Threshold.processTop2ThreshJudge, vec_at, hcode, bind, Except.bind]

theorem example_score_gap (self : App) (order : ORDER_DATA) (valid : List Int)
    (mi : MonitorInfo) (hcode : order.tcommodity_cd = 42) :
    APCTestApp.processScoreGapJudge self order
      [(9 / 10, ⟨42⟩), (1 / 2, ⟨17⟩)] valid mi = .ok .TOP1_CORRECT := by
  simp [APCTestApp.processScoreGapJudge, vec_at, hcode, bind, Except.bind]

theorem example_top1_code (self : App) (order : ORDER_DATA) (valid : List Int)
    (mi : MonitorInfo) (hcode : order.tcommodity_cd = 42) :
    APCTestAppTop2Threshold.processTop1Judge self order
      [(9 / 10, ⟨42⟩), (1 / 2, ⟨17⟩)] valid mi = .ok .TOP1_CORRECT := by
  simp [APCTestAppTop2Threshold.processTop1Judge, vec_at, hcode, bind, Except.bind]

/-- The per-rule handler on the example dish, for an order of class 42 and the rule mask 15
without a configuration file: the four enabled rules each count `TOP1_CORRECT`, then
`TOP2手動数` is incremented. -/
theorem example_per_rule_handler (self : App) (order : ORDER_DATA)
    (hcode : order.tcommodity_cd = 42) (hflags : self.m_config.post_process_flags = 15) :
    APCTestAppTop2Threshold.handleInferenceResult exampleEnv
        APCTestAppTop2Threshold.initPostProcessChain self [Rect.mk (some [9 / 10, 1 / 2])]
        order =
      .ok { self.afterGetLaneMenuCate order with
        countor :=
          APCTestApp.increment
            (APCTestApp.increment
              (APCTestApp.increment
                (APCTestApp.increment
                  (APCTestApp.increment self.countor (getLaneMenuCate self order).1
                    (getLaneMenuCate self order).2 "TOP1正解数")
                  (getLaneMenuCate self order).1 (getLaneMenuCate self order).2 "TOP1正解数")
                (getLaneMenuCate self order).1 (getLaneMenuCate self order).2 "TOP1正解数")
              (getLaneMenuCate self order).1 (getLaneMenuCate self order).2 "TOP1正解数")
            (getLaneMenuCate self order).1 (getLaneMenuCate self order).2 "TOP2手動数" } := by
  have hcfg : loadConfig exampleEnv (self.afterGetLaneMenuCate order) .PostProcessing =
      .ok ((self.afterGetLaneMenuCate order).m_config, self.afterGetLaneMenuCate order) := rfl
  have hf : (self.afterGetLaneMenuCate order).m_config.post_process_flags = 15 := hflags
  have b0 : flagBit (15 : Int) 0 = true := by decide
  have b1 : flagBit (15 : Int) (0 + 1) = true := by decide
  have b2 : flagBit (15 : Int) (0 + 1 + 1) = true := by decide
  have b3 : flagBit (15 : Int) (0 + 1 + 1 + 1) = true := by decide
  have b4 : flagBit (15 : Int) (0 + 1 + 1 + 1 + 1) = false := by decide
  have b5 : flagBit (15 : Int) (0 + 1 + 1 + 1 + 1 + 1) = false := by decide
  simp only [APCTestAppTop2Threshold.handleInferenceResult, example_topK, hcfg, hf,
    List.isEmpty_cons, Bool.false_eq_true, if_false, if_true,
    APCTestAppTop2Threshold.initPostProcessChain,
    APCTestAppTop2Threshold.handleInferenceResult.loop, b0, b1, b2, b3, b4, b5,
    example_top1_code _ order _ _ hcode, example_top2 _ order _ _ hcode,
    example_top2_thresh _ order _ _ hcode, example_score_gap _ order _ _ hcode,
    bind, Except.bind, pure, Except.pure,
    APCTestAppTop2Threshold.handleInferenceResult.count]
  rfl

/-- C24 (evaluation of the code): whenever the per-rule `handleInferenceResult` returns on a
non-empty `topK`, the sum of the six outcome buckets of the order's (lane, category) has
grown by the number of enabled rules of the chain plus 1, because every enabled rule's result
is counted and `TOP2手動数` is incremented after the loop in every case. For the example dish
under the default mask 15 the sum goes from 0 to 5: `TOP1正解数` is 4 and `TOP2手動数`
is 1. -/
theorem C24_per_rule_handler_counts_every_rule :
    (∀ (env : Env) (chain : List PostProcessFunc) (self app : App) (rect : Rect)
      (more : List Rect) (p : List ℚ) (order : ORDER_DATA),
      rect.p_confidence_l = some p →
      getTopKPredictions env.sort (p.take NETA_CLASS_NUM) 5 0 env.class_info_recognize ≠ [] →
      APCTestAppTop2Threshold.handleInferenceResult env chain self (rect :: more) order =
        .ok app →
      ∃ cfg next,
        loadConfig env (self.afterGetLaneMenuCate order) .PostProcessing = .ok (cfg, next) ∧
        outcomeSum app.countor (getLaneMenuCate self order).1 (getLaneMenuCate self order).2 =
          outcomeSum self.countor (getLaneMenuCate self order).1
            (getLaneMenuCate self order).2 +
          (enabledRules cfg.post_process_flags 0 chain.length : Int) + 1) ∧
    ∃ app, APCTestAppTop2Threshold.handleInferenceResult exampleEnv
        APCTestAppTop2Threshold.initPostProcessChain exampleApp
        [Rect.mk (some [9 / 10, 1 / 2])] exampleOrder = .ok app ∧
      outcomeSum exampleApp.countor "A" "nigiri" = 0 ∧
      outcomeSum app.countor "A" "nigiri" = 5 ∧
      app.countor "A" "nigiri" "TOP1正解数" = 4 ∧
      app.countor "A" "nigiri" "TOP2手動数" = 1 := by
  constructor
  · intro env chain self app rect more p order hp hne h
    obtain ⟨cfg, hcfg⟩ := loadConfig_PostProcessing_ok env (self.afterGetLaneMenuCate order)
    refine ⟨cfg, _, hcfg, ?_⟩
    have hne2 : (getTopKPredictions env.sort (p.take NETA_CLASS_NUM) 5 0
        env.class_info_recognize).isEmpty = false := by
      cases ht : getTopKPredictions env.sort (p.take NETA_CLASS_NUM) 5 0
          env.class_info_recognize
      · exact absurd ht hne
      · rfl
    simp only [APCTestAppTop2Threshold.handleInferenceResult, hp, hne2, hcfg,
      Bool.false_eq_true, if_false, bind, Except.bind] at h
    cases hl : APCTestAppTop2Threshold.handleInferenceResult.loop
        { self.afterGetLaneMenuCate order with m_config := cfg } order
        (getTopKPredictions env.sort (p.take NETA_CLASS_NUM) 5 0 env.class_info_recognize)
        (env.set_lane_seat_no (self.afterGetLaneMenuCate order).lane order.seat_no)
        cfg.post_process_flags (self.afterGetLaneMenuCate order).lane
        (self.afterGetLaneMenuCate order).menu_catecogy 0 chain
        (self.afterGetLaneMenuCate order).countor with
    | error e =>
      rw [hl] at h
      cases h
    | ok result =>
      rw [hl] at h
      simp only [pure, Except.pure, Except.ok.injEq] at h
      subst h
      have hsum := per_rule_loop_sum _ order _ _ cfg.post_process_flags _ _ 0 chain _ result hl
      show outcomeSum (APCTestApp.increment result (self.afterGetLaneMenuCate order).lane
          (self.afterGetLaneMenuCate order).menu_catecogy "TOP2手動数")
          (getLaneMenuCate self order).1 (getLaneMenuCate self order).2 = _
      have hinc := outcomeSum_increment result (self.afterGetLaneMenuCate order).lane
        (self.afterGetLaneMenuCate order).menu_catecogy "TOP2手動数" (by simp)
      have hl1 : (self.afterGetLaneMenuCate order).lane = (getLaneMenuCate self order).1 := rfl
      have hl2 : (self.afterGetLaneMenuCate order).menu_catecogy =
          (getLaneMenuCate self order).2 := rfl
      have hl3 : (self.afterGetLaneMenuCate order).countor = self.countor := rfl
      rw [hl1, hl2] at hinc hsum
      rw [hl3] at hsum
      rw [hl1, hl2, hinc, hsum]
  · refine ⟨_, example_per_rule_handler exampleApp exampleOrder rfl rfl, ?_, ?_, ?_, ?_⟩ <;>
      decide

/-! ### C23: the filter of the run loop -/

/-- The run loop does not skip the cancellation row. -/
theorem cancellation_not_skipped :
    APCTestAppTop2Threshold.run.skips cancellationRow = false := by
  decide

theorem skips_iff (row : ORDER_DATA) :
    APCTestAppTop2Threshold.run.skips row = true ↔
      (row.type = 5 ∨ row.type = 6) ∨ (row.o_c ≠ "c" ∧ row.o_c ≠ "o") := by
  simp only [APCTestAppTop2Threshold.run.skips, decide_eq_true_eq]
  exact or_comm

theorem drink_no_category (row : ORDER_DATA) (h : row.type = 5 ∨ row.type = 6) :
    getOrderData.menu_catecogy row = none := by
  unfold getOrderData.menu_catecogy
  rcases h with h | h <;> rw [h] <;> decide

/-- The updates of `getOrderData` touch no counter other than `"deletecount"` and
`"ordercount"`. -/
theorem ingest_countor_other (self : App) (row : ORDER_DATA) (l c b : String)
    (hd : b ≠ "deletecount") (ho : b ≠ "ordercount") :
    (getOrderData.ingest self row).countor l c b = self.countor l c b := by
  unfold getOrderData.ingest
  cases hm : getOrderData.menu_catecogy row with
  | none => rfl
  | some cat =>
    by_cases hoc : row.o_c = "c"
    · simp [hoc, hd]
    · simp [hoc, ho]

theorem ingest_outcomeSum (self : App) (row : ORDER_DATA) (l c : String) :
    outcomeSum (getOrderData.ingest self row).countor l c = outcomeSum self.countor l c := by
  unfold outcomeSum
  rw [ingest_countor_other self row l c "TOP1正解数" (by decide) (by decide),
    ingest_countor_other self row l c "TOP2正解数" (by decide) (by decide),
    ingest_countor_other self row l c "TOP1誤出発数" (by decide) (by decide),
    ingest_countor_other self row l c "TOP1手動数" (by decide) (by decide),
    ingest_countor_other self row l c "TOP2誤出発数" (by decide) (by decide),
    ingest_countor_other self row l c "TOP2手動数" (by decide) (by decide)]

/-- C23 (evaluation of the code): the run loop binds `order_data_row` to the reference that
`getOrderData` returns to its destroyed local, so for every line that `getOrderData` parses
the filter's first read is undefined and the iteration ends there: no row is skipped with
`continue`, a drink order and a cancellation included. What `getOrderData` did before it
returned stands: a drink order (type 5 or 6) or a cancellation (`o_c = "c"`) leaves the order
monitor as it was, and no ingestion changes the sum of the six outcome buckets. The
condition of the filter, as a function of the values it would read, holds exactly for a
drink order or an `o_c` that is neither `"c"` nor `"o"`; it is false for the cancellation
row of type 1. The lines of a drink order and of a cancellation of commodity 42 (lane 1,
seat 3, amount 1, each ending in a carriage return) are evaluated from the initial state. -/
theorem C23_filter_reads_destroyed_row :
    (∀ (env : Env) (stoi : String → Except Fault Int) (fresh : ORDER_DATA)
      (learned_sushi : List Int) (chain : List PostProcessFunc) (self self1 : App)
      (line : String) (dishes : List (Option (List Rect))) (row : ORDER_DATA),
      getOrderData stoi fresh self line = .ok (row, self1) →
      APCTestAppTop2Threshold.run.step env stoi fresh learned_sushi chain self line dishes =
        .error .dangling_reference) ∧
    (∀ (stoi : String → Except Fault Int) (fresh : ORDER_DATA) (self self1 : App)
      (line : String) (row : ORDER_DATA),
      getOrderData stoi fresh self line = .ok (row, self1) →
      (row.type = 5 ∨ row.type = 6 ∨ row.o_c = "c" →
        self1.monitor_info = self.monitor_info) ∧
      ∀ l c : String, outcomeSum self1.countor l c = outcomeSum self.countor l c) ∧
    (∀ row : ORDER_DATA, APCTestAppTop2Threshold.run.skips row = true ↔
      (row.type = 5 ∨ row.type = 6) ∨ (row.o_c ≠ "c" ∧ row.o_c ≠ "o")) ∧
    APCTestAppTop2Threshold.run.skips cancellationRow = false ∧
    getOrderData exampleStoi exampleOrder initialApp "t,1,1,3,5,x,1,x,42,x,o\r" =
      .ok ({ exampleOrder with type := 5 }, initialApp) ∧
    APCTestAppTop2Threshold.run.step exampleEnv exampleStoi exampleOrder [42]
        APCTestAppTop2Threshold.initPostProcessChain initialApp "t,1,1,3,5,x,1,x,42,x,o\r"
        [some [Rect.mk (some [9 / 10, 1 / 2])]] = .error .dangling_reference ∧
    getOrderData exampleStoi exampleOrder initialApp "t,1,1,3,1,x,1,x,42,x,c\r" =
      .ok (cancellationRow, getOrderData.ingest initialApp cancellationRow) ∧
    (getOrderData.ingest initialApp cancellationRow).monitor_info = initialApp.monitor_info ∧
    APCTestAppTop2Threshold.run.step exampleEnv exampleStoi exampleOrder [42]
        APCTestAppTop2Threshold.initPostProcessChain initialApp "t,1,1,3,1,x,1,x,42,x,c\r"
        [some [Rect.mk (some [9 / 10, 1 / 2])]] = .error .dangling_reference := by
  have hstep : ∀ (env : Env) (stoi : String → Except Fault Int) (fresh : ORDER_DATA)
      (learned_sushi : List Int) (chain : List PostProcessFunc) (self self1 : App)
      (line : String) (dishes : List (Option (List Rect))) (row : ORDER_DATA),
      getOrderData stoi fresh self line = .ok (row, self1) →
      APCTestAppTop2Threshold.run.step env stoi fresh learned_sushi chain self line dishes =
        .error .dangling_reference := by
    intro env stoi fresh learned_sushi chain self self1 line dishes row h
    simp only [APCTestAppTop2Threshold.run.step, h, APCTestAppTop2Threshold.run.order_data_row,
      bind, Except.bind]
  have hdrink : getOrderData.fields exampleStoi { exampleOrder with o_c := "" } 0
      (getline_items "t,1,1,3,5,x,1,x,42,x,o\r") = .ok { exampleOrder with type := 5 } := by
    decide
  have hdrinkrow : getOrderData exampleStoi exampleOrder initialApp
      "t,1,1,3,5,x,1,x,42,x,o\r" = .ok ({ exampleOrder with type := 5 }, initialApp) := by
    simp only [getOrderData, hdrink, bind, Except.bind, pure, Except.pure]
    rfl
  have hcancel : getOrderData.fields exampleStoi { exampleOrder with o_c := "" } 0
      (getline_items "t,1,1,3,1,x,1,x,42,x,c\r") = .ok cancellationRow := by
    decide
  have hcancelrow : getOrderData exampleStoi exampleOrder initialApp
      "t,1,1,3,1,x,1,x,42,x,c\r" =
      .ok (cancellationRow, getOrderData.ingest initialApp cancellationRow) := by
    simp only [getOrderData, hcancel, bind, Except.bind, pure, Except.pure]
  refine ⟨hstep, ?_, skips_iff, cancellation_not_skipped, hdrinkrow,
    hstep _ _ _ _ _ _ _ _ _ _ hdrinkrow, hcancelrow,
    monitor_ingest_unchanged initialApp cancellationRow (Or.inr rfl),
    hstep _ _ _ _ _ _ _ _ _ _ hcancelrow⟩
  intro stoi fresh self self1 line row h
  have hstate := getOrderData_state stoi fresh self line row self1 h
  refine ⟨fun hrow => ?_, fun l c => ?_⟩
  · rw [hstate]
    apply monitor_ingest_unchanged
    rcases hrow with h5 | h6 | hc
    · exact Or.inl (drink_no_category row (Or.inl h5))
    · exact Or.inl (drink_no_category row (Or.inr h6))
    · exact Or.inr hc
  · rw [hstate, ingest_outcomeSum]
